import Mathlib

/-!
# Task API: a shallow embedding of the backend controllers

The development follows `backend/controllers/taskController.js`,
`backend/controllers/authController.js`, `backend/controllers/userController.js`,
`backend/routes/taskRoutes.js`, `backend/routes/userRoutes.js`,
`backend/utils/responseUtils.js`, and on the client side the submit handler of
`frontend/src/components/Tasks/TaskForm.jsx` and the loader of
`frontend/src/pages/DashboardPage.jsx`.

Modelling conventions.

* The document store is a pair of lists (users, tasks). The order of a list is
  the order in which the store hands the documents to a query; it is no part
  of what the API exposes, and the store promises no order among documents
  with equal sort keys, so two requests may find the same documents in
  different orders. `find` keeps the matching documents in that order, `sort`
  orders them by the BSON order of the sort key (documents with equal keys
  stay in the order found), `skip` drops and `limit` takes a window. That no
  two stored tasks share an id is a hypothesis of the theorems that need it.
* The schemas `models/Task.js` and `models/User.js` are not among the sources.
  A store operation writes the fields that the handler passes to it and no
  other field: neither the sources nor the spec state a rule by which the
  store would change `updatedAt` or any other field on its own.
* The numbers a handler reads with `parseInt` are integers held by the number
  type of the runtime, exact up to 2^53 and rounded beyond, or `NaN` or an
  infinity. Counts of stored documents are below 2^53, so that the
  arithmetic on them is exact.
* Query-string values are strings.
* Handlers are functions from the store (and the clock, where the handler reads
  it) to the response envelope and the next store. An exception caught by the
  handler's `catch` block is the 500 envelope of that block. The handlers
  named `...WithFaults` take a parameter saying which of their store calls
  throw; a call that throws leaves the store as it was.
* The regular-expression engine of the runtime is a parameter `re` of the
  handlers that build a `RegExp`; `none` stands for the `SyntaxError` thrown by
  the constructor.
-/

namespace TaskApi

/-! ## Data model -/

/-- Document identifiers. -/
abbrev ObjectId := Nat

/-- Instants, in milliseconds since the epoch. -/
abbrev Date := Int

/-- Modelled from the spec: `models/User.js` is not among the sources; the
fields are those of the User record of the data model. -/
structure User where
  id : ObjectId
  name : String
  email : String
  password : String
  role : String
  isActive : Bool
  lastLogin : Option Date
  createdAt : Date
  updatedAt : Date
deriving DecidableEq, Repr

/-- Modelled from the spec: `models/Task.js` is not among the sources; the
fields are those of the Task record of the data model. `user` is the owner. -/
structure Task where
  id : ObjectId
  user : ObjectId
  title : String
  description : Option String
  status : String
  priority : String
  dueDate : Option Date
  category : Option String
  tags : List String
  isCompleted : Bool
  completedAt : Option Date
  createdAt : Date
  updatedAt : Date
deriving DecidableEq, Repr

/-- The persistent state: both collections, each in the order in which the
store hands its documents to a query. -/
structure Store where
  users : List User
  tasks : List Task
deriving DecidableEq, Repr

/-- The projection `populate('user', 'name email')` puts in place of the owner id. -/
structure UserRef where
  id : ObjectId
  name : String
  email : String
deriving DecidableEq, Repr

/-- A task document after `populate`: `user` is `none` when the owner id names
no stored user. `doc` keeps the stored document. -/
structure PopulatedTask where
  doc : Task
  user : Option UserRef
deriving DecidableEq, Repr

/-- JavaScript numbers that the pagination envelope can hold. -/
inductive JsNumber where
  | int (n : Int)
  | nan
  | infinity
deriving DecidableEq, Repr

/-- The `<` of JavaScript on these numbers: false whenever `NaN` is involved. -/
def JsNumber.lt : JsNumber → JsNumber → Bool
  | .int a, .int b => decide (a < b)
  | .int _, .infinity => true
  | _, _ => false

/-- The `pagination` object of the task list response. -/
structure Pagination where
  currentPage : Int
  totalPages : JsNumber
  totalTasks : Nat
  hasNext : Bool
  hasPrev : Bool
deriving DecidableEq, Repr

/-- The per-status counts returned by `Task.getUserStats`. -/
structure StatusStats where
  pending : Nat
  inProgress : Nat
  completed : Nat
  total : Nat
deriving DecidableEq, Repr

/-- The `user` object of the register and login responses: the four keys
`id`, `name`, `email` and `role`. -/
structure AuthUser where
  id : ObjectId
  name : String
  email : String
  role : String
deriving DecidableEq, Repr

/-- A user document as a query returns it by default, without the password
(which a query returns only on `select('+password')`). -/
structure UserView where
  id : ObjectId
  name : String
  email : String
  role : String
  isActive : Bool
  lastLogin : Option Date
  createdAt : Date
  updatedAt : Date
deriving DecidableEq, Repr

/-- The `data` member of the envelope, one constructor per shape sent by the
handlers: the task list, `task`, the pair `user` and `token` of the auth
responses, `user` alone (`none` is JavaScript `null`), the three statistics of
`getTaskStats`, a user with its task statistics, and the user list (whose
pagination object names its count `totalUsers`; the field `totalTasks` of
`Pagination` holds it). -/
inductive Data where
  | taskList (tasks : List PopulatedTask) (pagination : Pagination) (stats : StatusStats)
  | task (task : Option PopulatedTask)
  | auth (user : AuthUser) (token : String)
  | user (user : Option UserView)
  | stats (statusStats : StatusStats) (priorityStats : List (String × Nat)) (overdueTasks : Nat)
  | userWithStats (user : UserView) (taskStats : StatusStats)
  | userList (users : List UserView) (pagination : Pagination)
deriving DecidableEq, Repr

/-- The response: the status written by `res.status` and the JSON body. -/
structure Response where
  statusCode : Nat
  success : Bool
  message : String
  data : Option Data
  errors : Option (List String)
deriving DecidableEq, Repr

/-! ## `utils/responseUtils.js` -/

/-- `sendResponse(res, statusCode, message, data = null)`; `none` is the
default `null`, for which the body has no `data` member. -/
def sendResponse (statusCode : Nat) (message : String) (data : Option Data) : Response :=
  { statusCode := statusCode, success := decide (statusCode < 400), message := message,
    data := data, errors := none }

/-- `sendError(res, statusCode, message, errors = null)`. -/
def sendError (statusCode : Nat) (message : String) (errors : Option (List String)) :
    Response :=
  { statusCode := statusCode, success := false, message := message, data := none,
    errors := errors }

/-- `sendSuccess(res, message, data = null, statusCode = 200)`. -/
def sendSuccess (message : String) (data : Option Data) (statusCode : Nat) : Response :=
  sendResponse statusCode message data

/-! ## `parseInt` and `Math.ceil` -/

/-- White space skipped by `parseInt` (the `StrWhiteSpaceChar` code points). -/
def isJsWhiteSpace (c : Char) : Bool :=
  c.toNat ∈ [9, 10, 11, 12, 13, 32, 160, 5760, 8232, 8233, 8239, 8287, 12288, 65279]
    || (8192 ≤ c.toNat && c.toNat ≤ 8202)

/-- Value of a digit character in radix up to 36. -/
def digitValue (c : Char) : Option Nat :=
  if 48 ≤ c.toNat ∧ c.toNat ≤ 57 then some (c.toNat - 48)
  else if 97 ≤ c.toNat ∧ c.toNat ≤ 122 then some (c.toNat - 87)
  else if 65 ≤ c.toNat ∧ c.toNat ≤ 90 then some (c.toNat - 55)
  else none

/-- The longest leading run of digits valid in the radix, as digit values. -/
def leadingDigits (radix : Nat) : List Char → List Nat
  | [] => []
  | c :: cs =>
    match digitValue c with
    | some d => if d < radix then d :: leadingDigits radix cs else []
    | none => []

/-- Sign prefix of the `parseInt` input: whether it is negative, and the rest. -/
def splitSign : List Char → Bool × List Char
  | '-' :: cs => (true, cs)
  | '+' :: cs => (false, cs)
  | cs => (false, cs)

/-- Radix prefix of the `parseInt` input when no radix argument is given. -/
def splitRadix : List Char → Nat × List Char
  | '0' :: 'x' :: cs => (16, cs)
  | '0' :: 'X' :: cs => (16, cs)
  | cs => (10, cs)

/-- The least `e`, from `e` on and within `fuel` steps, with `n < 2 ^ (53 + e)`:
the power of two by which a 53-bit significand is scaled to hold `n`. -/
def binaryExponent (n : Nat) : Nat → Nat → Option Nat
  | 0, _ => none
  | fuel + 1, e => if n < 2 ^ (53 + e) then some e else binaryExponent n fuel (e + 1)

/-- The number value of a natural number: the nearest value of the runtime's
number type, which holds 53 significant bits scaled by a power of two up to
2^971 (a tie goes to the even significand). Numbers up to 2^53 are held
exactly; `none` is `Infinity`, the value of the numbers from 2^1024 - 2^970 on. -/
def toNumber (n : Nat) : Option Nat :=
  match binaryExponent n 972 0 with
  | none => none
  | some e =>
    let q := n / 2 ^ e
    let r := n % 2 ^ e
    let significand := if 2 ^ e < 2 * r ∨ (2 * r = 2 ^ e ∧ q % 2 = 1) then q + 1 else q
    if significand < 2 ^ 53 ∨ e < 971 then some (significand * 2 ^ e) else none

/-- `parseInt(s)` with no radix argument: the number value of the integer that
the leading digits denote. `none` is a result that is no finite number: `NaN`
when there is no digit, an infinity when the digits denote an integer beyond
the range of the number type. -/
def parseInt (s : String) : Option Int :=
  let body := splitSign (s.data.dropWhile isJsWhiteSpace)
  let digits := splitRadix body.2
  match leadingDigits digits.1 digits.2 with
  | [] => none
  | ds =>
    (toNumber (ds.foldl (fun acc d => acc * digits.1 + d) 0)).map
      (fun n => if body.1 then -(n : Int) else (n : Int))

/-- `Math.ceil(total / limitNum)` for a count `total` (below 2^53, where the
division of the runtime gives the same ceiling as the exact one) and an
integer `limitNum`. -/
def mathCeilDiv (total : Nat) (limitNum : Int) : JsNumber :=
  if limitNum = 0 then (if total = 0 then .nan else .infinity)
  else if 0 < limitNum then .int (-((-(total : Int)) / limitNum))
  else .int ((total : Int) / limitNum)

/-! ## The document store -/

/-- The values a sort key of a task can take, with `emptyArray` for an empty
`tags` array (which the store orders before `null`). -/
inductive Bson where
  | emptyArray
  | null
  | string (s : String)
  | objectId (n : ObjectId)
  | bool (b : Bool)
  | date (d : Date)
deriving DecidableEq, Repr

/-- Position of the value's type in the store's cross-type order. -/
def Bson.rank : Bson → Nat
  | .emptyArray => 0
  | .null => 1
  | .string _ => 2
  | .objectId _ => 3
  | .bool _ => 4
  | .date _ => 5

/-- The store's order on sort keys: by type first, then by value; strings
compare by code points, lexicographically. -/
def Bson.le : Bson → Bson → Bool
  | .string a, .string b => !decide (b.data < a.data)
  | .objectId a, .objectId b => decide (a ≤ b)
  | .bool a, .bool b => !a || b
  | .date a, .date b => decide (a ≤ b)
  | a, b => decide (a.rank ≤ b.rank)

/-- A nullable field as a sort key. -/
def Bson.ofOption {α : Type} (f : α → Bson) : Option α → Bson
  | some a => f a
  | none => .null

/-- The least string of a list (the key of an array in an ascending sort). -/
def minString : List String → Option String
  | [] => none
  | s :: ss => some (ss.foldl (fun m x => if x.data < m.data then x else m) s)

/-- The greatest string of a list (the key of an array in a descending sort). -/
def maxString : List String → Option String
  | [] => none
  | s :: ss => some (ss.foldl (fun m x => if m.data < x.data then x else m) s)

/-- The sort key of a task for the path `sortBy` and direction `dir` (1 or -1).
A path that names no field of the document gives `null`. -/
def Task.sortKey (sortBy : String) (dir : Int) (t : Task) : Bson :=
  if sortBy = "_id" then .objectId t.id
  else if sortBy = "user" then .objectId t.user
  else if sortBy = "title" then .string t.title
  else if sortBy = "description" then Bson.ofOption .string t.description
  else if sortBy = "status" then .string t.status
  else if sortBy = "priority" then .string t.priority
  else if sortBy = "dueDate" then Bson.ofOption .date t.dueDate
  else if sortBy = "category" then Bson.ofOption .string t.category
  else if sortBy = "tags" then
    match (if dir = -1 then maxString t.tags else minString t.tags) with
    | some s => .string s
    | none => .emptyArray
  else if sortBy = "isCompleted" then .bool t.isCompleted
  else if sortBy = "completedAt" then Bson.ofOption .date t.completedAt
  else if sortBy = "createdAt" then .date t.createdAt
  else if sortBy = "updatedAt" then .date t.updatedAt
  else .null

/-- Whether `a` may come before `b` in a sort on `sortBy` in direction `dir`. -/
def sortRel (sortBy : String) (dir : Int) (a b : Task) : Prop :=
  if dir = -1 then Bson.le (b.sortKey sortBy dir) (a.sortKey sortBy dir) = true
  else Bson.le (a.sortKey sortBy dir) (b.sortKey sortBy dir) = true

instance (sortBy : String) (dir : Int) : DecidableRel (sortRel sortBy dir) := fun a b =>
  inferInstanceAs (Decidable
    (if dir = -1 then Bson.le (b.sortKey sortBy dir) (a.sortKey sortBy dir) = true
     else Bson.le (a.sortKey sortBy dir) (b.sortKey sortBy dir) = true))

/-- The cursor's `sort({[sortBy]: dir})` on the documents in the order in which
the store hands them over (`l`). The sort object holds the one key `sortBy`:
documents with equal keys stay in the order of `l`, which the store does not
fix, so that the same documents handed over in another order can come out in
another order. -/
def sortTasks (sortBy : String) (dir : Int) (l : List Task) : List Task :=
  l.insertionSort (sortRel sortBy dir)

/-- The matcher behind `new RegExp(pattern, 'i')` used as a filter value: it
tells whether the expression matches somewhere in a string. `none` is the
`SyntaxError` of the constructor. -/
abbrev RegExpEngine := String → Option (String → Bool)

/-- The filter object of `getTasks`. -/
structure Filter where
  user : ObjectId
  status : Option String
  priority : Option String
  category : Option (String → Bool)

/-- Whether a stored task satisfies the filter: equality on `user`, `status`
and `priority`, and a regular-expression match on `category` (a task without a
category matches no expression). -/
def Filter.matches (f : Filter) (t : Task) : Bool :=
  decide (t.user = f.user)
    && (match f.status with
        | some s => decide (t.status = s)
        | none => true)
    && (match f.priority with
        | some p => decide (t.priority = p)
        | none => true)
    && (match f.category with
        | some m =>
          (match t.category with
           | some c => m c
           | none => false)
        | none => true)

/-- The cursor's `skip(skip).limit(limitNum)`. The store rejects a negative
skip; a limit of 0 is no limit and a negative limit counts as its absolute
value. -/
def window (skip limitNum : Int) (l : List Task) : Option (List Task) :=
  if skip < 0 then none
  else if limitNum = 0 then some (l.drop skip.toNat)
  else some ((l.drop skip.toNat).take limitNum.natAbs)

/-- The join `populate('user', 'name email')`. -/
def populate (store : Store) (t : Task) : PopulatedTask :=
  { doc := t
    user := (store.users.find? (fun u => decide (u.id = t.user))).map
      (fun u => { id := u.id, name := u.name, email := u.email }) }

/-- The call `Task.countDocuments(filter)`. -/
def countDocuments (store : Store) (f : Filter) : Nat :=
  (store.tasks.filter f.matches).length

/-- Modelled from the spec: the static `Task.getUserStats` of `models/Task.js`
is not among the sources; it counts the owner's tasks per status value, plus a
total. -/
def getUserStats (store : Store) (userId : ObjectId) : StatusStats :=
  let own := store.tasks.filter (fun t => decide (t.user = userId))
  { pending := (own.filter (fun t => decide (t.status = "pending"))).length
    inProgress := (own.filter (fun t => decide (t.status = "in-progress"))).length
    completed := (own.filter (fun t => decide (t.status = "completed"))).length
    total := own.length }

/-! ## `controllers/taskController.js`: `getTasks` -/

/-- The object `req.query`: the string parameters of the URL by key. -/
abbrev Query := List (String × String)

/-- A filter parameter that is present: the value under the key when it is
truthy, that is, not the empty string. -/
def supplied (query : Query) (key : String) : Option String :=
  (query.lookup key).filter (fun s => s ≠ "")

/-- Lines 12 to 16 of `getTasks`: the owner comes from `req.user.id`; an absent
or empty parameter adds no constraint. `none` when `new RegExp` throws. -/
def buildFilter (re : RegExpEngine) (userId : ObjectId) (query : Query) : Option Filter :=
  let status := supplied query "status"
  let priority := supplied query "priority"
  match supplied query "category" with
  | none => some { user := userId, status := status, priority := priority, category := none }
  | some c =>
    match re c with
    | some m => some { user := userId, status := status, priority := priority, category := some m }
    | none => none

/-- The handler `getTasks(req, res)` for `req.user.id = userId` and
`req.query = query`. The three exits through the `catch` block are the
`SyntaxError` of `new RegExp`, a skip or limit that is `NaN` or infinite (the
store's answer to it is modelled as a rejection) and a negative skip. The
product `skip` is taken exactly; the runtime rounds it beyond 2^53, where the
window is empty for every store of fewer than 2^53 tasks either way. -/
def getTasks (re : RegExpEngine) (store : Store) (userId : ObjectId) (query : Query) :
    Response :=
  let page := (query.lookup "page").getD "1"
  let limit := (query.lookup "limit").getD "10"
  let sortBy := (query.lookup "sortBy").getD "createdAt"
  let sortOrder := (query.lookup "sortOrder").getD "desc"
  match buildFilter re userId query with
  | none => sendError 500 "Error retrieving tasks" none
  | some filter =>
    match parseInt page, parseInt limit with
    | some pageNum, some limitNum =>
      let skip := (pageNum - 1) * limitNum
      let dir : Int := if sortOrder = "desc" then -1 else 1
      match window skip limitNum (sortTasks sortBy dir (store.tasks.filter filter.matches)) with
      | none => sendError 500 "Error retrieving tasks" none
      | some tasks =>
        let total := countDocuments store filter
        let totalPages := mathCeilDiv total limitNum
        let stats := getUserStats store userId
        sendSuccess "Tasks retrieved successfully"
          (some (.taskList (tasks.map (populate store))
            { currentPage := pageNum
              totalPages := totalPages
              totalTasks := total
              hasNext := JsNumber.lt (.int pageNum) totalPages
              hasPrev := decide (pageNum > 1) }
            stats)) 200
    | _, _ => sendError 500 "Error retrieving tasks" none

/-! ## `controllers/taskController.js`: single-task handlers

`req.params.id` reaches the handlers as the result of the store's cast of the
string to a document id: `none` is a string that is no document id, for which
the query throws and the handler answers from its `catch` block. -/

/-- The query `Task.findOne({ _id: id, user: userId })`. -/
def findOneTask (store : Store) (id userId : ObjectId) : Option Task :=
  store.tasks.find? (fun t => decide (t.id = id) && decide (t.user = userId))

/-- Replace the first element satisfying `p` by its image under `f`. -/
def updateFirst (p : Task → Bool) (f : Task → Task) : List Task → List Task
  | [] => []
  | t :: ts => if p t then f t :: ts else t :: updateFirst p f ts

/-- The call `Task.findByIdAndUpdate(id, update, { new: true })`: the first
document with that id gets the fields of the update document; the result is
the updated document, or `none` (JavaScript `null`) when no document has the id. -/
def findByIdAndUpdate (store : Store) (id : ObjectId) (update : Task → Task) :
    Option Task × Store :=
  match store.tasks.find? (fun t => decide (t.id = id)) with
  | none => (none, store)
  | some t =>
    (some (update t),
     { store with
       tasks := updateFirst (fun t => decide (t.id = id)) update store.tasks })

/-- The call `Task.findByIdAndDelete(id)`. -/
def findByIdAndDelete (store : Store) (id : ObjectId) : Store :=
  { store with tasks := store.tasks.eraseP (fun t => decide (t.id = id)) }

/-- The handler `getTask(req, res)`. -/
def getTask (store : Store) (userId : ObjectId) (id : Option ObjectId) : Response :=
  match id with
  | none => sendError 500 "Error retrieving task" none
  | some id =>
    match findOneTask store id userId with
    | none => sendError 404 "Task not found" none
    | some task =>
      sendSuccess "Task retrieved successfully" (some (.task (some (populate store task)))) 200

/-- The fields `updateTask` reads from `req.body`; `none` is an absent key. -/
structure TaskUpdateBody where
  title : Option String
  description : Option String
  status : Option String
  priority : Option String
  dueDate : Option Date
  category : Option String
  tags : Option (List String)
deriving DecidableEq, Repr

/-- Modelled from the spec: the schema validators of `models/Task.js`, which is
not among the sources, as run by `runValidators: true` on the supplied fields:
title of 1 to 100 characters, description of at most 500, status and priority
in their enumerations, category of at most 50 and each tag of at most 30. -/
def validUpdate (b : TaskUpdateBody) : Bool :=
  (match b.title with
   | some s => decide (1 ≤ s.length ∧ s.length ≤ 100)
   | none => true)
  && (match b.description with
      | some s => decide (s.length ≤ 500)
      | none => true)
  && (match b.status with
      | some s => decide (s ∈ ["pending", "in-progress", "completed"])
      | none => true)
  && (match b.priority with
      | some s => decide (s ∈ ["low", "medium", "high"])
      | none => true)
  && (match b.category with
      | some s => decide (s.length ≤ 50)
      | none => true)
  && (match b.tags with
      | some ts => ts.all (fun s => decide (s.length ≤ 30))
      | none => true)

/-- The update document of `updateTask` applied to a stored task: a key whose
value is `undefined` is left out of the update. -/
def applyUpdate (b : TaskUpdateBody) (t : Task) : Task :=
  { t with
    title := b.title.getD t.title
    description := b.description.orElse (fun _ => t.description)
    status := b.status.getD t.status
    priority := b.priority.getD t.priority
    dueDate := b.dueDate.orElse (fun _ => t.dueDate)
    category := b.category.orElse (fun _ => t.category)
    tags := b.tags.getD t.tags }

/-- The handler `updateTask(req, res)`. -/
def updateTask (store : Store) (userId : ObjectId) (id : Option ObjectId)
    (body : TaskUpdateBody) : Response × Store :=
  match id with
  | none => (sendError 500 "Error updating task" none, store)
  | some id =>
    match findOneTask store id userId with
    | none => (sendError 404 "Task not found" none, store)
    | some _ =>
      if validUpdate body then
        let r := findByIdAndUpdate store id (applyUpdate body)
        (sendSuccess "Task updated successfully"
          (some (.task (r.1.map (populate r.2)))) 200, r.2)
      else (sendError 500 "Error updating task" none, store)

/-- The handler `deleteTask(req, res)`. -/
def deleteTask (store : Store) (userId : ObjectId) (id : Option ObjectId) : Response × Store :=
  match id with
  | none => (sendError 500 "Error deleting task" none, store)
  | some id =>
    match findOneTask store id userId with
    | none => (sendError 404 "Task not found" none, store)
    | some _ => (sendSuccess "Task deleted successfully" none 200, findByIdAndDelete store id)

/-- The update document of `toggleTaskCompletion` for the new status, at the
instant `now` read by `new Date()`. -/
def toggleUpdate (newStatus : String) (now : Date) (t : Task) : Task :=
  { t with
    status := newStatus
    isCompleted := decide (newStatus = "completed")
    completedAt := if newStatus = "completed" then some now else none }

/-- The handler `toggleTaskCompletion(req, res)` at the instant `now`. -/
def toggleTaskCompletion (store : Store) (userId : ObjectId) (id : Option ObjectId)
    (now : Date) : Response × Store :=
  match id with
  | none => (sendError 500 "Error updating task status" none, store)
  | some id =>
    match findOneTask store id userId with
    | none => (sendError 404 "Task not found" none, store)
    | some task =>
      let newStatus := if task.status = "completed" then "pending" else "completed"
      let r := findByIdAndUpdate store id (toggleUpdate newStatus now)
      (sendSuccess "Task status updated successfully"
        (some (.task (r.1.map (populate r.2)))) 200, r.2)

/-! ## `controllers/taskController.js`: `createTask`, and the two-call handlers
under interleaving -/

/-- The object `req.body` of the task routes: the keys the task handlers
destructure, with values of the types the schema casts them to, and every
other key of the object (such as `user`, `isCompleted` or `completedAt`) with
its value. -/
structure TaskBody extends TaskUpdateBody where
  others : List (String × String)
deriving DecidableEq, Repr

/-- Modelled from the spec: the schema validators of `models/Task.js`, which is
not among the sources, as run by `Task.create`: a required title of 1 to 100
characters, a description of at most 500, a priority in its enumeration, a
category of at most 50 and each tag of at most 30. -/
def validCreate (b : TaskBody) : Bool :=
  (match b.title with
   | some s => decide (1 ≤ s.length ∧ s.length ≤ 100)
   | none => false)
  && (match b.description with
      | some s => decide (s.length ≤ 500)
      | none => true)
  && (match b.priority with
      | some s => decide (s ∈ ["low", "medium", "high"])
      | none => true)
  && (match b.category with
      | some s => decide (s.length ≤ 50)
      | none => true)
  && (match b.tags with
      | some ts => ts.all (fun s => decide (s.length ≤ 30))
      | none => true)

/-- Modelled from the spec: the document `Task.create` builds from the object
of lines 87 to 95, with the defaults of the data model (status `pending`,
priority `medium`, no tags, not completed) and both timestamps at `now`. The
object has no `status` key, so the status is the default. -/
def newTask (id userId : ObjectId) (b : TaskBody) (now : Date) : Task :=
  { id := id
    user := userId
    title := b.title.getD ""
    description := b.description
    status := "pending"
    priority := b.priority.getD "medium"
    dueDate := b.dueDate
    category := b.category
    tags := b.tags.getD []
    isCompleted := false
    completedAt := none
    createdAt := now
    updatedAt := now }

/-- The handler `createTask(req, res)` at the instant `now`; `newId` is the id
the store generates for the document. A body the validators reject, or an id
already in use, makes `Task.create` throw. -/
def createTask (store : Store) (userId : ObjectId) (body : TaskBody) (newId : ObjectId)
    (now : Date) : Response × Store :=
  if validCreate body && !(store.tasks.any (fun t => decide (t.id = newId))) then
    let task := newTask newId userId body now
    let created : Store := { store with tasks := store.tasks ++ [task] }
    let populatedTask :=
      (created.tasks.find? (fun t => decide (t.id = task.id))).map (populate created)
    (sendSuccess "Task created successfully" (some (.task populatedTask)) 201, created)
  else (sendError 500 "Error creating task" none, store)

/-- The handler `updateTask` with its two store calls on two states of the
store: `Task.findOne` reads `store`, and `Task.findByIdAndUpdate` runs on
`later`, the store as the requests of other clients have left it in between. -/
def updateTaskInterleaved (store later : Store) (userId : ObjectId) (id : Option ObjectId)
    (body : TaskUpdateBody) : Response × Store :=
  match id with
  | none => (sendError 500 "Error updating task" none, store)
  | some id =>
    match findOneTask store id userId with
    | none => (sendError 404 "Task not found" none, store)
    | some _ =>
      if validUpdate body then
        let r := findByIdAndUpdate later id (applyUpdate body)
        (sendSuccess "Task updated successfully"
          (some (.task (r.1.map (populate r.2)))) 200, r.2)
      else (sendError 500 "Error updating task" none, later)

/-- The handler `toggleTaskCompletion` with its two store calls on two states
of the store, as for `updateTaskInterleaved`. -/
def toggleTaskCompletionInterleaved (store later : Store) (userId : ObjectId)
    (id : Option ObjectId) (now : Date) : Response × Store :=
  match id with
  | none => (sendError 500 "Error updating task status" none, store)
  | some id =>
    match findOneTask store id userId with
    | none => (sendError 404 "Task not found" none, store)
    | some task =>
      let newStatus := if task.status = "completed" then "pending" else "completed"
      let r := findByIdAndUpdate later id (toggleUpdate newStatus now)
      (sendSuccess "Task status updated successfully"
        (some (.task (r.1.map (populate r.2)))) 200, r.2)

/-! ## `controllers/authController.js`

The handlers call code of `models/User.js` and `utils/jwtUtils.js`, which are
not among the sources. What the spec says of it is modelled below; what the
spec leaves open (the hash, the comparison of a password with a hash, the
token, the schema validators) is the parameter `AuthDeps`. -/

/-- The functions of the user model and the token utility that the auth
handlers call: the hash applied to a password when a user document is saved,
`user.comparePassword(candidate)` as a function of the candidate and the
stored hash, `generateToken(id)`, and the schema validators on name, email and
password. -/
structure AuthDeps where
  hashPassword : String → String
  comparePassword : String → String → Bool
  generateToken : ObjectId → String
  validName : String → Bool
  validEmail : String → Bool
  validPassword : String → Bool

/-- Modelled from the spec: emails are unique case-insensitively, so a query
on `email` matches a stored email up to letter case. -/
def sameEmail (a b : String) : Bool :=
  decide (a.data.map Char.toLower = b.data.map Char.toLower)

/-- The query `User.findOne({ email })`. -/
def findUserByEmail (store : Store) (email : String) : Option User :=
  store.users.find? (fun u => sameEmail u.email email)

/-- The query `User.findById(id)`. -/
def findUserById (store : Store) (id : ObjectId) : Option User :=
  store.users.find? (fun u => decide (u.id = id))

/-- Replace the first user satisfying `p` by its image under `f`. -/
def updateFirstUser (p : User → Bool) (f : User → User) : List User → List User
  | [] => []
  | u :: us => if p u then f u :: us else u :: updateFirstUser p f us

/-- A user document without its password. -/
def User.view (u : User) : UserView :=
  { id := u.id, name := u.name, email := u.email, role := u.role, isActive := u.isActive,
    lastLogin := u.lastLogin, createdAt := u.createdAt, updatedAt := u.updatedAt }

/-- The object `user` of lines 29 to 34 and 76 to 81. -/
def User.authUser (u : User) : AuthUser :=
  { id := u.id, name := u.name, email := u.email, role := u.role }

/-- The fields `register` reads from `req.body`. -/
structure RegisterBody where
  name : String
  email : String
  password : String
deriving DecidableEq, Repr

/-- Modelled from the spec: the document `User.create` stores, with the
password hashed, role `user`, active, never logged in, and both timestamps at
`now`. -/
def newUser (deps : AuthDeps) (id : ObjectId) (b : RegisterBody) (now : Date) : User :=
  { id := id
    name := b.name
    email := b.email
    password := deps.hashPassword b.password
    role := "user"
    isActive := true
    lastLogin := none
    createdAt := now
    updatedAt := now }

/-- The handler `register(req, res)` at the instant `now`; `newId` is the id
the store generates. A body the validators reject, or an id already in use,
makes `User.create` throw. -/
def register (deps : AuthDeps) (store : Store) (body : RegisterBody) (newId : ObjectId)
    (now : Date) : Response × Store :=
  match findUserByEmail store body.email with
  | some _ => (sendError 400 "User already exists with this email" none, store)
  | none =>
    if deps.validName body.name && deps.validEmail body.email
        && deps.validPassword body.password
        && !(store.users.any (fun u => decide (u.id = newId))) then
      let user := newUser deps newId body now
      let token := deps.generateToken user.id
      (sendSuccess "User registered successfully" (some (.auth user.authUser token)) 201,
       { store with users := store.users ++ [user] })
    else (sendError 500 "Error registering user" none, store)

/-- The fields `login` reads from `req.body`. -/
structure LoginBody where
  email : String
  password : String
deriving DecidableEq, Repr

/-- The call `user.save()` after `user.lastLogin = new Date()`: the stored
document with the id of `user` gets the new `lastLogin`. -/
def saveLastLogin (store : Store) (user : User) (now : Date) : Store :=
  { store with
    users := updateFirstUser (fun u => decide (u.id = user.id))
      (fun u => { u with lastLogin := some now }) store.users }

/-- The handler `login(req, res)` at the instant `now`. -/
def login (deps : AuthDeps) (store : Store) (body : LoginBody) (now : Date) :
    Response × Store :=
  match findUserByEmail store body.email with
  | none => (sendError 400 "Invalid credentials" none, store)
  | some user =>
    if !user.isActive then (sendError 400 "Account is deactivated" none, store)
    else if !deps.comparePassword body.password user.password then
      (sendError 400 "Invalid credentials" none, store)
    else
      let token := deps.generateToken user.id
      (sendSuccess "Login successful" (some (.auth user.authUser token)) 200,
       saveLastLogin store user now)

/-- The fields `updateProfile` reads from `req.body`; `none` is an absent key. -/
structure ProfileBody where
  name : Option String
  email : Option String
deriving DecidableEq, Repr

/-- The query `User.findOne({ email, _id: { $ne: userId } })`. -/
def findOtherUserByEmail (store : Store) (email : String) (userId : ObjectId) : Option User :=
  store.users.find? (fun u => sameEmail u.email email && !decide (u.id = userId))

/-- The call `User.findByIdAndUpdate(userId, { name, email }, { new: true })`:
a key whose value is `undefined` is left out of the update; the first document
with the id gets the supplied fields. -/
def updateUserById (store : Store) (userId : ObjectId) (b : ProfileBody) :
    Option User × Store :=
  match findUserById store userId with
  | none => (none, store)
  | some u =>
    (some { u with name := b.name.getD u.name, email := b.email.getD u.email },
     { store with
       users := updateFirstUser (fun u => decide (u.id = userId))
         (fun u => { u with name := b.name.getD u.name, email := b.email.getD u.email })
         store.users })

/-- The handler `updateProfile(req, res)` for `req.user.id = userId`. The
conflict check runs for a truthy email only; a supplied field the validators
reject makes the update throw. -/
def updateProfile (deps : AuthDeps) (store : Store) (userId : ObjectId) (body : ProfileBody) :
    Response × Store :=
  match (body.email.filter (fun e => e ≠ "")).bind
      (fun e => findOtherUserByEmail store e userId) with
  | some _ => (sendError 400 "Email is already taken" none, store)
  | none =>
    if (match body.name with
        | some n => deps.validName n
        | none => true)
      && (match body.email with
          | some e => deps.validEmail e
          | none => true) then
      let r := updateUserById store userId body
      (sendSuccess "Profile updated successfully" (some (.user (r.1.map User.view))) 200, r.2)
    else (sendError 500 "Error updating profile" none, store)

/-! ## `controllers/taskController.js`: `getTaskStats` -/

/-- Count one more document with the priority `p`: the pair of `p` gets one
more, or a new pair is added at the end. -/
def countInto : List (String × Nat) → String → List (String × Nat)
  | [], p => [(p, 1)]
  | (q, n) :: rest, p => if q = p then (q, n + 1) :: rest else (q, n) :: countInto rest p

/-- The counts of the `$group` stage by `'$priority'` with `count: $sum 1` over
a list of priority values, one pair per value, in the order of first
occurrence. -/
def groupCount (priorities : List String) : List (String × Nat) :=
  priorities.foldl countInto []

/-- The filter `{ user, dueDate: { $lt: now }, status: { $ne: 'completed' } }`
of the overdue count: a task without a due date does not satisfy `$lt`. -/
def overdueFilter (userId : ObjectId) (now : Date) (t : Task) : Bool :=
  decide (t.user = userId)
    && (match t.dueDate with
        | some d => decide (d < now)
        | none => false)
    && !decide (t.status = "completed")

/-- The handler `getTaskStats(req, res)` at the instant `now`. The stages of
`Task.aggregate` reach the store as they are written, without the cast to a
document id that the filter of a query gets: `matchUncast stored given` is the
store's comparison, in the `$match` stage, of a stored owner id with the value
of `req.user.id`. -/
def getTaskStats (matchUncast : ObjectId → ObjectId → Bool) (store : Store) (userId : ObjectId)
    (now : Date) : Response :=
  let stats := getUserStats store userId
  let priorityStats :=
    groupCount ((store.tasks.filter (fun t => matchUncast t.user userId)).map Task.priority)
  let overdueTasks := (store.tasks.filter (overdueFilter userId now)).length
  sendSuccess "Task statistics retrieved successfully"
    (some (.stats stats priorityStats overdueTasks)) 200

/-- The member `overdueTasks` of a response, when it has one. -/
def Response.overdueTasks (r : Response) : Option Nat :=
  match r.data with
  | some (.stats _ _ n) => some n
  | _ => none

/-- A task is overdue for a user at an instant, in the words of the spec: it is
the user's, its due date is set and before the instant, and its status is not
`completed`. -/
def isOverdue (userId : ObjectId) (now : Date) (t : Task) : Prop :=
  t.user = userId ∧ (∃ d ∈ t.dueDate, d < now) ∧ t.status ≠ "completed"

instance (userId : ObjectId) (now : Date) : DecidablePred (isOverdue userId now) := fun t =>
  inferInstanceAs (Decidable
    (t.user = userId ∧ (∃ d ∈ t.dueDate, d < now) ∧ t.status ≠ "completed"))

/-! ## `controllers/authController.js`: `changePassword` -/

/-- The fields `changePassword` reads from `req.body`. -/
structure PasswordBody where
  currentPassword : String
  newPassword : String
deriving DecidableEq, Repr

/-- The call `user.save()` after `user.password = newPassword`. Modelled from
the spec: the stored password of the document with the id of `user` becomes
the hash of the new password. -/
def savePassword (deps : AuthDeps) (store : Store) (user : User) (newPassword : String) :
    Store :=
  { store with
    users := updateFirstUser (fun u => decide (u.id = user.id))
      (fun u => { u with password := deps.hashPassword newPassword }) store.users }

/-- The handler `changePassword(req, res)` for `req.user.id = userId`. When no
user has the id, `user` is null and the call of `comparePassword` throws; a new
password the validators reject makes `save` throw. -/
def changePassword (deps : AuthDeps) (store : Store) (userId : ObjectId)
    (body : PasswordBody) : Response × Store :=
  match findUserById store userId with
  | none => (sendError 500 "Error changing password" none, store)
  | some user =>
    if !deps.comparePassword body.currentPassword user.password then
      (sendError 400 "Current password is incorrect" none, store)
    else if deps.validPassword body.newPassword then
      (sendSuccess "Password changed successfully" none 200,
       savePassword deps store user body.newPassword)
    else (sendError 500 "Error changing password" none, store)

/-! ## `controllers/userController.js` -/

/-- The cursor's `skip(skip).limit(limitNum)` on users, as `window` on tasks. -/
def windowUsers (skip limitNum : Int) (l : List User) : Option (List User) :=
  if skip < 0 then none
  else if limitNum = 0 then some (l.drop skip.toNat)
  else some ((l.drop skip.toNat).take limitNum.natAbs)

/-- The handler `getUsers(req, res)`: the users by `createdAt`, latest first
(users with equal `createdAt` in storage order), one page of them. -/
def getUsers (store : Store) (query : Query) : Response :=
  let page := (query.lookup "page").getD "1"
  let limit := (query.lookup "limit").getD "10"
  match parseInt page, parseInt limit with
  | some pageNum, some limitNum =>
    let skip := (pageNum - 1) * limitNum
    match windowUsers skip limitNum
        (store.users.insertionSort (fun a b => b.createdAt ≤ a.createdAt)) with
    | none => sendError 500 "Error retrieving users" none
    | some users =>
      let total := store.users.length
      let totalPages := mathCeilDiv total limitNum
      sendSuccess "Users retrieved successfully"
        (some (.userList (users.map User.view)
          { currentPage := pageNum
            totalPages := totalPages
            totalTasks := total
            hasNext := JsNumber.lt (.int pageNum) totalPages
            hasPrev := decide (pageNum > 1) })) 200
  | _, _ => sendError 500 "Error retrieving users" none

/-- The handler `getUserById(req, res)`. -/
def getUserById (store : Store) (id : Option ObjectId) : Response :=
  match id with
  | none => sendError 500 "Error retrieving user" none
  | some id =>
    match findUserById store id with
    | none => sendError 404 "User not found" none
    | some user =>
      let taskStats := getUserStats store user.id
      sendSuccess "User retrieved successfully" (some (.userWithStats user.view taskStats)) 200

/-- The field `updateUserStatus` reads from `req.body`; `none` is an absent key. -/
structure UserStatusBody where
  isActive : Option Bool
deriving DecidableEq, Repr

/-- The handler `updateUserStatus(req, res)`. -/
def updateUserStatus (store : Store) (id : Option ObjectId) (body : UserStatusBody) :
    Response × Store :=
  match id with
  | none => (sendError 500 "Error updating user status" none, store)
  | some id =>
    match findUserById store id with
    | none => (sendError 404 "User not found" none, store)
    | some u =>
      (sendSuccess "User status updated successfully"
        (some (.user (some
          ({ u with isActive := body.isActive.getD u.isActive } : User).view)))
        200,
       { store with
         users := updateFirstUser (fun v => decide (v.id = id))
           (fun v => { v with isActive := body.isActive.getD v.isActive })
           store.users })

/-- The call `Task.deleteMany({ user: id })`. -/
def deleteManyTasks (store : Store) (id : ObjectId) : Store :=
  { store with tasks := store.tasks.filter (fun t => !decide (t.user = id)) }

/-- The call `User.findByIdAndDelete(id)`. -/
def findUserByIdAndDelete (store : Store) (id : ObjectId) : Store :=
  { store with users := store.users.eraseP (fun u => decide (u.id = id)) }

/-- The handler `deleteUser(req, res)`. -/
def deleteUser (store : Store) (id : Option ObjectId) : Response × Store :=
  match id with
  | none => (sendError 500 "Error deleting user" none, store)
  | some id =>
    match findUserById store id with
    | none => (sendError 404 "User not found" none, store)
    | some _ =>
      (sendSuccess "User and associated tasks deleted successfully" none 200,
       findUserByIdAndDelete (deleteManyTasks store id) id)

/-! ## The mutating handlers when a store call fails

Each handler below is the handler of the same name with one more parameter:
`fault k` tells whether the store call at position `k` of the handler's source
(counted from 0) throws. A call that throws has no effect on the store, and
the handler answers from its `catch` block. -/

/-- The handler `register`; store calls: `User.findOne` (0), `User.create` (1). -/
def registerWithFaults (fault : Nat → Bool) (deps : AuthDeps) (store : Store)
    (body : RegisterBody) (newId : ObjectId) (now : Date) : Response × Store :=
  if fault 0 then (sendError 500 "Error registering user" none, store)
  else
    match findUserByEmail store body.email with
    | some _ => (sendError 400 "User already exists with this email" none, store)
    | none =>
      if fault 1 then (sendError 500 "Error registering user" none, store)
      else if deps.validName body.name && deps.validEmail body.email
          && deps.validPassword body.password
          && !(store.users.any (fun u => decide (u.id = newId))) then
        let user := newUser deps newId body now
        let token := deps.generateToken user.id
        (sendSuccess "User registered successfully" (some (.auth user.authUser token)) 201,
         { store with users := store.users ++ [user] })
      else (sendError 500 "Error registering user" none, store)

/-- The handler `login`; store calls: `User.findOne` (0), `user.save` (1). -/
def loginWithFaults (fault : Nat → Bool) (deps : AuthDeps) (store : Store) (body : LoginBody)
    (now : Date) : Response × Store :=
  if fault 0 then (sendError 500 "Error logging in user" none, store)
  else
    match findUserByEmail store body.email with
    | none => (sendError 400 "Invalid credentials" none, store)
    | some user =>
      if !user.isActive then (sendError 400 "Account is deactivated" none, store)
      else if !deps.comparePassword body.password user.password then
        (sendError 400 "Invalid credentials" none, store)
      else if fault 1 then (sendError 500 "Error logging in user" none, store)
      else
        let token := deps.generateToken user.id
        (sendSuccess "Login successful" (some (.auth user.authUser token)) 200,
         saveLastLogin store user now)

/-- The part of `updateProfile` from `User.findByIdAndUpdate` (store call 1) on. -/
def updateProfileWrite (fault : Nat → Bool) (deps : AuthDeps) (store : Store)
    (userId : ObjectId) (body : ProfileBody) : Response × Store :=
  if fault 1 then (sendError 500 "Error updating profile" none, store)
  else if (match body.name with
      | some n => deps.validName n
      | none => true)
    && (match body.email with
        | some e => deps.validEmail e
        | none => true) then
    let r := updateUserById store userId body
    (sendSuccess "Profile updated successfully" (some (.user (r.1.map User.view))) 200, r.2)
  else (sendError 500 "Error updating profile" none, store)

/-- The handler `updateProfile`; store calls: `User.findOne` (0, made for a
truthy email only), `User.findByIdAndUpdate` (1). -/
def updateProfileWithFaults (fault : Nat → Bool) (deps : AuthDeps) (store : Store)
    (userId : ObjectId) (body : ProfileBody) : Response × Store :=
  match body.email.filter (fun e => e ≠ "") with
  | some e =>
    if fault 0 then (sendError 500 "Error updating profile" none, store)
    else
      match findOtherUserByEmail store e userId with
      | some _ => (sendError 400 "Email is already taken" none, store)
      | none => updateProfileWrite fault deps store userId body
  | none => updateProfileWrite fault deps store userId body

/-- The handler `changePassword`; store calls: `User.findById` (0),
`user.save` (1). -/
def changePasswordWithFaults (fault : Nat → Bool) (deps : AuthDeps) (store : Store)
    (userId : ObjectId) (body : PasswordBody) : Response × Store :=
  if fault 0 then (sendError 500 "Error changing password" none, store)
  else
    match findUserById store userId with
    | none => (sendError 500 "Error changing password" none, store)
    | some user =>
      if !deps.comparePassword body.currentPassword user.password then
        (sendError 400 "Current password is incorrect" none, store)
      else if fault 1 then (sendError 500 "Error changing password" none, store)
      else if deps.validPassword body.newPassword then
        (sendSuccess "Password changed successfully" none 200,
         savePassword deps store user body.newPassword)
      else (sendError 500 "Error changing password" none, store)

/-- The handler `createTask`; store calls: `Task.create` (0), and the read-back
`Task.findById(...).populate(...)` (1). -/
def createTaskWithFaults (fault : Nat → Bool) (store : Store) (userId : ObjectId)
    (body : TaskBody) (newId : ObjectId) (now : Date) : Response × Store :=
  if fault 0 then (sendError 500 "Error creating task" none, store)
  else if validCreate body && !(store.tasks.any (fun t => decide (t.id = newId))) then
    let task := newTask newId userId body now
    let created : Store := { store with tasks := store.tasks ++ [task] }
    if fault 1 then (sendError 500 "Error creating task" none, created)
    else
      let populatedTask :=
        (created.tasks.find? (fun t => decide (t.id = task.id))).map (populate created)
      (sendSuccess "Task created successfully" (some (.task populatedTask)) 201, created)
  else (sendError 500 "Error creating task" none, store)

/-- The handler `updateTask`; store calls: `Task.findOne` (0),
`Task.findByIdAndUpdate` (1), and the query of `populate` on its result (2). -/
def updateTaskWithFaults (fault : Nat → Bool) (store : Store) (userId : ObjectId)
    (id : Option ObjectId) (body : TaskUpdateBody) : Response × Store :=
  match id with
  | none => (sendError 500 "Error updating task" none, store)
  | some id =>
    if fault 0 then (sendError 500 "Error updating task" none, store)
    else
      match findOneTask store id userId with
      | none => (sendError 404 "Task not found" none, store)
      | some _ =>
        if fault 1 then (sendError 500 "Error updating task" none, store)
        else if validUpdate body then
          let r := findByIdAndUpdate store id (applyUpdate body)
          if fault 2 then (sendError 500 "Error updating task" none, r.2)
          else
            (sendSuccess "Task updated successfully"
              (some (.task (r.1.map (populate r.2)))) 200, r.2)
        else (sendError 500 "Error updating task" none, store)

/-- The handler `deleteTask`; store calls: `Task.findOne` (0),
`Task.findByIdAndDelete` (1). -/
def deleteTaskWithFaults (fault : Nat → Bool) (store : Store) (userId : ObjectId)
    (id : Option ObjectId) : Response × Store :=
  match id with
  | none => (sendError 500 "Error deleting task" none, store)
  | some id =>
    if fault 0 then (sendError 500 "Error deleting task" none, store)
    else
      match findOneTask store id userId with
      | none => (sendError 404 "Task not found" none, store)
      | some _ =>
        if fault 1 then (sendError 500 "Error deleting task" none, store)
        else (sendSuccess "Task deleted successfully" none 200, findByIdAndDelete store id)

/-- The handler `toggleTaskCompletion`; store calls: `Task.findOne` (0),
`Task.findByIdAndUpdate` (1), and the query of `populate` on its result (2). -/
def toggleTaskCompletionWithFaults (fault : Nat → Bool) (store : Store) (userId : ObjectId)
    (id : Option ObjectId) (now : Date) : Response × Store :=
  match id with
  | none => (sendError 500 "Error updating task status" none, store)
  | some id =>
    if fault 0 then (sendError 500 "Error updating task status" none, store)
    else
      match findOneTask store id userId with
      | none => (sendError 404 "Task not found" none, store)
      | some task =>
        if fault 1 then (sendError 500 "Error updating task status" none, store)
        else
          let newStatus := if task.status = "completed" then "pending" else "completed"
          let r := findByIdAndUpdate store id (toggleUpdate newStatus now)
          if fault 2 then (sendError 500 "Error updating task status" none, r.2)
          else
            (sendSuccess "Task status updated successfully"
              (some (.task (r.1.map (populate r.2)))) 200, r.2)

/-- The handler `updateUserStatus`; store call: `User.findByIdAndUpdate` (0). -/
def updateUserStatusWithFaults (fault : Nat → Bool) (store : Store) (id : Option ObjectId)
    (body : UserStatusBody) : Response × Store :=
  if fault 0 then (sendError 500 "Error updating user status" none, store)
  else updateUserStatus store id body

/-- The handler `deleteUser`; store calls: `User.findById` (0),
`Task.deleteMany` (1), `User.findByIdAndDelete` (2). -/
def deleteUserWithFaults (fault : Nat → Bool) (store : Store) (id : Option ObjectId) :
    Response × Store :=
  match id with
  | none => (sendError 500 "Error deleting user" none, store)
  | some id =>
    if fault 0 then (sendError 500 "Error deleting user" none, store)
    else
      match findUserById store id with
      | none => (sendError 404 "User not found" none, store)
      | some _ =>
        if fault 1 then (sendError 500 "Error deleting user" none, store)
        else if fault 2 then
          (sendError 500 "Error deleting user" none, deleteManyTasks store id)
        else
          (sendSuccess "User and associated tasks deleted successfully" none 200,
           findUserByIdAndDelete (deleteManyTasks store id) id)

/-! ## A fragment of the runtime's regular expressions

`getTasks` hands the `category` parameter to `new RegExp(category, 'i')`. The
fragment below covers patterns made of pattern characters below U+0080, `.`, an
escaped syntax character, the quantifiers `*`, `+`, `?` (also in their lazy
form) and `|`. Every other pattern is left to the parameter of `jsRegExp`. The
matcher runs on the UTF-16 code units of the string, as the runtime does
without the flag `u`. -/

/-- The UTF-16 code units of a string: one for a code point below U+10000 and
a surrogate pair for the others. -/
def codeUnits (s : String) : List Nat :=
  s.data.flatMap (fun c =>
    if c.toNat < 65536 then [c.toNat]
    else [55296 + (c.toNat - 65536) / 1024, 56320 + (c.toNat - 65536) % 1024])

/-- The canonical form of a code unit under the flag `i`: the letters `a` to
`z` go to upper case. A code unit from 128 on is kept as it is; its canonical
form in the runtime is never that of a code unit below 128, and the patterns
of the fragment hold code units below 128 only. -/
def canonicalize (u : Nat) : Nat :=
  if 97 ≤ u ∧ u ≤ 122 then u - 32 else u

/-- Regular expressions of the fragment; `chr` holds a code unit below 128. -/
inductive Re where
  | chr (c : Nat)
  | dot
  | eps
  | seq (a b : Re)
  | alt (a b : Re)
  | star (a : Re)
deriving DecidableEq, Repr

/-- The characters `^ $ \ . * + ? ( ) [ ] { } |`, by code point. -/
def isSyntaxCharacter (c : Char) : Bool :=
  c.toNat ∈ [94, 36, 92, 46, 42, 43, 63, 40, 41, 91, 93, 123, 125, 124]

/-- The line terminators LF, CR, U+2028 and U+2029, which `.` does not match. -/
def isLineTerminator (u : Nat) : Bool :=
  u ∈ [10, 13, 8232, 8233]

/-- Iterations of a starred expression: each further iteration has to consume
input. `n` bounds the number of iterations by the length of the input. -/
def starIter (step : List Nat → List (List Nat)) : Nat → List Nat → List (List Nat)
  | 0, s => [s]
  | n + 1, s =>
    s :: ((step s).filter (fun r => decide (r.length < s.length))).flatMap (starIter step n)

/-- All the ways an expression matches a beginning of the input: the list of
what is left of the input after each match. -/
def Re.residues : Re → List Nat → List (List Nat)
  | .chr _, [] => []
  | .chr c, d :: s => if canonicalize d = canonicalize c then [s] else []
  | .dot, [] => []
  | .dot, d :: s => if isLineTerminator d then [] else [s]
  | .eps, s => [s]
  | .seq a b, s => (a.residues s).flatMap b.residues
  | .alt a b, s => a.residues s ++ b.residues s
  | .star a, s => starIter a.residues s.length s

/-- Whether the expression matches somewhere in the string. -/
def Re.test (r : Re) (s : String) : Bool :=
  (codeUnits s).tails.any (fun t => !(r.residues t).isEmpty)

/-- Outcome of reading a pattern: an expression of the fragment, a pattern
the constructor rejects, or a pattern with syntax outside the fragment. -/
inductive Compiled where
  | regex (r : Re)
  | invalid
  | outside
deriving DecidableEq, Repr

/-- What the last term read allows next: nothing to repeat, an atom that can
take a quantifier, a quantified atom that can take the lazy mark, or a term
that is complete. -/
inductive Last where
  | nothing
  | atom
  | quantified
  | complete
deriving DecidableEq, Repr

/-- The terms of one alternative, in sequence. -/
def mkSeq (terms : List Re) : Re :=
  terms.foldr .seq .eps

/-- The alternatives read so far, followed by the last one. -/
def mkAlt (alts : List Re) (last : Re) : Re :=
  alts.foldr .alt last

/-- Read a pattern left to right. `alts` are the alternatives already closed by
a `|`, `cur` the terms of the open alternative, most recent first. -/
def parseFrom : List Char → List Re → List Re → Last → Compiled
  | [], alts, cur, _ => .regex (mkAlt alts (mkSeq cur.reverse))
  | c :: rest, alts, cur, last =>
    if 128 ≤ c.toNat then .outside
    else if c = '|' then parseFrom rest (alts ++ [mkSeq cur.reverse]) [] .nothing
    else if c = '*' then
      match last, cur with
      | .atom, a :: cur => parseFrom rest alts (.star a :: cur) .quantified
      | _, _ => .invalid
    else if c = '+' then
      match last, cur with
      | .atom, a :: cur => parseFrom rest alts (.seq a (.star a) :: cur) .quantified
      | _, _ => .invalid
    else if c = '?' then
      match last, cur with
      | .atom, a :: cur => parseFrom rest alts (.alt a .eps :: cur) .quantified
      | .quantified, cur => parseFrom rest alts cur .complete
      | _, _ => .invalid
    else if c = '.' then parseFrom rest alts (.dot :: cur) .atom
    else if c = '\\' then
      match rest with
      | [] => .invalid
      | e :: rest =>
        if isSyntaxCharacter e then parseFrom rest alts (.chr e.toNat :: cur) .atom else .outside
    else if isSyntaxCharacter c then .outside
    else parseFrom rest alts (.chr c.toNat :: cur) .atom

/-- The pattern of `new RegExp(pattern, 'i')` read in the fragment. -/
def compilePattern (pattern : String) : Compiled :=
  parseFrom pattern.data [] [] .nothing

/-- The runtime's `new RegExp(pattern, 'i')` on the fragment: a pattern of the
fragment gives its matcher, a pattern with nothing to repeat or a trailing
backslash throws. `rest` is the engine on the patterns outside the fragment. -/
def jsRegExp (rest : RegExpEngine) : RegExpEngine := fun pattern =>
  match compilePattern pattern with
  | .regex r => some r.test
  | .invalid => none
  | .outside => rest pattern

/-! ## `routes/taskRoutes.js`: the list route -/

/-- The request as the middleware of a route see it: the identity set by
`auth`, the query, and the validation errors recorded so far. -/
structure Request where
  userId : ObjectId
  query : Query
  errors : List String
deriving DecidableEq, Repr

/-- The check `isIn(allowed)` of the validation library. -/
def isIn (allowed : List String) (v : String) : Bool :=
  decide (v ∈ allowed)

/-- Value of a string of decimal digits. -/
def decimalValue (cs : List Char) : Nat :=
  cs.foldl (fun acc c => acc * 10 + (c.toNat - 48)) 0

/-- The check `isInt({ min, max })` of the validation library: an optional
sign and a non-empty run of decimal digits, with the value within the bounds. -/
def isInt (min : Option Int) (max : Option Int) (v : String) : Bool :=
  let body := splitSign v.data
  let value : Int := if body.1 then -(decimalValue body.2 : Int) else decimalValue body.2
  !body.2.isEmpty && body.2.all Char.isDigit
    && (match min with
        | some m => decide (m ≤ value)
        | none => true)
    && (match max with
        | some m => decide (value ≤ m)
        | none => true)

/-- A validation chain `query(field).optional().check`: an absent field passes,
a failing value records an error on the request, and the next middleware runs
in both cases. -/
def queryCheck (field : String) (check : String → Bool) (req : Request) : Request :=
  match req.query.lookup field with
  | none => req
  | some v => if check v then req else { req with errors := req.errors ++ [field] }

/-- The array of validation chains of `router.get('/')`, lines 27 to 32. -/
def getTasksChecks : List (Request → Request) :=
  [ queryCheck "status" (isIn ["pending", "in-progress", "completed"]),
    queryCheck "priority" (isIn ["low", "medium", "high"]),
    queryCheck "page" (isInt (some 1) none),
    queryCheck "limit" (isInt (some 1) (some 100)),
    queryCheck "sortBy" (isIn ["createdAt", "updatedAt", "title", "dueDate", "priority"]),
    queryCheck "sortOrder" (isIn ["asc", "desc"]) ]

/-- Run the validation chains of a route in order. -/
def runChecks (checks : List (Request → Request)) (req : Request) : Request :=
  checks.foldl (fun r check => check r) req

/-- Modelled from the spec: `middleware/validation.js` is not among the
sources; it is the validation boundary, which answers 400 when errors were
recorded on the request and otherwise lets the request through (`none`). The
spec fixes the status of the answer only; the message here stands for it. -/
def validateRequest (req : Request) : Option Response :=
  if req.errors.isEmpty then none else some (sendError 400 "Validation failed" (some req.errors))

/-- The route `router.get('/', auth, [checks], getTasks)` on an authenticated
request: the checks run, then the handler; no middleware between them reads
the recorded errors. -/
def getTasksRoute (re : RegExpEngine) (store : Store) (req : Request) : Response :=
  let checked := runChecks getTasksChecks req
  getTasks re store checked.userId checked.query

/-! ## `routes/userRoutes.js` -/

/-- Modelled from the spec: `adminAuth` of `middleware/auth.js` is not among
the sources; an identity whose role is not `admin` is answered with status 403
(`some`), an admin passes (`none`). The spec fixes the status of the answer
only; the message here stands for it. -/
def adminAuth (requester : User) : Option Response :=
  if requester.role = "admin" then none else some (sendError 403 "Access denied" none)

/-- The route `router.get('/', auth, adminAuth, getUsers)` for the identity
`requester` set by `auth`. -/
def getUsersRoute (store : Store) (requester : User) (query : Query) : Response :=
  match adminAuth requester with
  | some denied => denied
  | none => getUsers store query

/-- The route `router.get('/:id', auth, getUserById)` for the identity
`requester` set by `auth`. -/
def getUserByIdRoute (store : Store) (_requester : User) (id : Option ObjectId) : Response :=
  getUserById store id

/-- The route `router.put('/:id/status', auth, adminAuth, [check], validateRequest,
updateUserStatus)`: the check `isBoolean` records an error when the body has no
boolean `isActive`. -/
def updateUserStatusRoute (store : Store) (requester : User) (id : Option ObjectId)
    (body : UserStatusBody) : Response × Store :=
  match adminAuth requester with
  | some denied => (denied, store)
  | none =>
    match validateRequest
        { userId := requester.id, query := [],
          errors := if body.isActive.isNone then ["isActive"] else [] } with
    | some rejected => (rejected, store)
    | none => updateUserStatus store id body

/-- The route `router.delete('/:id', auth, adminAuth, deleteUser)`. -/
def deleteUserRoute (store : Store) (requester : User) (id : Option ObjectId) :
    Response × Store :=
  match adminAuth requester with
  | some denied => (denied, store)
  | none => deleteUser store id

/-! ## The Query Engine: the filter of the handler and the filter of the spec -/

/-- The filter object that `getTasks` builds, as a predicate on tasks: owner
match, and each of the status, priority and category filters that is present.
The category clause is what the handler does, the match of the regular
expression made of the parameter, and not the substring match of the spec,
which is `matchesSubstringFilters`. -/
def matchesFilters (re : RegExpEngine) (userId : ObjectId) (query : Query) (t : Task) : Prop :=
  t.user = userId
    ∧ (∀ s ∈ supplied query "status", t.status = s)
    ∧ (∀ p ∈ supplied query "priority", t.priority = p)
    ∧ (∀ c ∈ supplied query "category", ∃ m ∈ re c, ∃ cat ∈ t.category, m cat = true)

instance (re : RegExpEngine) (userId : ObjectId) (query : Query) :
    DecidablePred (matchesFilters re userId query) := fun t =>
  inferInstanceAs (Decidable
    (t.user = userId
      ∧ (∀ s ∈ supplied query "status", t.status = s)
      ∧ (∀ p ∈ supplied query "priority", t.priority = p)
      ∧ (∀ c ∈ supplied query "category", ∃ m ∈ re c, ∃ cat ∈ t.category, m cat = true)))

/-- The page and limit parameters as the handler reads them, with defaults. -/
def pageParam (query : Query) : String :=
  (query.lookup "page").getD "1"

/-- The limit parameter as the handler reads it, with its default. -/
def limitParam (query : Query) : String :=
  (query.lookup "limit").getD "10"

/-- The sort path as the handler reads it, with its default. -/
def sortByParam (query : Query) : String :=
  (query.lookup "sortBy").getD "createdAt"

/-- The sort direction the handler computes from `sortOrder`. -/
def sortDir (query : Query) : Int :=
  if (query.lookup "sortOrder").getD "desc" = "desc" then -1 else 1

/-- The task list of a response, empty when the response carries none. -/
def Response.tasks (r : Response) : List PopulatedTask :=
  match r.data with
  | some (.taskList tasks _ _) => tasks
  | _ => []

/-- The pagination object of a response that carries a task list. -/
def Response.pagination (r : Response) : Option Pagination :=
  match r.data with
  | some (.taskList _ pagination _) => some pagination
  | _ => none

/-- The category filter as the spec words it, a case-insensitive substring
match: the lower-cased parameter occurs in the lower-cased category. The
letters `A` to `Z` are lower-cased, which is the lower-casing of the spec on
strings of characters below U+0080. -/
def containsIgnoreCase (c cat : String) : Prop :=
  List.IsInfix (c.data.map Char.toLower) (cat.data.map Char.toLower)

instance (c cat : String) : Decidable (containsIgnoreCase c cat) :=
  inferInstanceAs (Decidable (List.IsInfix (c.data.map Char.toLower) (cat.data.map Char.toLower)))

/-- The predicate of the Query Engine with the category filter as the spec
words it: owner match, the status and priority filters that are present, and
the substring match on the category when that filter is present. -/
def matchesSubstringFilters (userId : ObjectId) (query : Query) (t : Task) : Prop :=
  t.user = userId
    ∧ (∀ s ∈ supplied query "status", t.status = s)
    ∧ (∀ p ∈ supplied query "priority", t.priority = p)
    ∧ (∀ c ∈ supplied query "category", ∃ cat ∈ t.category, containsIgnoreCase c cat)

instance (userId : ObjectId) (query : Query) :
    DecidablePred (matchesSubstringFilters userId query) := fun t =>
  inferInstanceAs (Decidable
    (t.user = userId
      ∧ (∀ s ∈ supplied query "status", t.status = s)
      ∧ (∀ p ∈ supplied query "priority", t.priority = p)
      ∧ (∀ c ∈ supplied query "category", ∃ cat ∈ t.category, containsIgnoreCase c cat)))

/-! ## `frontend/src/components/Tasks/TaskForm.jsx` -/

/-- The values of the form as `handleFormSubmit` receives them: every field is
a string, and `tags` may be missing. -/
structure TaskFormData where
  title : String
  description : String
  priority : String
  status : String
  category : String
  dueDate : String
  tags : Option String
deriving DecidableEq, Repr

/-- The object `processedData` handed to `onSubmit`: the form values with
`tags` as a list and an empty `dueDate` as null. -/
structure ProcessedTaskData where
  title : String
  description : String
  priority : String
  status : String
  category : String
  dueDate : Option String
  tags : List String
deriving DecidableEq, Repr

/-- The pieces of `s.split(',')`. -/
def splitComma : List Char → List (List Char)
  | [] => [[]]
  | c :: cs =>
    if c = ',' then [] :: splitComma cs
    else
      match splitComma cs with
      | piece :: pieces => (c :: piece) :: pieces
      | [] => [[c]]

/-- The method `trim()`: white space and line terminators are removed from
both ends. -/
def trimChars (s : List Char) : List Char :=
  (s.dropWhile isJsWhiteSpace).rdropWhile isJsWhiteSpace

/-- The tag expression of line 47:
`data.tags ? data.tags.split(',').map(tag => tag.trim()).filter(Boolean) : []`. -/
def processTags (tags : Option String) : List String :=
  match tags with
  | none => []
  | some s =>
    if s = "" then []
    else (((splitComma s.data).map trimChars).filter (fun piece => !piece.isEmpty)).map String.mk

/-- The function `handleFormSubmit(data)`, as the object it passes to
`onSubmit`. -/
def handleFormSubmit (data : TaskFormData) : ProcessedTaskData :=
  { title := data.title
    description := data.description
    priority := data.priority
    status := data.status
    category := data.category
    dueDate := if data.dueDate = "" then none else some data.dueDate
    tags := processTags data.tags }

/-- The characters of `pieces.join(', ')`. -/
def joinChars : List (List Char) → List Char
  | [] => []
  | [a] => a
  | a :: b :: rest => a ++ ',' :: ' ' :: joinChars (b :: rest)

/-- The edit-mode value of the tags field, `task.tags.join(', ')`. -/
def joinTags (tags : List String) : String :=
  String.mk (joinChars (tags.map String.data))

/-- The values `reset` puts in the form in create mode, lines 30 to 38. -/
def createModeDefaults : TaskFormData :=
  { title := "", description := "", priority := "medium", status := "pending", category := "",
    dueDate := "", tags := some "" }

/-! ## `frontend/src/pages/DashboardPage.jsx` -/

/-- The local calendar of the browser, as the methods of `Date` expose it:
`getDate d` is the day of the month of the instant `d`, and `setDate d n` is
the instant that `d.setDate(n)` leaves in `d`: the day `n` of the month of `d`
at the time of day of `d`, counting on into the next month past its end. -/
structure Calendar where
  getDate : Date → Int
  setDate : Date → Int → Date

/-- The list `filtered` of `loadDashboardData`, lines 43 to 59. The two calls
of `new Date()` read the instants `today` and `created`; `nextWeek` is
`created` after `nextWeek.setDate(today.getDate() + 7)`. The request is
`getTasks` with `limit`, `sortBy` and `sortOrder`, and a task is kept when it
has a due date, the due date is not after `nextWeek`, and the status is not
`completed`. A failed request leaves the list empty. -/
def loadUpcomingTasks (cal : Calendar) (re : RegExpEngine) (store : Store) (userId : ObjectId)
    (today created : Date) : List PopulatedTask :=
  let nextWeek := cal.setDate created (cal.getDate today + 7)
  let upcomingResponse :=
    getTasks re store userId [("limit", "10"), ("sortBy", "dueDate"), ("sortOrder", "asc")]
  upcomingResponse.tasks.filter (fun task =>
    match task.doc.dueDate with
    | some dueDate => decide (dueDate ≤ nextWeek) && decide (task.doc.status ≠ "completed")
    | none => false)

/-! ## Sample data -/

/-- A task with the given identity, owner, title, status, priority, category
and creation instant, and the defaults elsewhere. -/
def sampleTask (id user : ObjectId) (title status priority : String) (category : Option String)
    (createdAt : Date) : Task :=
  { id := id, user := user, title := title, description := none, status := status,
    priority := priority, dueDate := none, category := category, tags := [],
    isCompleted := decide (status = "completed"), completedAt := none,
    createdAt := createdAt, updatedAt := createdAt }

/-- A user with the given identity, name and email. -/
def sampleUser (id : ObjectId) (name email : String) : User :=
  { id := id, name := name, email := email, password := "hash", role := "user",
    isActive := true, lastLogin := none, createdAt := 0, updatedAt := 0 }

/-- A store with two users; user 1 owns tasks 10, 11 and 13, user 2 owns task 12. -/
def sampleStore : Store :=
  { users := [sampleUser 1 "Ann" "ann@example.org", sampleUser 2 "Bob" "bob@example.org"]
    tasks :=
      [ sampleTask 10 1 "write" "pending" "low" (some "Work") 5,
        sampleTask 11 1 "read" "in-progress" "low" (some "home") 6,
        sampleTask 12 2 "cook" "pending" "high" (some "work") 7,
        sampleTask 13 1 "walk" "completed" "high" none 8 ] }

/-- The engine of the fragment, with every pattern outside it rejected. -/
def sampleEngine : RegExpEngine :=
  jsRegExp (fun _ => none)

/-- Two tasks of user 1 with the same priority, task 10 stored first. -/
def tieStoreA : Store :=
  { users := [sampleUser 1 "Ann" "ann@example.org"]
    tasks :=
      [ sampleTask 10 1 "write" "pending" "low" none 5,
        sampleTask 11 1 "read" "pending" "low" none 6 ] }

/-- The same two tasks, task 11 stored first. -/
def tieStoreB : Store :=
  { users := [sampleUser 1 "Ann" "ann@example.org"]
    tasks :=
      [ sampleTask 11 1 "read" "pending" "low" none 6,
        sampleTask 10 1 "write" "pending" "low" none 5 ] }

/-- A store of 101 tasks, all owned by user 1. -/
def largeStore : Store :=
  { users := [sampleUser 1 "Ann" "ann@example.org"]
    tasks := (List.range 101).map (fun i => sampleTask i 1 "task" "pending" "low" none i) }

/-- A store with one task of user 1, completed at the instant 50. -/
def completedStore : Store :=
  { users := [sampleUser 1 "Ann" "ann@example.org"]
    tasks :=
      [ { sampleTask 20 1 "ship" "completed" "high" none 5 with completedAt := some 50 } ] }

/-- A choice of the parameters of the auth handlers: the hash of a password is
the password after a mark, every token is the same string, and the validators
accept non-empty strings. -/
def sampleDeps : AuthDeps :=
  { hashPassword := fun p => String.mk ('#' :: p.data)
    comparePassword := fun candidate stored => decide (stored = String.mk ('#' :: candidate.data))
    generateToken := fun _ => "token"
    validName := fun s => decide (s ≠ "")
    validEmail := fun s => decide (s ≠ "")
    validPassword := fun s => decide (s ≠ "") }

/-- A store with the active user 1, whose password is `secret`, and the
deactivated user 3 with the same password. -/
def authStore : Store :=
  { users :=
      [ { sampleUser 1 "Ann" "ann@example.org" with password := "#secret", lastLogin := some 40 },
        { sampleUser 3 "Cy" "cy@example.org" with password := "#secret", isActive := false } ]
    tasks := [] }

/-- A store with one pending task of user 1 that was due at the instant
913600000, one day before the instant 1000000000. -/
def overdueStore : Store :=
  { users := [sampleUser 1 "Ann" "ann@example.org"]
    tasks :=
      [ { sampleTask 40 1 "late" "pending" "low" none 5 with dueDate := some 913600000 } ] }

/-- The calendar of a browser whose time zone is UTC, on the instants of
January 1970 (the 31 days from the epoch on): the day of the month is the
number of whole days since the epoch plus one. -/
def january1970 : Calendar :=
  { getDate := fun d => d / 86400000 + 1
    setDate := fun d n => (n - 1) * 86400000 + d % 86400000 }

/-! # Theorems -/

/-! ## Lemmas on the arithmetic of the envelope -/

theorem ceil_div_eq (n : Nat) (l : Int) (hl : 0 < l) :
    -((-(n : Int)) / l) = ⌈(n : ℚ) / (l : ℚ)⌉ := by
  obtain ⟨d, rfl⟩ := Int.eq_ofNat_of_zero_le hl.le
  have h := Rat.floor_intCast_div_natCast (-(n : Int)) d
  rw [← h, ← Int.ceil_neg]
  congr 1
  push_cast
  ring

theorem mathCeilDiv_pos (n : Nat) (l : Int) (hl : 0 < l) :
    mathCeilDiv n l = .int ⌈(n : ℚ) / (l : ℚ)⌉ := by
  unfold mathCeilDiv
  rw [if_neg (ne_of_gt hl), if_pos hl, ceil_div_eq n l hl]

theorem window_length (s l : Int) (hs : 0 ≤ s) (hl : 1 ≤ l) (L : List Task) :
    ∃ w, window s l L = some w ∧ w = (L.drop s.toNat).take l.natAbs
      ∧ (w.length : Int) = max 0 (min l ((L.length : Int) - s)) := by
  refine ⟨(L.drop s.toNat).take l.natAbs, ?_, rfl, ?_⟩
  · unfold window
    rw [if_neg (by omega), if_neg (by omega)]
  · rw [List.length_take, List.length_drop]
    omega

theorem buildFilter_iff (re : RegExpEngine) (userId : ObjectId) (query : Query)
    (hc : ∀ c ∈ supplied query "category", (re c).isSome) :
    ∃ f, buildFilter re userId query = some f ∧
      ∀ t, f.matches t = true ↔ matchesFilters re userId query t := by
  unfold buildFilter matchesFilters
  generalize supplied query "status" = os
  generalize supplied query "priority" = op
  generalize supplied query "category" = oc at hc
  cases oc with
  | none =>
    refine ⟨_, rfl, fun t => ?_⟩
    cases os <;> cases op <;> simp [Filter.matches, and_assoc]
  | some c =>
    obtain ⟨m, hm⟩ := Option.isSome_iff_exists.mp (hc c rfl)
    simp only [hm]
    refine ⟨_, rfl, fun t => ?_⟩
    cases os <;> cases op <;> cases hk : t.category <;> simp [Filter.matches, hm, hk, and_assoc]

theorem buildFilter_spec (re : RegExpEngine) (userId : ObjectId) (query : Query)
    (hc : ∀ c ∈ supplied query "category", (re c).isSome) :
    ∃ f, buildFilter re userId query = some f ∧
      ∀ t, f.matches t = decide (matchesFilters re userId query t) := by
  obtain ⟨f, hf, h⟩ := buildFilter_iff re userId query hc
  refine ⟨f, hf, fun t => ?_⟩
  rw [Bool.eq_iff_iff, h t, decide_eq_true_iff]

theorem getTasks_of_filter (re : RegExpEngine) (store : Store) (userId : ObjectId)
    (query : Query) (f : Filter) (p l : Int)
    (hf : buildFilter re userId query = some f)
    (hp : parseInt (pageParam query) = some p) (hl : parseInt (limitParam query) = some l)
    (hp1 : 1 ≤ p) (hl1 : 1 ≤ l) :
    getTasks re store userId query =
      sendSuccess "Tasks retrieved successfully"
        (some (.taskList
          ((((sortTasks (sortByParam query) (sortDir query)
              (store.tasks.filter f.matches)).drop ((p - 1) * l).toNat).take l.natAbs).map
            (populate store))
          { currentPage := p
            totalPages := .int ⌈((store.tasks.filter f.matches).length : ℚ) / (l : ℚ)⌉
            totalTasks := (store.tasks.filter f.matches).length
            hasNext := decide (p < ⌈((store.tasks.filter f.matches).length : ℚ) / (l : ℚ)⌉)
            hasPrev := decide (1 < p) }
          (getUserStats store userId))) 200 := by
  have hs : 0 ≤ (p - 1) * l := mul_nonneg (by omega) (by omega)
  obtain ⟨w, hw, hw2, -⟩ := window_length ((p - 1) * l) l hs hl1
    (sortTasks (sortByParam query) (sortDir query) (store.tasks.filter f.matches))
  unfold pageParam at hp
  unfold limitParam at hl
  unfold sortByParam sortDir at hw
  unfold getTasks
  simp only [hf, hp, hl, hw, hw2, countDocuments, mathCeilDiv_pos _ _ (show 0 < l by omega),
    JsNumber.lt, gt_iff_lt, sortByParam, sortDir]

/-! ## The list handler: counts and envelope -/

theorem buildFilter_no_category (re : RegExpEngine) (userId : ObjectId) (query : Query)
    (hcat : supplied query "category" = none) :
    ∃ f, buildFilter re userId query = some f ∧
      ∀ t, f.matches t = decide (matchesSubstringFilters userId query t) := by
  refine ⟨Filter.mk userId (supplied query "status") (supplied query "priority") none, ?_,
    fun t => ?_⟩
  · unfold buildFilter
    simp only [hcat]
  · rw [Bool.eq_iff_iff, decide_eq_true_iff]
    unfold matchesSubstringFilters
    simp only [hcat]
    cases supplied query "status" <;> cases supplied query "priority" <;>
      simp [Filter.matches, and_assoc]

/-- C1 at the failing input `GET /api/tasks?category=.` by user 1 of the sample
store, with the default page 1 and limit 10. The handler makes the regular
expression `.` of the parameter, so `totalTasks` is 2, the number of the
requester's tasks that have a category, while none of the requester's tasks
has a category that contains a dot: the number of tasks that match the
supplied filters is 0, and the list should be empty. At `category=+` the
response carries no count at all: it is the failure with status 500. -/
theorem getTasks_total_counts_pattern_matches :
    (getTasks sampleEngine sampleStore 1 [("category", ".")]).statusCode = 200
    ∧ (getTasks sampleEngine sampleStore 1 [("category", ".")]).pagination.map
        Pagination.totalTasks = some 2
    ∧ (getTasks sampleEngine sampleStore 1 [("category", ".")]).tasks.length = 2
    ∧ (sampleStore.tasks.filter (fun t =>
        decide (matchesSubstringFilters 1 [("category", ".")] t))).length = 0
    ∧ (sampleStore.tasks.filter (fun t => decide (t.user = 1))).map
        (fun t => (t.id, t.category)) = [(10, some "Work"), (11, some "home"), (13, none)]
    ∧ (getTasks sampleEngine sampleStore 1 [("category", "+")]).statusCode = 500
    ∧ (getTasks sampleEngine sampleStore 1 [("category", "+")]).pagination = none := by
  decide

/-- C3, as the code has it: for every request without a category filter whose
page and limit the runtime reads as the numbers `p` and `l`, both at least 1
(`parseInt` gives the value itself up to 2^53 and the nearest value of the
number type beyond), the envelope has `totalPages = ceil (totalTasks / l)`,
`hasNext = (p < totalPages)`, `hasPrev = (p > 1)` and `currentPage = p`; when
`p` lies beyond `totalPages` the response is still the success response, with
an empty task list and `hasNext = false`. -/
theorem getTasks_pagination_envelope (re : RegExpEngine) (store : Store) (userId : ObjectId)
    (query : Query) (p l : Int)
    (hp : parseInt (pageParam query) = some p) (hp1 : 1 ≤ p)
    (hl : parseInt (limitParam query) = some l) (hl1 : 1 ≤ l)
    (hcat : supplied query "category" = none) :
    ∃ tasks pg stats,
      getTasks re store userId query =
        sendSuccess "Tasks retrieved successfully" (some (.taskList tasks pg stats)) 200
      ∧ (getTasks re store userId query).statusCode = 200
      ∧ (getTasks re store userId query).success = true
      ∧ pg.totalPages = .int ⌈(pg.totalTasks : ℚ) / (l : ℚ)⌉
      ∧ pg.hasNext = decide (p < ⌈(pg.totalTasks : ℚ) / (l : ℚ)⌉)
      ∧ pg.hasPrev = decide (p > 1)
      ∧ pg.currentPage = p
      ∧ (⌈(pg.totalTasks : ℚ) / (l : ℚ)⌉ < p → tasks = [] ∧ pg.hasNext = false) := by
  obtain ⟨f, hf, -⟩ := buildFilter_no_category re userId query hcat
  have h := getTasks_of_filter re store userId query f p l hf hp hl hp1 hl1
  refine ⟨_, _, _, h, ?_, ?_, rfl, rfl, rfl, rfl, ?_⟩
  · rw [h]; rfl
  · rw [h]; rfl
  · intro hlt
    refine ⟨?_, by simpa using hlt.le⟩
    have hle : ⌈((store.tasks.filter f.matches).length : ℚ) / (l : ℚ)⌉ ≤ p - 1 := by
      have := hlt
      simp only at this
      omega
    rw [Int.ceil_le] at hle
    have hlq : (0 : ℚ) < (l : ℚ) := by exact_mod_cast (show 0 < l by omega)
    rw [div_le_iff₀ hlq] at hle
    have hle2 : ((store.tasks.filter f.matches).length : Int) ≤ (p - 1) * l := by
      exact_mod_cast hle
    have hs : 0 ≤ (p - 1) * l := mul_nonneg (by omega) (by omega)
    have hdrop : (sortTasks (sortByParam query) (sortDir query)
        (store.tasks.filter f.matches)).drop ((p - 1) * l).toNat = [] := by
      apply List.drop_eq_nil_of_le
      simp only [sortTasks, List.length_insertionSort]
      generalize (p - 1) * l = s at hs hle2
      omega
    simp only [hdrop, List.take_nil, List.map_nil]

/-- Witness for C3 as amended: page 5 of size 2 over the three tasks of user 1. -/
theorem getTasks_pagination_envelope_witness :
    ∃ tasks pg stats,
      getTasks sampleEngine sampleStore 1 [("page", "5"), ("limit", "2")] =
        sendSuccess "Tasks retrieved successfully" (some (.taskList tasks pg stats)) 200
      ∧ (getTasks sampleEngine sampleStore 1 [("page", "5"), ("limit", "2")]).statusCode = 200
      ∧ (getTasks sampleEngine sampleStore 1 [("page", "5"), ("limit", "2")]).success = true
      ∧ pg.totalPages = .int ⌈(pg.totalTasks : ℚ) / ((2 : Int) : ℚ)⌉
      ∧ pg.hasNext = decide ((5 : Int) < ⌈(pg.totalTasks : ℚ) / ((2 : Int) : ℚ)⌉)
      ∧ pg.hasPrev = decide ((5 : Int) > 1)
      ∧ pg.currentPage = 5
      ∧ (⌈(pg.totalTasks : ℚ) / ((2 : Int) : ℚ)⌉ < (5 : Int) → tasks = [] ∧ pg.hasNext = false) :=
  getTasks_pagination_envelope sampleEngine sampleStore 1 [("page", "5"), ("limit", "2")] 5 2
    (by decide) (by decide) (by decide) (by decide) (by decide)

/-- C3 fails as stated: the page 9007199254740993, which is 2^53 + 1, passes
the check of the route for a page of at least 1, and the response, a success,
reports the `currentPage` 9007199254740992: the number type of the runtime
does not hold the page. -/
theorem getTasks_currentPage_is_rounded :
    isInt (some 1) none "9007199254740993" = true
    ∧ parseInt "9007199254740993" = some 9007199254740992
    ∧ (getTasks sampleEngine sampleStore 1 [("page", "9007199254740993")]).success = true
    ∧ (getTasks sampleEngine sampleStore 1 [("page", "9007199254740993")]).pagination.map
        Pagination.currentPage = some 9007199254740992
    ∧ (9007199254740992 : Int) ≠ 9007199254740993 := by
  decide

/-! ## Pagination as a partition -/

theorem chunks_flatten {α : Type} (L : List α) (m : Nat) :
    ∀ n : Nat, ((List.range n).map (fun i => (L.drop (i * m)).take m)).flatten = L.take (n * m)
  | 0 => by simp
  | n + 1 => by
    rw [List.range_succ, List.map_append, List.flatten_append, chunks_flatten L m n,
      Nat.succ_mul, List.take_add]
    simp

theorem chunks_disjoint {α : Type} (L : List α) (hL : L.Nodup) (m i j : Nat) (hij : i < j) :
    List.Disjoint ((L.drop (i * m)).take m) ((L.drop (j * m)).take m) := by
  have hle : i * m + m ≤ j * m := by
    calc i * m + m = (i + 1) * m := (Nat.succ_mul i m).symm
      _ ≤ j * m := Nat.mul_le_mul_right m hij
  have hd := List.disjoint_take_drop hL hle
  intro a ha hb
  refine hd ?_ (List.take_subset _ _ hb)
  rw [List.take_add]
  exact List.mem_append_right _ ha

theorem populate_injective (store : Store) : Function.Injective (populate store) := by
  intro a b h
  have := congrArg PopulatedTask.doc h
  simpa [populate] using this

theorem sortTasks_nodup (sortBy : String) (dir : Int) (l : List Task) (h : l.Nodup) :
    (sortTasks sortBy dir l).Nodup :=
  (List.perm_insertionSort (sortRel sortBy dir) l).nodup_iff.mpr h

theorem buildFilter_cons_page (re : RegExpEngine) (userId : ObjectId) (query : Query)
    (v : String) :
    buildFilter re userId (("page", v) :: query) = buildFilter re userId query := by
  simp [buildFilter, supplied, List.lookup]

theorem params_cons_page (query : Query) (v : String) :
    pageParam (("page", v) :: query) = v
      ∧ limitParam (("page", v) :: query) = limitParam query
      ∧ sortByParam (("page", v) :: query) = sortByParam query
      ∧ sortDir (("page", v) :: query) = sortDir query := by
  simp [pageParam, limitParam, sortByParam, sortDir, List.lookup]

theorem getTasks_page_tasks (re : RegExpEngine) (store : Store) (userId : ObjectId)
    (query : Query) (f : Filter) (l : Int) (v : String) (k : Nat)
    (hf : buildFilter re userId query = some f)
    (hl : parseInt (limitParam query) = some l) (hl1 : 1 ≤ l)
    (hv : parseInt v = some ((k : Int) + 1)) :
    (getTasks re store userId (("page", v) :: query)).tasks =
      (((sortTasks (sortByParam query) (sortDir query) (store.tasks.filter f.matches)).drop
        (k * l.natAbs)).take l.natAbs).map (populate store) := by
  obtain ⟨h1, h2, h3, h4⟩ := params_cons_page query v
  have h := getTasks_of_filter re store userId (("page", v) :: query) f ((k : Int) + 1) l
    (by rw [buildFilter_cons_page, hf]) (by rw [h1, hv]) (by rw [h2, hl]) (by omega) hl1
  rw [h, h3, h4]
  have hk : (((k : Int) + 1 - 1) * l).toNat = k * l.natAbs := by
    have : ((k : Int) + 1 - 1) * l = ((k * l.natAbs : Nat) : Int) := by
      push_cast
      rw [abs_of_pos (by omega)]
      ring
    rw [this, Int.toNat_ofNat]
  rw [hk]
  rfl

theorem bson_le_total (a b : Bson) : Bson.le a b = true ∨ Bson.le b a = true := by
  cases a <;> cases b <;> simp [Bson.le, Bson.rank]
  · exact le_total _ _
  · exact Nat.le_total _ _
  · rename_i x y
    cases x <;> cases y <;> simp
  · exact Int.le_total _ _

theorem bson_le_trans (a b c : Bson) (hab : Bson.le a b = true) (hbc : Bson.le b c = true) :
    Bson.le a c = true := by
  cases a <;> cases b <;> cases c <;> simp_all [Bson.le, Bson.rank]
  · exact le_trans hab hbc
  · exact Nat.le_trans hab hbc
  · rename_i x y z
    cases x <;> cases y <;> cases z <;> simp_all
  · exact Int.le_trans hab hbc

instance sortRel_isTotal (sortBy : String) (dir : Int) : IsTotal Task (sortRel sortBy dir) :=
  ⟨fun a b => by
    unfold sortRel
    split
    · exact (bson_le_total _ _).symm
    · exact bson_le_total _ _⟩

instance sortRel_isTrans (sortBy : String) (dir : Int) : IsTrans Task (sortRel sortBy dir) :=
  ⟨fun a b c hab hbc => by
    unfold sortRel at *
    split
    · rename_i h
      rw [if_pos h] at hab hbc
      exact bson_le_trans _ _ _ hbc hab
    · rename_i h
      rw [if_neg h] at hab hbc
      exact bson_le_trans _ _ _ hab hbc⟩

theorem bson_le_antisymm (a b : Bson) (hab : Bson.le a b = true) (hba : Bson.le b a = true) :
    a = b := by
  cases a <;> cases b <;> simp_all [Bson.le, Bson.rank]
  · exact String.ext (le_antisymm hab hba)
  · exact Nat.le_antisymm hab hba
  · rename_i x y
    cases x <;> cases y <;> simp_all
  · exact Int.le_antisymm hab hba

theorem sortRel_key_eq (sortBy : String) (dir : Int) (a b : Task)
    (hab : sortRel sortBy dir a b) (hba : sortRel sortBy dir b a) :
    a.sortKey sortBy dir = b.sortKey sortBy dir := by
  unfold sortRel at hab hba
  split at hab
  · rename_i h
    rw [if_pos h] at hba
    exact bson_le_antisymm _ _ hba hab
  · rename_i h
    rw [if_neg h] at hba
    exact bson_le_antisymm _ _ hab hba

theorem sorted_perm_unique {α : Type} (r : α → α → Prop) :
    ∀ l₁ l₂ : List α, (∀ a ∈ l₁, ∀ b ∈ l₁, r a b → r b a → a = b) → l₁.Perm l₂ →
      l₁.Sorted r → l₂.Sorted r → l₁ = l₂
  | [], l₂, _, hp, _, _ => hp.nil_eq
  | a :: l₁, [], _, hp, _, _ => absurd hp.symm.nil_eq (List.cons_ne_nil a l₁).symm
  | a :: l₁, b :: l₂, hanti, hp, hs₁, hs₂ => by
    have hab : a = b := by
      by_contra hne
      have ha : a ∈ l₂ := by
        have := hp.subset (List.mem_cons_self a l₁)
        rcases List.mem_cons.mp this with h | h
        · exact absurd h hne
        · exact h
      have hb : b ∈ l₁ := by
        have := hp.symm.subset (List.mem_cons_self b l₂)
        rcases List.mem_cons.mp this with h | h
        · exact absurd h.symm hne
        · exact h
      exact hne (hanti a (List.mem_cons_self a l₁) b (List.mem_cons_of_mem a hb)
        (List.rel_of_sorted_cons hs₁ b hb) (List.rel_of_sorted_cons hs₂ a ha))
    subst hab
    rw [sorted_perm_unique r l₁ l₂
      (fun x hx y hy => hanti x (List.mem_cons_of_mem a hx) y (List.mem_cons_of_mem a hy))
      ((List.perm_cons a).mp hp) hs₁.of_cons hs₂.of_cons]

theorem sortTasks_perm_eq (sortBy : String) (dir : Int) (l₁ l₂ : List Task) (hp : l₁.Perm l₂)
    (hkeys : ∀ a ∈ l₂, ∀ b ∈ l₂, a.sortKey sortBy dir = b.sortKey sortBy dir → a = b) :
    sortTasks sortBy dir l₁ = sortTasks sortBy dir l₂ := by
  unfold sortTasks
  have h₁ := List.perm_insertionSort (sortRel sortBy dir) l₁
  have h₂ := List.perm_insertionSort (sortRel sortBy dir) l₂
  apply sorted_perm_unique (sortRel sortBy dir) _ _ _ ((h₁.trans hp).trans h₂.symm)
    (List.sorted_insertionSort _ _) (List.sorted_insertionSort _ _)
  intro a ha b hb hab hba
  exact hkeys a ((h₁.trans hp).subset ha) b ((h₁.trans hp).subset hb)
    (sortRel_key_eq sortBy dir a b hab hba)

theorem populate_congr (a b : Store) (h : a.users = b.users) : populate a = populate b := by
  funext t
  unfold populate
  rw [h]

/-- C2, as the code has it. The store holds a fixed set of tasks (`store`, with
no document stored twice); the request for page `k` finds them in the order
of `stores k`, a permutation of that set, with the same users. If every
request finds the same order, or if no two of the requester's matching tasks
have the same sort key, then for a request without a category filter and a
limit between 1 and 100 the task lists of the pages 1 to `totalPages`
concatenate, in page order, to the filtered list of the requester's tasks
sorted by the key, and the lists of two different pages have no task in
common. -/
theorem getTasks_pages_partition (re : RegExpEngine) (store : Store) (stores : Nat → Store)
    (userId : ObjectId) (query : Query) (pageStr : Nat → String) (l : Int) (n : Nat)
    (hstore : store.tasks.Nodup)
    (hsame : ∀ k, (stores k).users = store.users ∧ (stores k).tasks.Perm store.tasks)
    (hties : (∀ k, (stores k).tasks = store.tasks)
      ∨ ∀ a ∈ store.tasks, ∀ b ∈ store.tasks,
          matchesSubstringFilters userId query a → matchesSubstringFilters userId query b →
          a.sortKey (sortByParam query) (sortDir query)
            = b.sortKey (sortByParam query) (sortDir query) → a = b)
    (hl : parseInt (limitParam query) = some l) (hl1 : 1 ≤ l) (hl100 : l ≤ 100)
    (hcat : supplied query "category" = none)
    (hn : mathCeilDiv
      (store.tasks.filter (fun t => decide (matchesSubstringFilters userId query t))).length l
        = .int (n : Int))
    (hpage : ∀ k, 1 ≤ k → k ≤ n → parseInt (pageStr k) = some (k : Int)) :
    ((List.range n).map (fun i =>
        (getTasks re (stores (i + 1)) userId (("page", pageStr (i + 1)) :: query)).tasks)).flatten
      = (sortTasks (sortByParam query) (sortDir query)
          (store.tasks.filter (fun t => decide (matchesSubstringFilters userId query t)))).map
            (populate store)
    ∧ ∀ i j, 1 ≤ i → i < j → j ≤ n →
        List.Disjoint (getTasks re (stores i) userId (("page", pageStr i) :: query)).tasks
          (getTasks re (stores j) userId (("page", pageStr j) :: query)).tasks := by
  have _ := hl100
  obtain ⟨f, hf, hm⟩ := buildFilter_no_category re userId query hcat
  have hfun : f.matches = fun t => decide (matchesSubstringFilters userId query t) := funext hm
  rw [← hfun] at hn ⊢
  set L := sortTasks (sortByParam query) (sortDir query) (store.tasks.filter f.matches) with hLdef
  have hLlen : L.length = (store.tasks.filter f.matches).length := by
    simp [hLdef, sortTasks]
  have hsort : ∀ k, sortTasks (sortByParam query) (sortDir query)
      ((stores k).tasks.filter f.matches) = L := by
    intro k
    rcases hties with hfix | hkeys
    · rw [hfix k]
    · apply sortTasks_perm_eq _ _ _ _ ((hsame k).2.filter _)
      intro a ha b hb hab
      obtain ⟨ha1, ha2⟩ := List.mem_filter.mp ha
      obtain ⟨hb1, hb2⟩ := List.mem_filter.mp hb
      rw [hm, decide_eq_true_iff] at ha2 hb2
      exact hkeys a ha1 b hb1 ha2 hb2 hab
  have hpg : ∀ k, k < n →
      (getTasks re (stores (k + 1)) userId (("page", pageStr (k + 1)) :: query)).tasks =
        ((L.drop (k * l.natAbs)).take l.natAbs).map (populate store) := by
    intro k hk
    rw [getTasks_page_tasks re (stores (k + 1)) userId query f l _ k hf hl hl1
      (by rw [hpage (k + 1) (by omega) (by omega)]; push_cast; rfl), hsort (k + 1),
      populate_congr _ _ (hsame (k + 1)).1]
  constructor
  · have hmap : (List.range n).map (fun i =>
          (getTasks re (stores (i + 1)) userId (("page", pageStr (i + 1)) :: query)).tasks)
        = (List.range n).map (fun i =>
          ((L.drop (i * l.natAbs)).take l.natAbs).map (populate store)) := by
      apply List.map_congr_left
      intro i hi
      exact hpg i (List.mem_range.mp hi)
    rw [hmap]
    have hcomp : (List.range n).map (fun i =>
          ((L.drop (i * l.natAbs)).take l.natAbs).map (populate store))
        = ((List.range n).map (fun i => (L.drop (i * l.natAbs)).take l.natAbs)).map
            (List.map (populate store)) := by
      rw [List.map_map]
      rfl
    rw [hcomp, ← List.map_flatten, chunks_flatten L l.natAbs n]
    congr 1
    apply List.take_of_length_le
    rw [hLlen]
    have hl0 : 0 < l := by omega
    rw [mathCeilDiv, if_neg (ne_of_gt hl0), if_pos hl0] at hn
    have hn2 : -(-((store.tasks.filter f.matches).length : Int) / l) = (n : Int) := by
      injection hn
    have hmul := Int.ediv_mul_le (-((store.tasks.filter f.matches).length : Int)) (ne_of_gt hl0)
    have hcast : ((n * l.natAbs : Nat) : Int) = (n : Int) * l := by
      push_cast
      rw [abs_of_pos hl0]
    have : ((store.tasks.filter f.matches).length : Int) ≤ ((n * l.natAbs : Nat) : Int) := by
      rw [hcast, ← hn2]
      linarith
    exact_mod_cast this
  · intro i j hi hij hj
    obtain ⟨i, rfl⟩ : ∃ a, i = a + 1 := ⟨i - 1, by omega⟩
    obtain ⟨j, rfl⟩ : ∃ b, j = b + 1 := ⟨j - 1, by omega⟩
    rw [hpg i (by omega), hpg j (by omega)]
    have hLnodup : L.Nodup := sortTasks_nodup _ _ _ (hstore.filter _)
    have hd := chunks_disjoint L hLnodup l.natAbs i j (by omega)
    intro a ha hb
    obtain ⟨x, hx, rfl⟩ := List.mem_map.mp ha
    obtain ⟨y, hy, hxy⟩ := List.mem_map.mp hb
    have := populate_injective store hxy
    subst this
    exact hd hx hy

/-- Witness for C2 as amended: the two tasks of the first store of ties in
pages of size 1, sorted by title, with page 2 read from the store that holds
the same tasks in the other order. The titles `write` and `read` differ. -/
theorem getTasks_pages_partition_witness :
    ((List.range 2).map (fun i =>
        (getTasks sampleEngine ((fun k => if k = 1 then tieStoreA else tieStoreB) (i + 1)) 1
          (("page", (fun k => if k = 1 then "1" else "2") (i + 1))
            :: [("limit", "1"), ("sortBy", "title")])).tasks)).flatten
      = (sortTasks (sortByParam [("limit", "1"), ("sortBy", "title")])
          (sortDir [("limit", "1"), ("sortBy", "title")])
          (tieStoreA.tasks.filter (fun t =>
            decide (matchesSubstringFilters 1 [("limit", "1"), ("sortBy", "title")] t)))).map
              (populate tieStoreA)
    ∧ ∀ i j, 1 ≤ i → i < j → j ≤ 2 →
        List.Disjoint
          (getTasks sampleEngine ((fun k => if k = 1 then tieStoreA else tieStoreB) i) 1
            (("page", (fun k => if k = 1 then "1" else "2") i)
              :: [("limit", "1"), ("sortBy", "title")])).tasks
          (getTasks sampleEngine ((fun k => if k = 1 then tieStoreA else tieStoreB) j) 1
            (("page", (fun k => if k = 1 then "1" else "2") j)
              :: [("limit", "1"), ("sortBy", "title")])).tasks :=
  getTasks_pages_partition sampleEngine tieStoreA (fun k => if k = 1 then tieStoreA else tieStoreB)
    1 [("limit", "1"), ("sortBy", "title")] (fun k => if k = 1 then "1" else "2") 1 2
    (by decide)
    (by intro k; by_cases hk : k = 1 <;> simp only [hk, if_true, if_false] <;> decide)
    (Or.inr (by decide))
    (by decide) (by decide) (by decide) (by decide) (by decide)
    (by intro k h1 h2; interval_cases k <;> decide)

/-- C2 fails as stated: the two stores of ties hold the same users and the same
two tasks, equal in the sort key `priority`, in different storage orders. With
the limit 1 there are two pages; page 1, read from the first store, and page
2, read from the second, both hold task 10, and task 11 is on neither. -/
theorem getTasks_pages_overlap_on_ties :
    tieStoreA.users = tieStoreB.users
    ∧ tieStoreA.tasks.Perm tieStoreB.tasks
    ∧ tieStoreA.tasks.map (fun t => (t.id, t.priority)) = [(10, "low"), (11, "low")]
    ∧ (getTasks sampleEngine tieStoreA 1
        [("page", "1"), ("limit", "1"), ("sortBy", "priority")]).pagination.map
          Pagination.totalPages = some (.int 2)
    ∧ (getTasks sampleEngine tieStoreB 1
        [("page", "2"), ("limit", "1"), ("sortBy", "priority")]).pagination.map
          Pagination.totalPages = some (.int 2)
    ∧ (getTasks sampleEngine tieStoreA 1
        [("page", "1"), ("limit", "1"), ("sortBy", "priority")]).tasks.map
          (fun t => t.doc.id) = [10]
    ∧ (getTasks sampleEngine tieStoreB 1
        [("page", "2"), ("limit", "1"), ("sortBy", "priority")]).tasks.map
          (fun t => t.doc.id) = [10] := by
  decide

/-! ## The order of the page window -/

/-- C4, as the code has it: `getTasks` orders the page window by the `sortBy`
key in the `sortOrder` direction and by nothing else. The window is cut from a
list that holds exactly the matching tasks, is ordered by the key, and keeps
every two tasks that may stay in storage order (equal keys among them) in
storage order; there is no tie-break on the task id. -/
theorem getTasks_window_sorted_by_key (re : RegExpEngine) (store : Store) (userId : ObjectId)
    (query : Query) (p l : Int)
    (hp : parseInt (pageParam query) = some p) (hp1 : 1 ≤ p)
    (hl : parseInt (limitParam query) = some l) (hl1 : 1 ≤ l)
    (hc : ∀ c ∈ supplied query "category", (re c).isSome) :
    ∃ L : List Task,
      L.Perm (store.tasks.filter (fun t => decide (matchesFilters re userId query t)))
      ∧ L.Sorted (sortRel (sortByParam query) (sortDir query))
      ∧ (∀ a b, sortRel (sortByParam query) (sortDir query) a b →
          List.Sublist [a, b]
            (store.tasks.filter (fun t => decide (matchesFilters re userId query t))) →
          List.Sublist [a, b] L)
      ∧ (getTasks re store userId query).tasks =
          ((L.drop ((p - 1) * l).toNat).take l.natAbs).map (populate store)
      ∧ ((getTasks re store userId query).tasks.map PopulatedTask.doc).Sorted
          (sortRel (sortByParam query) (sortDir query)) := by
  obtain ⟨f, hf, hm⟩ := buildFilter_spec re userId query hc
  have hfun : f.matches = fun t => decide (matchesFilters re userId query t) := funext hm
  have h := getTasks_of_filter re store userId query f p l hf hp hl hp1 hl1
  rw [hfun] at h
  have hsorted := List.sorted_insertionSort (sortRel (sortByParam query) (sortDir query))
    (store.tasks.filter (fun t => decide (matchesFilters re userId query t)))
  refine ⟨sortTasks (sortByParam query) (sortDir query)
    (store.tasks.filter (fun t => decide (matchesFilters re userId query t))),
    List.perm_insertionSort _ _, hsorted,
    fun a b hab hsub => List.pair_sublist_insertionSort hab hsub, by rw [h]; rfl, ?_⟩
  rw [h]
  simp only [Response.tasks, sendSuccess, sendResponse, List.map_map]
  have hid : (PopulatedTask.doc ∘ populate store) = id := by
    funext t
    rfl
  rw [hid, List.map_id]
  exact (hsorted.sublist (List.drop_sublist _ _)).sublist (List.take_sublist _ _)

/-- Witness for C4 as amended: the first page of user 1 sorted by priority. -/
theorem getTasks_window_sorted_by_key_witness :
    ∃ L : List Task,
      L.Perm (sampleStore.tasks.filter (fun t =>
        decide (matchesFilters sampleEngine 1 [("sortBy", "priority")] t)))
      ∧ L.Sorted (sortRel (sortByParam [("sortBy", "priority")])
          (sortDir [("sortBy", "priority")]))
      ∧ (∀ a b, sortRel (sortByParam [("sortBy", "priority")])
            (sortDir [("sortBy", "priority")]) a b →
          List.Sublist [a, b] (sampleStore.tasks.filter (fun t =>
            decide (matchesFilters sampleEngine 1 [("sortBy", "priority")] t))) →
          List.Sublist [a, b] L)
      ∧ (getTasks sampleEngine sampleStore 1 [("sortBy", "priority")]).tasks =
          ((L.drop (((1 : Int) - 1) * 10).toNat).take (10 : Int).natAbs).map
            (populate sampleStore)
      ∧ ((getTasks sampleEngine sampleStore 1 [("sortBy", "priority")]).tasks.map
          PopulatedTask.doc).Sorted
            (sortRel (sortByParam [("sortBy", "priority")]) (sortDir [("sortBy", "priority")])) :=
  getTasks_window_sorted_by_key sampleEngine sampleStore 1 [("sortBy", "priority")] 1 10
    (by decide) (by decide) (by decide) (by decide)
    (by intro c hc; simp [supplied, List.lookup] at hc)

/-- C4 fails as stated: two stores hold the same users and the same set of
tasks, and the tasks 10 and 11, equal in the sort key `priority`, come back in
one order from the first store and in the other order from the second. -/
theorem getTasks_tie_order_follows_storage :
    tieStoreA.users = tieStoreB.users
    ∧ tieStoreA.tasks.Perm tieStoreB.tasks
    ∧ (getTasks sampleEngine tieStoreA 1 [("sortBy", "priority")]).tasks.map
        (fun t => (t.doc.id, t.doc.priority)) = [(10, "low"), (11, "low")]
    ∧ (getTasks sampleEngine tieStoreB 1 [("sortBy", "priority")]).tasks.map
        (fun t => (t.doc.id, t.doc.priority)) = [(11, "low"), (10, "low")] := by
  decide

/-! ## The category filter -/

/-- C5 at the failing inputs `GET /api/tasks?category=.` and
`GET /api/tasks?category=+` by user 1 of the sample store. The handler passes
the parameter to `new RegExp` without escaping it: `.` is read as the
expression that matches any character and selects the tasks 11 and 10, whose
categories `home` and `Work` do not contain a dot; `+` is a pattern the
constructor rejects, and the request fails with status 500. -/
theorem getTasks_category_is_regex :
    compilePattern "." = .regex (.seq .dot .eps)
    ∧ (getTasks sampleEngine sampleStore 1 [("category", ".")]).tasks.map
        (fun t => (t.doc.id, t.doc.category)) = [(11, some "home"), (10, some "Work")]
    ∧ ¬ containsIgnoreCase "." "home"
    ∧ ¬ containsIgnoreCase "." "Work"
    ∧ compilePattern "+" = .invalid
    ∧ getTasks sampleEngine sampleStore 1 [("category", "+")] =
        sendError 500 "Error retrieving tasks" none := by
  decide

/-! ## The owner constraint -/

theorem buildFilter_user (re : RegExpEngine) (userId : ObjectId) (query : Query) (f : Filter)
    (h : buildFilter re userId query = some f) : f.user = userId := by
  unfold buildFilter at h
  split at h
  · cases h; rfl
  · split at h
    · cases h; rfl
    · cases h

theorem matches_user (f : Filter) (t : Task) (h : f.matches t = true) : t.user = f.user := by
  unfold Filter.matches at h
  simp only [Bool.and_eq_true, decide_eq_true_eq] at h
  exact h.1.1.1

theorem window_subset (skip limitNum : Int) (L w : List Task)
    (h : window skip limitNum L = some w) : w ⊆ L := by
  unfold window at h
  split at h
  · cases h
  · split at h
    · cases h
      exact List.drop_subset _ _
    · cases h
      exact fun x hx => List.drop_subset _ _ (List.take_subset _ _ hx)

theorem getTasks_tasks_owned (re : RegExpEngine) (store : Store) (userId : ObjectId)
    (query : Query) (t : PopulatedTask) (ht : t ∈ (getTasks re store userId query).tasks) :
    t.doc.user = userId := by
  unfold getTasks at ht
  cases hf : buildFilter re userId query with
  | none => simp [hf, Response.tasks, sendError] at ht
  | some f =>
    simp only [hf] at ht
    cases hp : parseInt ((query.lookup "page").getD "1") with
    | none => simp [hp, Response.tasks, sendError] at ht
    | some p =>
      cases hl : parseInt ((query.lookup "limit").getD "10") with
      | none => simp [hp, hl, Response.tasks, sendError] at ht
      | some l =>
        simp only [hp, hl] at ht
        split at ht
        · simp [Response.tasks, sendError] at ht
        · rename_i w hw
          simp only [Response.tasks, sendSuccess, sendResponse] at ht
          obtain ⟨x, hx, rfl⟩ := List.mem_map.mp ht
          have h1 := window_subset _ _ _ _ hw hx
          have h2 := (List.perm_insertionSort _ _).mem_iff.mp h1
          have h3 := (List.mem_filter.mp h2).2
          rw [← buildFilter_user re userId query f hf]
          exact matches_user f x h3

/-- C6: the owner constraint of `getTasks` is the authenticated identity alone.
For every query object every returned task is owned by `req.user.id`, and two
query objects that agree on the keys status, priority, category, page, limit,
sortBy and sortOrder get the same response, whatever other keys (such as
`user`) they hold. -/
theorem getTasks_owner_from_identity (re : RegExpEngine) (store : Store) (userId : ObjectId)
    (query query' : Query)
    (hsame : ∀ key ∈ ["status", "priority", "category", "page", "limit", "sortBy", "sortOrder"],
      query.lookup key = query'.lookup key) :
    (∀ t ∈ (getTasks re store userId query).tasks, t.doc.user = userId)
    ∧ (∀ t ∈ (getTasks re store userId query').tasks, t.doc.user = userId)
    ∧ getTasks re store userId query = getTasks re store userId query' := by
  refine ⟨fun t ht => getTasks_tasks_owned re store userId query t ht,
    fun t ht => getTasks_tasks_owned re store userId query' t ht, ?_⟩
  have h1 := hsame "status" (by simp)
  have h2 := hsame "priority" (by simp)
  have h3 := hsame "category" (by simp)
  have h4 := hsame "page" (by simp)
  have h5 := hsame "limit" (by simp)
  have h6 := hsame "sortBy" (by simp)
  have h7 := hsame "sortOrder" (by simp)
  unfold getTasks buildFilter supplied
  rw [h1, h2, h3, h4, h5, h6, h7]

/-- Witness for C6: a query that names another user as `user` gets the response
of the empty query. -/
theorem getTasks_owner_from_identity_witness :
    (∀ t ∈ (getTasks sampleEngine sampleStore 1 [("user", "2")]).tasks, t.doc.user = 1)
    ∧ (∀ t ∈ (getTasks sampleEngine sampleStore 1 []).tasks, t.doc.user = 1)
    ∧ getTasks sampleEngine sampleStore 1 [("user", "2")] = getTasks sampleEngine sampleStore 1 [] :=
  getTasks_owner_from_identity sampleEngine sampleStore 1 [("user", "2")] [] (by decide)

/-! ## The list route -/

theorem queryCheck_keeps (field : String) (check : String → Bool) (req : Request) :
    (queryCheck field check req).userId = req.userId
      ∧ (queryCheck field check req).query = req.query := by
  unfold queryCheck
  split
  · exact ⟨rfl, rfl⟩
  · split <;> exact ⟨rfl, rfl⟩

theorem getTasksRoute_eq (re : RegExpEngine) (store : Store) (req : Request) :
    getTasksRoute re store req = getTasks re store req.userId req.query := by
  unfold getTasksRoute getTasksChecks runChecks
  simp only [List.foldl]
  simp only [(queryCheck_keeps _ _ _).1, (queryCheck_keeps _ _ _).2]

/-- C7 at the failing input `GET /api/tasks?limit=1000`: the checks of the
route record the error on `limit`, which the validation boundary would answer
with 400, yet the route hands the request to `getTasks`, which answers 200 and
returns all 101 tasks of the requester in one window (no clamp to 100). -/
theorem getTasksRoute_accepts_invalid_limit :
    (runChecks getTasksChecks
        { userId := 1, query := [("limit", "1000")], errors := [] }).errors = ["limit"]
    ∧ (validateRequest { userId := 1, query := [("limit", "1000")], errors := ["limit"] }).map
        Response.statusCode = some 400
    ∧ (getTasksRoute sampleEngine largeStore
        { userId := 1, query := [("limit", "1000")], errors := [] }).statusCode = 200
    ∧ (getTasksRoute sampleEngine largeStore
        { userId := 1, query := [("limit", "1000")], errors := [] }).tasks.length = 101 := by
  refine ⟨by decide, by decide, ?_, ?_⟩
  · rw [getTasksRoute_eq]
    decide
  · rw [getTasksRoute_eq]
    decide

/-! ## Single-task handlers: ownership -/

theorem findOneTask_none_of_other (store : Store) (userId id : ObjectId) (t : Task)
    (hids : (store.tasks.map Task.id).Nodup)
    (ht : t ∈ store.tasks) (hid : t.id = id) (hu : t.user ≠ userId) :
    findOneTask store id userId = none := by
  unfold findOneTask
  rw [List.find?_eq_none]
  intro x hx hpx
  simp only [Bool.and_eq_true, decide_eq_true_eq] at hpx
  have := List.inj_on_of_nodup_map hids hx ht (by rw [hpx.1, hid])
  subst this
  exact hu hpx.2

theorem findOneTask_none_of_absent (store : Store) (userId id : ObjectId)
    (h : ∀ t ∈ store.tasks, t.id ≠ id) : findOneTask store id userId = none := by
  unfold findOneTask
  rw [List.find?_eq_none]
  intro x hx hpx
  simp only [Bool.and_eq_true, decide_eq_true_eq] at hpx
  exact h x hx hpx.1

/-- C8: for `getTask`, `updateTask`, `deleteTask` and `toggleTaskCompletion`,
an id that names a task of a different user is answered with status 404,
`success = false`, message `Task not found` and no data, exactly as an id that
names no task at all, and the store is left as it was. -/
theorem non_owner_is_not_found (store : Store) (userId id absent : ObjectId) (t : Task)
    (body : TaskUpdateBody) (now : Date)
    (hids : (store.tasks.map Task.id).Nodup)
    (ht : t ∈ store.tasks) (hid : t.id = id) (hu : t.user ≠ userId)
    (habsent : ∀ x ∈ store.tasks, x.id ≠ absent) :
    sendError 404 "Task not found" none =
        { statusCode := 404, success := false, message := "Task not found", data := none,
          errors := none }
    ∧ getTask store userId (some id) = sendError 404 "Task not found" none
    ∧ getTask store userId (some absent) = sendError 404 "Task not found" none
    ∧ updateTask store userId (some id) body = (sendError 404 "Task not found" none, store)
    ∧ updateTask store userId (some absent) body
        = (sendError 404 "Task not found" none, store)
    ∧ deleteTask store userId (some id) = (sendError 404 "Task not found" none, store)
    ∧ deleteTask store userId (some absent) = (sendError 404 "Task not found" none, store)
    ∧ toggleTaskCompletion store userId (some id) now
        = (sendError 404 "Task not found" none, store)
    ∧ toggleTaskCompletion store userId (some absent) now
        = (sendError 404 "Task not found" none, store) := by
  have h1 := findOneTask_none_of_other store userId id t hids ht hid hu
  have h2 := findOneTask_none_of_absent store userId absent habsent
  refine ⟨rfl, ?_, ?_, ?_, ?_, ?_, ?_, ?_, ?_⟩ <;>
    simp only [getTask, updateTask, deleteTask, toggleTaskCompletion, h1, h2]

/-- Witness for C8: user 1 asks for task 12 of user 2, and for the id 99 that
names no task. -/
theorem non_owner_is_not_found_witness :
    sendError 404 "Task not found" none =
        { statusCode := 404, success := false, message := "Task not found", data := none,
          errors := none }
    ∧ getTask sampleStore 1 (some 12) = sendError 404 "Task not found" none
    ∧ getTask sampleStore 1 (some 99) = sendError 404 "Task not found" none
    ∧ updateTask sampleStore 1 (some 12)
        { title := some "x", description := none, status := none, priority := none,
          dueDate := none, category := none, tags := none }
        = (sendError 404 "Task not found" none, sampleStore)
    ∧ updateTask sampleStore 1 (some 99)
        { title := some "x", description := none, status := none, priority := none,
          dueDate := none, category := none, tags := none }
        = (sendError 404 "Task not found" none, sampleStore)
    ∧ deleteTask sampleStore 1 (some 12) = (sendError 404 "Task not found" none, sampleStore)
    ∧ deleteTask sampleStore 1 (some 99) = (sendError 404 "Task not found" none, sampleStore)
    ∧ toggleTaskCompletion sampleStore 1 (some 12) 100
        = (sendError 404 "Task not found" none, sampleStore)
    ∧ toggleTaskCompletion sampleStore 1 (some 99) 100
        = (sendError 404 "Task not found" none, sampleStore) :=
  non_owner_is_not_found sampleStore 1 12 99 (sampleTask 12 2 "cook" "pending" "high" (some "work") 7)
    { title := some "x", description := none, status := none, priority := none,
      dueDate := none, category := none, tags := none } 100
    (by decide) (by decide) (by decide) (by decide) (by decide)

/-! ## Toggling -/

theorem map_id_updateFirst (p : Task → Bool) (f : Task → Task) (hf : ∀ x, (f x).id = x.id) :
    ∀ l : List Task, (updateFirst p f l).map Task.id = l.map Task.id
  | [] => rfl
  | x :: xs => by
    unfold updateFirst
    split
    · simp [hf]
    · simp [map_id_updateFirst p f hf xs]

theorem find_updateFirst (p q : Task → Bool) (f : Task → Task)
    (hf : ∀ x, p x = true → p (f x) = true) :
    ∀ l : List Task, (∀ x ∈ l, q x = p x) →
      (updateFirst q f l).find? p = (l.find? p).map f
  | [], _ => rfl
  | x :: xs, h => by
    have hx := h x (List.mem_cons_self _ _)
    unfold updateFirst
    by_cases hp : p x = true
    · rw [if_pos (by rw [hx, hp]), List.find?_cons_of_pos _ (hf x hp), List.find?_cons_of_pos _ hp]
      rfl
    · rw [if_neg (by rw [hx]; exact hp), List.find?_cons_of_neg _ hp, List.find?_cons_of_neg _ hp]
      exact find_updateFirst p q f hf xs (fun y hy => h y (List.mem_cons_of_mem _ hy))

theorem find_congr (p q : Task → Bool) :
    ∀ l : List Task, (∀ x ∈ l, q x = p x) → l.find? q = l.find? p
  | [], _ => rfl
  | x :: xs, h => by
    have hx := h x (List.mem_cons_self _ _)
    have ih := find_congr p q xs (fun y hy => h y (List.mem_cons_of_mem _ hy))
    simp only [List.find?_cons, hx, ih]

theorem owner_of_id (store : Store) (userId id : ObjectId) (t : Task)
    (hids : (store.tasks.map Task.id).Nodup) (h : findOneTask store id userId = some t) :
    ∀ x ∈ store.tasks, decide (x.id = id) = (decide (x.id = id) && decide (x.user = userId)) := by
  intro x hx
  have hmem := List.mem_of_find?_eq_some h
  have hp := List.find?_some h
  simp only [Bool.and_eq_true, decide_eq_true_eq] at hp
  by_cases hxi : x.id = id
  · have := List.inj_on_of_nodup_map hids hx hmem (by rw [hxi, hp.1])
    subst this
    simp [hp.1, hp.2]
  · simp [hxi]

theorem findByIdAndUpdate_spec (store : Store) (userId id : ObjectId) (t : Task)
    (update : Task → Task)
    (hids : (store.tasks.map Task.id).Nodup) (h : findOneTask store id userId = some t)
    (hid : ∀ x, (update x).id = x.id) (huser : ∀ x, (update x).user = x.user) :
    (findByIdAndUpdate store id update).1 = some (update t)
    ∧ ((findByIdAndUpdate store id update).2.tasks.map Task.id).Nodup
    ∧ findOneTask (findByIdAndUpdate store id update).2 id userId = some (update t) := by
  have hco := owner_of_id store userId id t hids h
  have hfind : store.tasks.find? (fun x => decide (x.id = id)) = some t := by
    rw [← h]
    unfold findOneTask
    exact find_congr _ _ _ hco
  unfold findByIdAndUpdate
  rw [hfind]
  refine ⟨rfl, ?_, ?_⟩
  · simp only
    rw [map_id_updateFirst _ _ (fun x => by simp [hid])]
    exact hids
  · unfold findOneTask
    simp only
    rw [find_updateFirst (fun x => decide (x.id = id) && decide (x.user = userId))
      (fun x => decide (x.id = id)) _ (fun x hx => by simpa [hid, huser] using hx) _ hco]
    unfold findOneTask at h
    rw [h]
    rfl

theorem toggle_spec (store : Store) (userId id : ObjectId) (t : Task) (now : Date)
    (hids : (store.tasks.map Task.id).Nodup) (h : findOneTask store id userId = some t) :
    (((toggleTaskCompletion store userId (some id) now).2.tasks).map Task.id).Nodup
    ∧ findOneTask (toggleTaskCompletion store userId (some id) now).2 id userId
        = some (toggleUpdate (if t.status = "completed" then "pending" else "completed") now t) := by
  have hs := findByIdAndUpdate_spec store userId id t
    (toggleUpdate (if t.status = "completed" then "pending" else "completed") now) hids h
    (fun _ => rfl) (fun _ => rfl)
  unfold toggleTaskCompletion
  simp only [h]
  exact ⟨hs.2.1, hs.2.2⟩

theorem toggle_twice (store : Store) (userId id : ObjectId) (t : Task) (now1 now2 : Date)
    (hids : (store.tasks.map Task.id).Nodup) (h : findOneTask store id userId = some t) :
    ∃ t2, findOneTask
        (toggleTaskCompletion (toggleTaskCompletion store userId (some id) now1).2
          userId (some id) now2).2 id userId = some t2
      ∧ t2.status = (if t.status = "completed" then "completed" else "pending")
      ∧ t2.completedAt = (if t.status = "completed" then some now2 else none) := by
  obtain ⟨hids1, h1⟩ := toggle_spec store userId id t now1 hids h
  obtain ⟨-, h2⟩ := toggle_spec _ userId id _ now2 hids1 h1
  refine ⟨_, h2, ?_, ?_⟩
  · by_cases hc : t.status = "completed" <;> simp [toggleUpdate, hc]
  · by_cases hc : t.status = "completed" <;> simp [toggleUpdate, hc]

/-- C9, as the code has it: for a task of the caller whose status is `pending`
or `completed`, two calls of `toggleTaskCompletion` bring the status back; for
a task with any other status (`in-progress`) the status after the two calls is
`pending`. -/
theorem toggle_twice_status (store : Store) (userId id : ObjectId) (t : Task)
    (now1 now2 : Date)
    (hids : (store.tasks.map Task.id).Nodup) (h : findOneTask store id userId = some t) :
    ∃ t2, findOneTask
        (toggleTaskCompletion (toggleTaskCompletion store userId (some id) now1).2
          userId (some id) now2).2 id userId = some t2
      ∧ (t.status = "pending" ∨ t.status = "completed" → t2.status = t.status)
      ∧ (t.status ≠ "completed" → t2.status = "pending") := by
  obtain ⟨t2, h2, hs, -⟩ := toggle_twice store userId id t now1 now2 hids h
  refine ⟨t2, h2, ?_, ?_⟩
  · rintro (hp | hc)
    · rw [hs, hp]; rfl
    · rw [hs, if_pos hc, hc]
  · intro hc
    rw [hs, if_neg hc]

/-- Witness for C9 as amended: the pending task 10 of user 1. -/
theorem toggle_twice_status_witness :
    ∃ t2, findOneTask
        (toggleTaskCompletion (toggleTaskCompletion sampleStore 1 (some 10) 100).2
          1 (some 10) 200).2 10 1 = some t2
      ∧ ((sampleTask 10 1 "write" "pending" "low" (some "Work") 5).status = "pending"
          ∨ (sampleTask 10 1 "write" "pending" "low" (some "Work") 5).status = "completed" →
          t2.status = (sampleTask 10 1 "write" "pending" "low" (some "Work") 5).status)
      ∧ ((sampleTask 10 1 "write" "pending" "low" (some "Work") 5).status ≠ "completed" →
          t2.status = "pending") :=
  toggle_twice_status sampleStore 1 10 (sampleTask 10 1 "write" "pending" "low" (some "Work") 5)
    100 200 (by decide) (by decide)

/-- C9 fails as stated: task 11 of user 1 is `in-progress`, and after two calls
of `toggleTaskCompletion` its status is `pending`. -/
theorem toggle_twice_in_progress_ends_pending :
    (findOneTask sampleStore 11 1).map Task.status = some "in-progress"
    ∧ (findOneTask (toggleTaskCompletion sampleStore 1 (some 11) 100).2 11 1).map Task.status
        = some "completed"
    ∧ (findOneTask
        (toggleTaskCompletion (toggleTaskCompletion sampleStore 1 (some 11) 100).2
          1 (some 11) 200).2 11 1).map Task.status = some "pending" := by
  decide

/-- C10, as the code has it: after two calls of `toggleTaskCompletion`, at the
instants `now1` and `now2`, `completedAt` is null for a task that was not
completed and is the instant `now2` of the second call for a task that was
completed; so a task that was not completed and had a null `completedAt` gets
its `completedAt` back. -/
theorem toggle_twice_completedAt (store : Store) (userId id : ObjectId) (t : Task)
    (now1 now2 : Date)
    (hids : (store.tasks.map Task.id).Nodup) (h : findOneTask store id userId = some t) :
    ∃ t2, findOneTask
        (toggleTaskCompletion (toggleTaskCompletion store userId (some id) now1).2
          userId (some id) now2).2 id userId = some t2
      ∧ (t.status ≠ "completed" → t2.completedAt = none)
      ∧ (t.status ≠ "completed" → t.completedAt = none → t2.completedAt = t.completedAt)
      ∧ (t.status = "completed" → t2.completedAt = some now2) := by
  obtain ⟨t2, h2, -, hc⟩ := toggle_twice store userId id t now1 now2 hids h
  refine ⟨t2, h2, ?_, ?_, ?_⟩
  · intro hn
    rw [hc, if_neg hn]
  · intro hn hnull
    rw [hc, if_neg hn, hnull]
  · intro hcomp
    rw [hc, if_pos hcomp]

/-- Witness for C10 as amended: the pending task 10 of user 1. -/
theorem toggle_twice_completedAt_witness :
    ∃ t2, findOneTask
        (toggleTaskCompletion (toggleTaskCompletion sampleStore 1 (some 10) 100).2
          1 (some 10) 200).2 10 1 = some t2
      ∧ ((sampleTask 10 1 "write" "pending" "low" (some "Work") 5).status ≠ "completed" →
          t2.completedAt = none)
      ∧ ((sampleTask 10 1 "write" "pending" "low" (some "Work") 5).status ≠ "completed" →
          (sampleTask 10 1 "write" "pending" "low" (some "Work") 5).completedAt = none →
          t2.completedAt = (sampleTask 10 1 "write" "pending" "low" (some "Work") 5).completedAt)
      ∧ ((sampleTask 10 1 "write" "pending" "low" (some "Work") 5).status = "completed" →
          t2.completedAt = some 200) :=
  toggle_twice_completedAt sampleStore 1 10
    (sampleTask 10 1 "write" "pending" "low" (some "Work") 5) 100 200 (by decide) (by decide)

/-- C10 fails as stated: task 20 was completed at the instant 50; after two
calls of `toggleTaskCompletion`, at the instants 100 and 200, its `completedAt`
is 200. -/
theorem toggle_twice_restamps_completedAt :
    (findOneTask completedStore 20 1).map Task.completedAt = some (some 50)
    ∧ (findOneTask (toggleTaskCompletion completedStore 1 (some 20) 100).2 20 1).map
        Task.completedAt = some none
    ∧ (findOneTask
        (toggleTaskCompletion (toggleTaskCompletion completedStore 1 (some 20) 100).2
          1 (some 20) 200).2 20 1).map Task.completedAt = some (some 200) := by
  decide

/-! ## Toggling: the task produced -/

theorem toggle_response (store : Store) (userId id : ObjectId) (t : Task) (now : Date)
    (hids : (store.tasks.map Task.id).Nodup) (h : findOneTask store id userId = some t) :
    (toggleTaskCompletion store userId (some id) now).1 =
      sendSuccess "Task status updated successfully"
        (some (.task (some (populate (toggleTaskCompletion store userId (some id) now).2
          (toggleUpdate (if t.status = "completed" then "pending" else "completed") now
            t))))) 200 := by
  have hs := findByIdAndUpdate_spec store userId id t
    (toggleUpdate (if t.status = "completed" then "pending" else "completed") now) hids h
    (fun _ => rfl) (fun _ => rfl)
  unfold toggleTaskCompletion
  simp only [h, hs.1, Option.map_some']

/-- C11: for a task of the caller, `toggleTaskCompletion` stores and returns a
task whose status is `pending` if the status was `completed` and `completed`
otherwise (never `in-progress`), with `isCompleted = (status = completed)` and
`completedAt` the current instant when the new status is `completed` and null
otherwise. All other fields, that is the id, owner, title, description,
priority, due date, category, tags, `createdAt` and `updatedAt`, are
unchanged: the update document holds the three keys `status`, `isCompleted`
and `completedAt` only. -/
theorem toggle_produces (store : Store) (userId id : ObjectId) (t : Task) (now : Date)
    (hids : (store.tasks.map Task.id).Nodup) (h : findOneTask store id userId = some t) :
    ∃ t2 : Task,
      findOneTask (toggleTaskCompletion store userId (some id) now).2 id userId = some t2
      ∧ (toggleTaskCompletion store userId (some id) now).1 =
          sendSuccess "Task status updated successfully"
            (some (.task (some (populate (toggleTaskCompletion store userId (some id) now).2
              t2)))) 200
      ∧ t2.status = (if t.status = "completed" then "pending" else "completed")
      ∧ t2.status ≠ "in-progress"
      ∧ t2.isCompleted = decide (t2.status = "completed")
      ∧ t2.completedAt = (if t2.status = "completed" then some now else none)
      ∧ t2.id = t.id ∧ t2.user = t.user ∧ t2.title = t.title
      ∧ t2.description = t.description ∧ t2.priority = t.priority ∧ t2.dueDate = t.dueDate
      ∧ t2.category = t.category ∧ t2.tags = t.tags ∧ t2.createdAt = t.createdAt
      ∧ t2.updatedAt = t.updatedAt
      ∧ t2 = { t with status := t2.status, isCompleted := t2.isCompleted,
                      completedAt := t2.completedAt } := by
  obtain ⟨-, h2⟩ := toggle_spec store userId id t now hids h
  refine ⟨_, h2, toggle_response store userId id t now hids h, rfl, ?_, rfl, rfl, rfl, rfl, rfl,
    rfl, rfl, rfl, rfl, rfl, rfl, rfl, rfl⟩
  by_cases hc : t.status = "completed" <;> simp [toggleUpdate, hc]

/-- Witness for C11: the in-progress task 11 of user 1, toggled at the instant
100. -/
theorem toggle_produces_witness :
    ∃ t2 : Task,
      findOneTask (toggleTaskCompletion sampleStore 1 (some 11) 100).2 11 1 = some t2
      ∧ (toggleTaskCompletion sampleStore 1 (some 11) 100).1 =
          sendSuccess "Task status updated successfully"
            (some (.task (some (populate (toggleTaskCompletion sampleStore 1 (some 11) 100).2
              t2)))) 200
      ∧ t2.status = (if (sampleTask 11 1 "read" "in-progress" "low" (some "home") 6).status
          = "completed" then "pending" else "completed")
      ∧ t2.status ≠ "in-progress"
      ∧ t2.isCompleted = decide (t2.status = "completed")
      ∧ t2.completedAt = (if t2.status = "completed" then some 100 else none)
      ∧ t2.id = (sampleTask 11 1 "read" "in-progress" "low" (some "home") 6).id
      ∧ t2.user = (sampleTask 11 1 "read" "in-progress" "low" (some "home") 6).user
      ∧ t2.title = (sampleTask 11 1 "read" "in-progress" "low" (some "home") 6).title
      ∧ t2.description = (sampleTask 11 1 "read" "in-progress" "low" (some "home") 6).description
      ∧ t2.priority = (sampleTask 11 1 "read" "in-progress" "low" (some "home") 6).priority
      ∧ t2.dueDate = (sampleTask 11 1 "read" "in-progress" "low" (some "home") 6).dueDate
      ∧ t2.category = (sampleTask 11 1 "read" "in-progress" "low" (some "home") 6).category
      ∧ t2.tags = (sampleTask 11 1 "read" "in-progress" "low" (some "home") 6).tags
      ∧ t2.createdAt = (sampleTask 11 1 "read" "in-progress" "low" (some "home") 6).createdAt
      ∧ t2.updatedAt = (sampleTask 11 1 "read" "in-progress" "low" (some "home") 6).updatedAt
      ∧ t2 = { sampleTask 11 1 "read" "in-progress" "low" (some "home") 6 with
                status := t2.status, isCompleted := t2.isCompleted,
                completedAt := t2.completedAt } :=
  toggle_produces sampleStore 1 11 (sampleTask 11 1 "read" "in-progress" "low" (some "home") 6)
    100 (by decide) (by decide)

/-! ## Updating: completion fields and the owner -/

/-- C12 at the failing input `PUT /api/tasks/10` with body `status: completed`
by the owner: the stored task gets the status `completed`
while `isCompleted` stays false and `completedAt` stays null. Likewise the
completed task 20, updated to `pending`, keeps `isCompleted = true` and its
`completedAt`. -/
theorem updateTask_leaves_completion_fields :
    (findOneTask sampleStore 10 1).map (fun t => (t.status, t.isCompleted, t.completedAt))
      = some ("pending", false, none)
    ∧ (findOneTask (updateTask sampleStore 1 (some 10)
          { title := none, description := none, status := some "completed", priority := none,
            dueDate := none, category := none, tags := none }).2 10 1).map
        (fun t => (t.status, t.isCompleted, t.completedAt)) = some ("completed", false, none)
    ∧ (updateTask sampleStore 1 (some 10)
          { title := none, description := none, status := some "completed", priority := none,
            dueDate := none, category := none, tags := none }).1.statusCode = 200
    ∧ (findOneTask completedStore 20 1).map (fun t => (t.status, t.isCompleted, t.completedAt))
      = some ("completed", true, some 50)
    ∧ (findOneTask (updateTask completedStore 1 (some 20)
          { title := none, description := none, status := some "pending", priority := none,
            dueDate := none, category := none, tags := none }).2 20 1).map
        (fun t => (t.status, t.isCompleted, t.completedAt)) = some ("pending", true, some 50) := by
  decide

theorem owners_updateFirst (p : Task → Bool) (f : Task → Task)
    (hf : ∀ x, ((f x).id, (f x).user) = (x.id, x.user)) :
    ∀ l : List Task,
      (updateFirst p f l).map (fun t => (t.id, t.user)) = l.map (fun t => (t.id, t.user))
  | [] => rfl
  | x :: xs => by
    unfold updateFirst
    split
    · simp [hf]
    · simp [owners_updateFirst p f hf xs]

theorem owners_findByIdAndUpdate (store : Store) (id : ObjectId) (update : Task → Task)
    (hf : ∀ x, ((update x).id, (update x).user) = (x.id, x.user)) :
    (findByIdAndUpdate store id update).2.tasks.map (fun t => (t.id, t.user))
      = store.tasks.map (fun t => (t.id, t.user)) := by
  unfold findByIdAndUpdate
  split
  · rfl
  · exact owners_updateFirst _ _ hf _

/-- C13: the owner of a task does not change after creation. For every store,
caller, id, instant and request body, whatever other keys (such as `user`) the
body carries, `updateTask` and `toggleTaskCompletion` leave the list of the
stored tasks' ids with their owners as it was. -/
theorem owner_unchanged_by_update_and_toggle (store : Store) (userId : ObjectId)
    (id : Option ObjectId) (body : TaskBody) (now : Date) :
    (updateTask store userId id body.toTaskUpdateBody).2.tasks.map (fun t => (t.id, t.user))
      = store.tasks.map (fun t => (t.id, t.user))
    ∧ (toggleTaskCompletion store userId id now).2.tasks.map (fun t => (t.id, t.user))
      = store.tasks.map (fun t => (t.id, t.user)) := by
  constructor
  · unfold updateTask
    split
    · rfl
    · split
      · rfl
      · split
        · exact owners_findByIdAndUpdate _ _ _ (fun _ => rfl)
        · rfl
  · unfold toggleTaskCompletion
    split
    · rfl
    · split
      · rfl
      · exact owners_findByIdAndUpdate _ _ _ (fun _ => rfl)

/-! ## Creating -/

theorem validCreate_title (b : TaskBody) (h : validCreate b = true) :
    some (b.title.getD "") = b.title := by
  unfold validCreate at h
  cases hb : b.title with
  | none => simp [hb] at h
  | some s => rfl

/-- C14: for every authenticated user id and every request body that passes
the schema validators, whatever other keys (such as `user`) it carries,
`createTask` appends exactly one task to the store; its owner is the
authenticated user and its title, description, priority, due date, category
and tags are those of the body (with the defaults `medium` and no tags where
the body has none), and the response is the 201 envelope with that task. -/
theorem createTask_stores_owned_task (store : Store) (userId : ObjectId) (body : TaskBody)
    (newId : ObjectId) (now : Date)
    (hvalid : validCreate body = true) (hfresh : ∀ t ∈ store.tasks, t.id ≠ newId) :
    ∃ t : Task,
      (createTask store userId body newId now).2.tasks = store.tasks ++ [t]
      ∧ (createTask store userId body newId now).2.users = store.users
      ∧ (createTask store userId body newId now).1 =
          sendSuccess "Task created successfully"
            (some (.task (some (populate (createTask store userId body newId now).2 t)))) 201
      ∧ t.id = newId
      ∧ t.user = userId
      ∧ some t.title = body.title
      ∧ t.description = body.description
      ∧ t.priority = body.priority.getD "medium"
      ∧ t.dueDate = body.dueDate
      ∧ t.category = body.category
      ∧ t.tags = body.tags.getD [] := by
  have hany : store.tasks.any (fun t => decide (t.id = newId)) = false := by
    rw [List.any_eq_false]
    intro t ht
    simpa using hfresh t ht
  have hfind : store.tasks.find? (fun t => decide (t.id = newId)) = none := by
    rw [List.find?_eq_none]
    intro t ht
    simpa using hfresh t ht
  refine ⟨newTask newId userId body now, ?_, ?_, ?_, rfl, rfl, validCreate_title body hvalid,
    rfl, rfl, rfl, rfl, rfl⟩
  · simp [createTask, hvalid, hany]
  · simp [createTask, hvalid, hany]
  · simp [createTask, hvalid, hany, List.find?_append, hfind, newTask]

/-- Witness for C14: user 1 creates a task with a body that names user 2 as
`user`. -/
theorem createTask_stores_owned_task_witness :
    ∃ t : Task,
      (createTask sampleStore 1
          { title := some "plan", description := none, status := none, priority := some "high",
            dueDate := some 900, category := some "Work", tags := some ["a"],
            others := [("user", "2")] } 30 100).2.tasks = sampleStore.tasks ++ [t]
      ∧ (createTask sampleStore 1
          { title := some "plan", description := none, status := none, priority := some "high",
            dueDate := some 900, category := some "Work", tags := some ["a"],
            others := [("user", "2")] } 30 100).2.users = sampleStore.users
      ∧ (createTask sampleStore 1
          { title := some "plan", description := none, status := none, priority := some "high",
            dueDate := some 900, category := some "Work", tags := some ["a"],
            others := [("user", "2")] } 30 100).1 =
          sendSuccess "Task created successfully"
            (some (.task (some (populate (createTask sampleStore 1
              { title := some "plan", description := none, status := none,
                priority := some "high", dueDate := some 900, category := some "Work",
                tags := some ["a"], others := [("user", "2")] } 30 100).2 t)))) 201
      ∧ t.id = 30
      ∧ t.user = 1
      ∧ some t.title = some "plan"
      ∧ t.description = none
      ∧ t.priority = (some "high").getD "medium"
      ∧ t.dueDate = some 900
      ∧ t.category = some "Work"
      ∧ t.tags = (some ["a"]).getD [] :=
  createTask_stores_owned_task sampleStore 1
    { title := some "plan", description := none, status := none, priority := some "high",
      dueDate := some 900, category := some "Work", tags := some ["a"],
      others := [("user", "2")] } 30 100 (by decide) (by decide)

/-! ## The two-call handlers under interleaving -/

theorem updateTaskInterleaved_same (store : Store) (userId : ObjectId) (id : Option ObjectId)
    (body : TaskUpdateBody) :
    updateTaskInterleaved store store userId id body = updateTask store userId id body :=
  rfl

theorem toggleTaskCompletionInterleaved_same (store : Store) (userId : ObjectId)
    (id : Option ObjectId) (now : Date) :
    toggleTaskCompletionInterleaved store store userId id now
      = toggleTaskCompletion store userId id now :=
  rfl

/-- C15 at the failing input: user 1 sends `PUT /api/tasks/10` (and
`PATCH /api/tasks/10/toggle`); the ownership lookup finds task 10, then a
second request of user 1 deletes task 10 before the update-by-id call runs.
The update finds no record, and the handler answers with status 200,
`success = true` and `task: null`, not with 404. -/
theorem update_after_concurrent_delete_succeeds :
    (findOneTask sampleStore 10 1).isSome = true
    ∧ findOneTask (deleteTask sampleStore 1 (some 10)).2 10 1 = none
    ∧ (updateTaskInterleaved sampleStore (deleteTask sampleStore 1 (some 10)).2 1 (some 10)
          { title := some "x", description := none, status := none, priority := none,
            dueDate := none, category := none, tags := none }).1
        = sendSuccess "Task updated successfully" (some (.task none)) 200
    ∧ (toggleTaskCompletionInterleaved sampleStore (deleteTask sampleStore 1 (some 10)).2 1
          (some 10) 100).1
        = sendSuccess "Task status updated successfully" (some (.task none)) 200
    ∧ (sendSuccess "Task updated successfully" (some (.task none)) 200).statusCode = 200
    ∧ (sendSuccess "Task updated successfully" (some (.task none)) 200).success = true := by
  decide

/-! ## Registration and login -/

theorem findUserByEmail_isSome (store : Store) (u : User) (email : String)
    (hu : u ∈ store.users) (he : sameEmail u.email email = true) :
    ∃ v, findUserByEmail store email = some v := by
  unfold findUserByEmail
  rw [← Option.isSome_iff_exists, List.find?_isSome]
  exact ⟨u, hu, he⟩

/-- C16: for every store that holds a user with email `e` and every email
equal to `e` up to letter case, `register` answers with status 400,
`success = false` and the message `User already exists with this email`, and
the store, with the existing user in it, is left as it was. -/
theorem register_conflict (deps : AuthDeps) (store : Store) (u : User) (body : RegisterBody)
    (newId : ObjectId) (now : Date)
    (hu : u ∈ store.users)
    (he : u.email.data.map Char.toLower = body.email.data.map Char.toLower) :
    register deps store body newId now
        = (sendError 400 "User already exists with this email" none, store)
    ∧ (register deps store body newId now).1.statusCode = 400
    ∧ (register deps store body newId now).1.success = false
    ∧ (register deps store body newId now).1.data = none
    ∧ (register deps store body newId now).2.users = store.users
    ∧ u ∈ (register deps store body newId now).2.users := by
  obtain ⟨v, hv⟩ := findUserByEmail_isSome store u body.email hu (by simp [sameEmail, he])
  have h : register deps store body newId now
      = (sendError 400 "User already exists with this email" none, store) := by
    unfold register
    rw [hv]
  rw [h]
  exact ⟨rfl, rfl, rfl, rfl, rfl, hu⟩

/-- Witness for C16: a second registration with the email of user 1 in capital
letters. -/
theorem register_conflict_witness :
    register sampleDeps authStore
        { name := "Ann", email := "ANN@EXAMPLE.ORG", password := "secret" } 9 100
        = (sendError 400 "User already exists with this email" none, authStore)
    ∧ (register sampleDeps authStore
        { name := "Ann", email := "ANN@EXAMPLE.ORG", password := "secret" } 9 100).1.statusCode
        = 400
    ∧ (register sampleDeps authStore
        { name := "Ann", email := "ANN@EXAMPLE.ORG", password := "secret" } 9 100).1.success
        = false
    ∧ (register sampleDeps authStore
        { name := "Ann", email := "ANN@EXAMPLE.ORG", password := "secret" } 9 100).1.data = none
    ∧ (register sampleDeps authStore
        { name := "Ann", email := "ANN@EXAMPLE.ORG", password := "secret" } 9 100).2.users
        = authStore.users
    ∧ { sampleUser 1 "Ann" "ann@example.org" with password := "#secret", lastLogin := some 40 }
        ∈ (register sampleDeps authStore
          { name := "Ann", email := "ANN@EXAMPLE.ORG", password := "secret" } 9 100).2.users :=
  register_conflict sampleDeps authStore
    { sampleUser 1 "Ann" "ann@example.org" with password := "#secret", lastLogin := some 40 }
    { name := "Ann", email := "ANN@EXAMPLE.ORG", password := "secret" } 9 100
    (by decide) (by decide)

/-- C17: for every active user and every password that the comparison with
the stored hash rejects, `login` answers with status 400 and the message
`Invalid credentials`, with no data (so no token), and the store, with the
user's `lastLogin` and every other field, is left as it was. -/
theorem login_wrong_password (deps : AuthDeps) (store : Store) (u : User) (body : LoginBody)
    (now : Date)
    (hu : findUserByEmail store body.email = some u) (hactive : u.isActive = true)
    (hpw : deps.comparePassword body.password u.password = false) :
    login deps store body now = (sendError 400 "Invalid credentials" none, store)
    ∧ (login deps store body now).1.statusCode = 400
    ∧ (login deps store body now).1.success = false
    ∧ (login deps store body now).1.data = none
    ∧ (login deps store body now).2 = store := by
  have h : login deps store body now = (sendError 400 "Invalid credentials" none, store) := by
    unfold login
    simp [hu, hactive, hpw]
  rw [h]
  exact ⟨rfl, rfl, rfl, rfl, rfl⟩

/-- Witness for C17: user 1 logs in with a wrong password. -/
theorem login_wrong_password_witness :
    login sampleDeps authStore { email := "ann@example.org", password := "guess" } 100
        = (sendError 400 "Invalid credentials" none, authStore)
    ∧ (login sampleDeps authStore
        { email := "ann@example.org", password := "guess" } 100).1.statusCode = 400
    ∧ (login sampleDeps authStore
        { email := "ann@example.org", password := "guess" } 100).1.success = false
    ∧ (login sampleDeps authStore
        { email := "ann@example.org", password := "guess" } 100).1.data = none
    ∧ (login sampleDeps authStore
        { email := "ann@example.org", password := "guess" } 100).2 = authStore :=
  login_wrong_password sampleDeps authStore
    { sampleUser 1 "Ann" "ann@example.org" with password := "#secret", lastLogin := some 40 }
    { email := "ann@example.org", password := "guess" } 100 (by decide) (by decide) (by decide)

/-- C18: a deactivated user cannot authenticate. For every login body, with a
matching password or not: when the user found for the email has
`isActive = false`, `login` answers with status 400 and the message
`Account is deactivated`, with no data (so no token), and leaves the store, with
the user's `lastLogin`, as it was; when no stored user has the email, it
answers with status 400 and the message `Invalid credentials`, again without
data and with the store as it was. Each half holds on its own. -/
theorem login_deactivated_or_unknown (deps : AuthDeps) (store : Store) (body : LoginBody)
    (now : Date) :
    (∀ u : User, findUserByEmail store body.email = some u → u.isActive = false →
        login deps store body now = (sendError 400 "Account is deactivated" none, store)
        ∧ (login deps store body now).1.statusCode = 400
        ∧ (login deps store body now).1.success = false
        ∧ (login deps store body now).1.message = "Account is deactivated"
        ∧ (login deps store body now).1.data = none
        ∧ (login deps store body now).2 = store
        ∧ findUserByEmail (login deps store body now).2 body.email = some u)
    ∧ (findUserByEmail store body.email = none →
        login deps store body now = (sendError 400 "Invalid credentials" none, store)
        ∧ (login deps store body now).1.statusCode = 400
        ∧ (login deps store body now).1.success = false
        ∧ (login deps store body now).1.message = "Invalid credentials"
        ∧ (login deps store body now).1.data = none
        ∧ (login deps store body now).2 = store) := by
  constructor
  · intro u hu hinactive
    have h : login deps store body now
        = (sendError 400 "Account is deactivated" none, store) := by
      unfold login
      simp [hu, hinactive]
    rw [h]
    exact ⟨rfl, rfl, rfl, rfl, rfl, rfl, hu⟩
  · intro hnone
    have h : login deps store body now = (sendError 400 "Invalid credentials" none, store) := by
      unfold login
      simp [hnone]
    rw [h]
    exact ⟨rfl, rfl, rfl, rfl, rfl, rfl⟩

/-- Witness for C18: the deactivated user 3 with the right password, and, on
the sample store where every user is active, an email that nobody has. -/
theorem login_deactivated_or_unknown_witness :
    sampleDeps.comparePassword "secret" "#secret" = true
    ∧ login sampleDeps authStore { email := "cy@example.org", password := "secret" } 100
        = (sendError 400 "Account is deactivated" none, authStore)
    ∧ (∀ u ∈ sampleStore.users, u.isActive = true)
    ∧ login sampleDeps sampleStore { email := "dee@example.org", password := "secret" } 100
        = (sendError 400 "Invalid credentials" none, sampleStore) :=
  ⟨by decide,
   ((login_deactivated_or_unknown sampleDeps authStore
      { email := "cy@example.org", password := "secret" } 100).1
      { sampleUser 3 "Cy" "cy@example.org" with password := "#secret", isActive := false }
      (by decide) (by decide)).1,
   by decide,
   ((login_deactivated_or_unknown sampleDeps sampleStore
      { email := "dee@example.org", password := "secret" } 100).2 (by decide)).1⟩

/-- C19: on every successful `register`, and on every successful `login`, the
response data is the pair of `user` and `token`, where `user` holds exactly the
id, name, email and role of the stored user (no password, plain or hashed) and
`token` is `generateToken` of that user's id. For `register` the user is the
record just stored under the new id, with the name and email of the body; for
`login` it is the stored user found for the email. Each half holds on its own. -/
theorem auth_response_shape (deps : AuthDeps) (store : Store) (rb : RegisterBody)
    (newId : ObjectId) (lb : LoginBody) (now : Date) :
    ((register deps store rb newId now).1.success = true →
      ∃ u : User,
        (register deps store rb newId now).2.users = store.users ++ [u]
        ∧ u.id = newId ∧ u.name = rb.name ∧ u.email = rb.email
        ∧ (register deps store rb newId now).1 =
            sendSuccess "User registered successfully"
              (some (.auth { id := u.id, name := u.name, email := u.email, role := u.role }
                (deps.generateToken u.id))) 201)
    ∧ ((login deps store lb now).1.success = true →
      ∃ u : User,
        findUserByEmail store lb.email = some u
        ∧ (login deps store lb now).1 =
            sendSuccess "Login successful"
              (some (.auth { id := u.id, name := u.name, email := u.email, role := u.role }
                (deps.generateToken u.id))) 200) := by
  constructor
  · intro hreg
    unfold register at hreg ⊢
    cases hf : findUserByEmail store rb.email with
    | some v => simp [hf, sendError] at hreg
    | none =>
      simp only [hf] at hreg ⊢
      split at hreg
      · rename_i hc
        rw [if_pos hc]
        exact ⟨newUser deps newId rb now, rfl, rfl, rfl, rfl, rfl⟩
      · simp [sendError] at hreg
  · intro hlog
    unfold login at hlog ⊢
    cases hf : findUserByEmail store lb.email with
    | none => simp [hf, sendError] at hlog
    | some u =>
      simp only [hf] at hlog ⊢
      split at hlog
      · simp [sendError] at hlog
      · split at hlog
        · simp [sendError] at hlog
        · rename_i h1 h2
          rw [if_neg h1, if_neg h2]
          exact ⟨u, rfl, rfl⟩

/-- Witness for C19: a first user registers on the empty store, where no login
can succeed, and user 1 logs in on the store of the auth examples. -/
theorem auth_response_shape_witness :
    (∃ u : User,
      (register sampleDeps { users := [], tasks := [] }
        { name := "Dee", email := "dee@example.org", password := "pw" } 9 100).2.users
        = ({ users := [], tasks := [] } : Store).users ++ [u]
      ∧ u.id = 9 ∧ u.name = "Dee" ∧ u.email = "dee@example.org"
      ∧ (register sampleDeps { users := [], tasks := [] }
          { name := "Dee", email := "dee@example.org", password := "pw" } 9 100).1 =
          sendSuccess "User registered successfully"
            (some (.auth { id := u.id, name := u.name, email := u.email, role := u.role }
              (sampleDeps.generateToken u.id))) 201)
    ∧ (∃ u : User,
      findUserByEmail authStore "ann@example.org" = some u
      ∧ (login sampleDeps authStore { email := "ann@example.org", password := "secret" } 100).1 =
          sendSuccess "Login successful"
            (some (.auth { id := u.id, name := u.name, email := u.email, role := u.role }
              (sampleDeps.generateToken u.id))) 200) :=
  ⟨(auth_response_shape sampleDeps { users := [], tasks := [] }
      { name := "Dee", email := "dee@example.org", password := "pw" } 9
      { email := "ann@example.org", password := "secret" } 100).1 (by decide),
   (auth_response_shape sampleDeps authStore
      { name := "Dee", email := "dee@example.org", password := "pw" } 9
      { email := "ann@example.org", password := "secret" } 100).2 (by decide)⟩

/-! ## Profile update -/

theorem find_updateFirstUser (p : User → Bool) (f : User → User)
    (hf : ∀ x, p x = true → p (f x) = true) :
    ∀ l : List User, (updateFirstUser p f l).find? p = (l.find? p).map f
  | [] => rfl
  | x :: xs => by
    unfold updateFirstUser
    by_cases hp : p x = true
    · rw [if_pos hp, List.find?_cons_of_pos _ (hf x hp), List.find?_cons_of_pos _ hp]
      rfl
    · rw [if_neg hp, List.find?_cons_of_neg _ hp, List.find?_cons_of_neg _ hp]
      exact find_updateFirstUser p f hf xs

theorem updateUserById_find (store : Store) (userId : ObjectId) (b : ProfileBody)
    (u : User) (hu : findUserById store userId = some u) :
    findUserById (updateUserById store userId b).2 userId
      = some { u with name := b.name.getD u.name, email := b.email.getD u.email } := by
  unfold updateUserById
  rw [hu]
  unfold findUserById at hu ⊢
  simp only
  rw [find_updateFirstUser _ _ (fun x hx => by simpa using hx), hu]
  rfl

/-- C20: `updateProfile` changes only the supplied fields. For every stored
user, after the call the user has the name it had when the body has no name,
the email it had when the body has no email, and in every case the role,
`isActive`, password, `lastLogin`, id and `createdAt` it had; on success a
supplied name or email is the stored one. -/
theorem updateProfile_only_supplied (deps : AuthDeps) (store : Store) (userId : ObjectId)
    (body : ProfileBody) (u : User)
    (hu : findUserById store userId = some u) :
    ∃ u2 : User,
      findUserById (updateProfile deps store userId body).2 userId = some u2
      ∧ (body.name = none → u2.name = u.name)
      ∧ (body.email = none → u2.email = u.email)
      ∧ u2.role = u.role ∧ u2.isActive = u.isActive ∧ u2.password = u.password
      ∧ u2.lastLogin = u.lastLogin ∧ u2.id = u.id ∧ u2.createdAt = u.createdAt
      ∧ ((updateProfile deps store userId body).1.success = true →
          (∀ n, body.name = some n → u2.name = n) ∧ (∀ e, body.email = some e → u2.email = e)) := by
  unfold updateProfile
  split
  · refine ⟨u, hu, fun _ => rfl, fun _ => rfl, rfl, rfl, rfl, rfl, rfl, rfl, ?_⟩
    intro h
    simp [sendError] at h
  · split
    · refine ⟨_, updateUserById_find store userId body u hu, ?_, ?_, rfl, rfl, rfl, rfl, rfl,
        rfl, ?_⟩
      · intro h
        simp [h]
      · intro h
        simp [h]
      · intro _
        constructor
        · intro n hn
          simp [hn]
        · intro e he
          simp [he]
    · refine ⟨u, hu, fun _ => rfl, fun _ => rfl, rfl, rfl, rfl, rfl, rfl, rfl, ?_⟩
      intro h
      simp [sendError] at h

/-- Witness for C20: user 1 changes the name and sends no email. -/
theorem updateProfile_only_supplied_witness :
    ∃ u2 : User,
      findUserById
        (updateProfile sampleDeps authStore 1 { name := some "Anna", email := none }).2 1
          = some u2
      ∧ (({ name := some "Anna", email := none } : ProfileBody).name = none →
          u2.name = "Ann")
      ∧ (({ name := some "Anna", email := none } : ProfileBody).email = none →
          u2.email = "ann@example.org")
      ∧ u2.role = "user" ∧ u2.isActive = true ∧ u2.password = "#secret"
      ∧ u2.lastLogin = some 40 ∧ u2.id = 1 ∧ u2.createdAt = 0
      ∧ ((updateProfile sampleDeps authStore 1
            { name := some "Anna", email := none }).1.success = true →
          (∀ n, ({ name := some "Anna", email := none } : ProfileBody).name = some n →
            u2.name = n)
          ∧ (∀ e, ({ name := some "Anna", email := none } : ProfileBody).email = some e →
            u2.email = e)) :=
  updateProfile_only_supplied sampleDeps authStore 1 { name := some "Anna", email := none }
    { sampleUser 1 "Ann" "ann@example.org" with password := "#secret", lastLogin := some 40 }
    (by decide)

/-! ## Profile update: the conflict -/

/-- C21: `updateProfile` answers with status 400 and the message
`Email is already taken`, leaving the store as it was, if and only if the body
supplies a (non-empty) email and a stored user with a different id has that
email; in particular an email that only the caller has is no conflict. -/
theorem updateProfile_conflict_iff (deps : AuthDeps) (store : Store) (userId : ObjectId)
    (body : ProfileBody) :
    (updateProfile deps store userId body
        = (sendError 400 "Email is already taken" none, store)
      ↔ ∃ e, body.email = some e ∧ e ≠ "" ∧
          ∃ v ∈ store.users, sameEmail v.email e = true ∧ v.id ≠ userId)
    ∧ ((updateProfile deps store userId body).1.message = "Email is already taken"
      ↔ ∃ e, body.email = some e ∧ e ≠ "" ∧
          ∃ v ∈ store.users, sameEmail v.email e = true ∧ v.id ≠ userId)
    ∧ (∀ e, body.email = some e →
        (∀ v ∈ store.users, sameEmail v.email e = true → v.id = userId) →
        (updateProfile deps store userId body).1.message ≠ "Email is already taken") := by
  have key : (∃ v, (body.email.filter (fun e => e ≠ "")).bind
        (fun e => findOtherUserByEmail store e userId) = some v)
      ↔ ∃ e, body.email = some e ∧ e ≠ "" ∧
          ∃ v ∈ store.users, sameEmail v.email e = true ∧ v.id ≠ userId := by
    cases hb : body.email with
    | none => simp
    | some e =>
      by_cases he : e = ""
      · simp [Option.filter, he]
      · simp only [Option.filter, he, ne_eq, not_false_eq_true, decide_True, ite_true,
          Option.some_bind, Option.some.injEq, exists_eq_left', true_and]
        unfold findOtherUserByEmail
        rw [← Option.isSome_iff_exists, List.find?_isSome]
        simp
  have hmsg : (updateProfile deps store userId body).1.message = "Email is already taken"
      ↔ ∃ v, (body.email.filter (fun e => e ≠ "")).bind
        (fun e => findOtherUserByEmail store e userId) = some v := by
    unfold updateProfile
    cases hc : (body.email.filter (fun e => e ≠ "")).bind
        (fun e => findOtherUserByEmail store e userId) with
    | some v => simp [sendError]
    | none =>
      simp only [false_iff, exists_false]
      split <;> simp [sendError, sendSuccess, sendResponse]
  have heq : updateProfile deps store userId body
        = (sendError 400 "Email is already taken" none, store)
      ↔ ∃ v, (body.email.filter (fun e => e ≠ "")).bind
        (fun e => findOtherUserByEmail store e userId) = some v := by
    constructor
    · intro h
      rw [← hmsg, h]
      rfl
    · rintro ⟨v, hv⟩
      unfold updateProfile
      rw [hv]
  refine ⟨heq.trans key, hmsg.trans key, ?_⟩
  intro e he hown hm
  obtain ⟨e', he', -, v, hv, hs, hne⟩ := (hmsg.trans key).mp hm
  rw [he] at he'
  cases he'
  exact hne (hown v hv hs)

/-! ## The response envelope -/

/-- C23, as the code has it: `sendResponse` and `sendSuccess` set
`success = (statusCode < 400)`, so the flag is true for a 2xx status and false
for a 4xx or 5xx status; `sendError` sets `success = false` for every status
code; all three write the status code and the message they are given. -/
theorem envelope_success_flag (statusCode : Nat) (message : String) (data : Option Data)
    (errors : Option (List String)) :
    (sendResponse statusCode message data).success = decide (statusCode < 400)
    ∧ (sendSuccess message data statusCode).success = decide (statusCode < 400)
    ∧ (200 ≤ statusCode → statusCode < 300 →
        (sendResponse statusCode message data).success = true
        ∧ (sendSuccess message data statusCode).success = true)
    ∧ (400 ≤ statusCode →
        (sendResponse statusCode message data).success = false
        ∧ (sendSuccess message data statusCode).success = false)
    ∧ (sendError statusCode message errors).success = false
    ∧ (sendResponse statusCode message data).statusCode = statusCode
    ∧ (sendSuccess message data statusCode).statusCode = statusCode
    ∧ (sendError statusCode message errors).statusCode = statusCode
    ∧ (sendResponse statusCode message data).message = message
    ∧ (sendSuccess message data statusCode).message = message
    ∧ (sendError statusCode message errors).message = message := by
  refine ⟨rfl, rfl, ?_, ?_, rfl, rfl, rfl, rfl, rfl, rfl, rfl⟩
  · intro h1 h2
    have : statusCode < 400 := by omega
    simp [sendResponse, sendSuccess, this]
  · intro h
    have : ¬ statusCode < 400 := by omega
    simp [sendResponse, sendSuccess, this]

/-- C23 fails as stated: `sendError` with the status code 200 builds an
envelope with a 2xx status and `success = false`. -/
theorem sendError_2xx_not_success :
    (sendError 200 "done" none).statusCode = 200
    ∧ (sendError 200 "done" none).success = false := by
  decide

/-! ## Creating: keys that are not read -/

/-- C28: `createTask` reads the title, description, priority, due date,
category and tags of the body and nothing else. Two bodies that agree on these
six keys, whatever status and other keys (such as `isCompleted`) they carry,
get the same response and leave the same store, and a stored new task has the
default status `pending`; the form does submit its `status` value. -/
theorem createTask_ignores_status (store : Store) (userId : ObjectId) (b b2 : TaskBody)
    (newId : ObjectId) (now : Date)
    (htitle : b.title = b2.title) (hdesc : b.description = b2.description)
    (hprio : b.priority = b2.priority) (hdue : b.dueDate = b2.dueDate)
    (hcat : b.category = b2.category) (htags : b.tags = b2.tags) :
    createTask store userId b newId now = createTask store userId b2 newId now
    ∧ newTask newId userId b now = newTask newId userId b2 now
    ∧ (newTask newId userId b now).status = "pending"
    ∧ (newTask newId userId b now).isCompleted = false
    ∧ (newTask newId userId b now).completedAt = none
    ∧ (∀ data : TaskFormData, (handleFormSubmit data).status = data.status) := by
  have hnew : newTask newId userId b now = newTask newId userId b2 now := by
    simp [newTask, htitle, hdesc, hprio, hdue, hcat, htags]
  have hvalid : validCreate b = validCreate b2 := by
    simp [validCreate, htitle, hdesc, hprio, hcat, htags]
  refine ⟨?_, hnew, rfl, rfl, rfl, fun _ => rfl⟩
  unfold createTask
  rw [hvalid, hnew]

/-- Witness for C28: two bodies that differ in `status` and in the key
`isCompleted`. -/
theorem createTask_ignores_status_witness :
    createTask sampleStore 1
        { title := some "plan", description := none, status := some "completed",
          priority := none, dueDate := none, category := none, tags := none,
          others := [("isCompleted", "true")] } 30 100
      = createTask sampleStore 1
        { title := some "plan", description := none, status := none,
          priority := none, dueDate := none, category := none, tags := none,
          others := [] } 30 100
    ∧ newTask 30 1
        { title := some "plan", description := none, status := some "completed",
          priority := none, dueDate := none, category := none, tags := none,
          others := [("isCompleted", "true")] } 100
      = newTask 30 1
        { title := some "plan", description := none, status := none,
          priority := none, dueDate := none, category := none, tags := none,
          others := [] } 100
    ∧ (newTask 30 1
        { title := some "plan", description := none, status := some "completed",
          priority := none, dueDate := none, category := none, tags := none,
          others := [("isCompleted", "true")] } 100).status = "pending"
    ∧ (newTask 30 1
        { title := some "plan", description := none, status := some "completed",
          priority := none, dueDate := none, category := none, tags := none,
          others := [("isCompleted", "true")] } 100).isCompleted = false
    ∧ (newTask 30 1
        { title := some "plan", description := none, status := some "completed",
          priority := none, dueDate := none, category := none, tags := none,
          others := [("isCompleted", "true")] } 100).completedAt = none
    ∧ (∀ data : TaskFormData, (handleFormSubmit data).status = data.status) :=
  createTask_ignores_status sampleStore 1
    { title := some "plan", description := none, status := some "completed",
      priority := none, dueDate := none, category := none, tags := none,
      others := [("isCompleted", "true")] }
    { title := some "plan", description := none, status := none,
      priority := none, dueDate := none, category := none, tags := none,
      others := [] } 30 100 rfl rfl rfl rfl rfl rfl

/-! ## The dashboard -/

theorem getTasks_tasks_stored (re : RegExpEngine) (store : Store) (userId : ObjectId)
    (query : Query) (t : PopulatedTask) (ht : t ∈ (getTasks re store userId query).tasks) :
    t.doc ∈ store.tasks := by
  unfold getTasks at ht
  cases hf : buildFilter re userId query with
  | none => simp [hf, Response.tasks, sendError] at ht
  | some f =>
    simp only [hf] at ht
    cases hp : parseInt ((query.lookup "page").getD "1") with
    | none => simp [hp, Response.tasks, sendError] at ht
    | some p =>
      cases hl : parseInt ((query.lookup "limit").getD "10") with
      | none => simp [hp, hl, Response.tasks, sendError] at ht
      | some l =>
        simp only [hp, hl] at ht
        split at ht
        · simp [Response.tasks, sendError] at ht
        · rename_i w hw
          simp only [Response.tasks, sendSuccess, sendResponse] at ht
          obtain ⟨x, hx, rfl⟩ := List.mem_map.mp ht
          have h1 := window_subset _ _ _ _ hw hx
          have h2 := (List.perm_insertionSort _ _).mem_iff.mp h1
          exact (List.mem_filter.mp h2).1

/-- C27, as the code has it: every task placed in the dashboard's
`upcomingTasks` list is a stored task of the requester that has a due date,
with the due date not after `nextWeek` (the instant the loader computes with
`setDate(today.getDate() + 7)`), and that is not completed. The filter has no
lower bound on the due date: tasks that are past due stay in the list, which
the page shows under the title `Upcoming & Overdue`. -/
theorem upcoming_tasks_due_by_next_week (cal : Calendar) (re : RegExpEngine) (store : Store)
    (userId : ObjectId) (today created : Date) (t : PopulatedTask)
    (ht : t ∈ loadUpcomingTasks cal re store userId today created) :
    (∃ dueDate, t.doc.dueDate = some dueDate
      ∧ dueDate ≤ cal.setDate created (cal.getDate today + 7))
    ∧ t.doc.status ≠ "completed"
    ∧ t.doc.user = userId
    ∧ t.doc ∈ store.tasks := by
  unfold loadUpcomingTasks at ht
  obtain ⟨hmem, hkeep⟩ := List.mem_filter.mp ht
  refine ⟨?_, ?_, getTasks_tasks_owned re store userId _ t hmem,
    getTasks_tasks_stored re store userId _ t hmem⟩
  · cases hd : t.doc.dueDate with
    | none => simp [hd] at hkeep
    | some d =>
      simp only [hd, Bool.and_eq_true, decide_eq_true_eq] at hkeep
      exact ⟨d, rfl, hkeep.1⟩
  · cases hd : t.doc.dueDate with
    | none => simp [hd] at hkeep
    | some d =>
      simp only [hd, Bool.and_eq_true, decide_eq_true_eq] at hkeep
      exact hkeep.2

/-- Witness for C27 as amended: the page loads at the instant 1000000000 for
user 1, whose task 40 was due one day earlier. -/
theorem upcoming_tasks_due_by_next_week_witness :
    (∃ dueDate,
      (populate overdueStore
        { sampleTask 40 1 "late" "pending" "low" none 5 with
          dueDate := some 913600000 }).doc.dueDate = some dueDate
      ∧ dueDate ≤ january1970.setDate 1000000000 (january1970.getDate 1000000000 + 7))
    ∧ (populate overdueStore
        { sampleTask 40 1 "late" "pending" "low" none 5 with
          dueDate := some 913600000 }).doc.status ≠ "completed"
    ∧ (populate overdueStore
        { sampleTask 40 1 "late" "pending" "low" none 5 with
          dueDate := some 913600000 }).doc.user = 1
    ∧ (populate overdueStore
        { sampleTask 40 1 "late" "pending" "low" none 5 with
          dueDate := some 913600000 }).doc ∈ overdueStore.tasks :=
  upcoming_tasks_due_by_next_week january1970 sampleEngine overdueStore 1 1000000000 1000000000
    (populate overdueStore
      { sampleTask 40 1 "late" "pending" "low" none 5 with dueDate := some 913600000 })
    (by decide)

/-- C27 fails as stated: the page loads at the instant 1000000000 for user 1,
whose only task is pending and was due one day earlier, at 913600000. The task
is placed in `upcomingTasks` although its due date is before today, so not
within the next 7 days; `nextWeek` is the instant seven days after the load. -/
theorem upcoming_holds_overdue_task :
    (loadUpcomingTasks january1970 sampleEngine overdueStore 1 1000000000 1000000000).map
        (fun t => (t.doc.id, t.doc.status, t.doc.dueDate))
      = [(40, "pending", some 913600000)]
    ∧ (913600000 : Date) < 1000000000
    ∧ (1000000000 : Date) - 913600000 = 86400000
    ∧ january1970.setDate 1000000000 (january1970.getDate 1000000000 + 7)
        = 1000000000 + 7 * 86400000 := by
  decide

/-! ## The tags field of the form -/

theorem splitComma_ne_nil : ∀ s : List Char, splitComma s ≠ []
  | [] => by simp [splitComma]
  | c :: cs => by
    unfold splitComma
    split
    · simp
    · split <;> simp

theorem splitComma_cons_of_ne (c : Char) (cs : List Char) (hc : c ≠ ',') :
    ∃ piece pieces, splitComma cs = piece :: pieces
      ∧ splitComma (c :: cs) = (c :: piece) :: pieces := by
  cases h : splitComma cs with
  | nil => exact absurd h (splitComma_ne_nil cs)
  | cons piece pieces =>
    refine ⟨piece, pieces, rfl, ?_⟩
    rw [splitComma, if_neg hc, h]

theorem splitComma_append_comma (a rest : List Char) (ha : ',' ∉ a) :
    splitComma (a ++ ',' :: rest) = a :: splitComma rest := by
  induction a with
  | nil => simp [splitComma]
  | cons c cs ih =>
    have hc : c ≠ ',' := fun h => ha (by simp [h])
    have hcs : ',' ∉ cs := fun h => ha (List.mem_cons_of_mem _ h)
    obtain ⟨piece, pieces, h1, h2⟩ := splitComma_cons_of_ne c (cs ++ ',' :: rest) hc
    rw [List.cons_append, h2]
    rw [ih hcs] at h1
    cases h1
    rfl

theorem splitComma_no_comma (a : List Char) (ha : ',' ∉ a) : splitComma a = [a] := by
  induction a with
  | nil => rfl
  | cons c cs ih =>
    have hc : c ≠ ',' := fun h => ha (by simp [h])
    have hcs : ',' ∉ cs := fun h => ha (List.mem_cons_of_mem _ h)
    obtain ⟨piece, pieces, h1, h2⟩ := splitComma_cons_of_ne c cs hc
    rw [h2]
    rw [ih hcs] at h1
    cases h1
    rfl

theorem splitComma_joinChars (a : List Char) (rest : List (List Char))
    (h : ∀ t ∈ a :: rest, ',' ∉ t) :
    splitComma (joinChars (a :: rest)) = a :: rest.map (fun t => ' ' :: t) := by
  induction rest generalizing a with
  | nil =>
    simpa [joinChars] using splitComma_no_comma a (h a (List.mem_cons_self _ _))
  | cons b rest ih =>
    have ha := h a (List.mem_cons_self _ _)
    have hb : ∀ t ∈ b :: rest, ',' ∉ t := fun t ht => h t (List.mem_cons_of_mem _ ht)
    rw [joinChars, splitComma_append_comma a _ ha]
    obtain ⟨piece, pieces, h1, h2⟩ :=
      splitComma_cons_of_ne ' ' (joinChars (b :: rest)) (by decide)
    rw [h2]
    rw [ih b hb] at h1
    cases h1
    rfl

theorem trimChars_space (t : List Char) : trimChars (' ' :: t) = trimChars t := by
  unfold trimChars
  rw [List.dropWhile_cons_of_pos (by decide)]

theorem trimChars_ends (s : List Char) (h : trimChars s ≠ []) :
    (∀ c, (trimChars s).head? = some c → isJsWhiteSpace c = false)
    ∧ (∀ c, (trimChars s).getLast? = some c → isJsWhiteSpace c = false) := by
  constructor
  · intro c hc
    have hpre : trimChars s <+: s.dropWhile isJsWhiteSpace := List.rdropWhile_prefix _ _
    have hhead := hpre.head h
    have hnot := List.head_dropWhile_not isJsWhiteSpace s (hpre.ne_nil h)
    rw [List.head?_eq_head h] at hc
    cases hc
    rw [hhead]
    exact hnot
  · intro c hc
    have hlast := List.rdropWhile_last_not isJsWhiteSpace (s.dropWhile isJsWhiteSpace) h
    rw [List.getLast?_eq_getLast _ h] at hc
    cases hc
    simpa using hlast

/-- C30: the tag expression of `handleFormSubmit` (split on commas, trim each
piece, drop the empty pieces) returns a list in which no element is empty or
begins or ends with white space, and which is a sublist, in order, of the
trimmed pieces; it returns the empty list for a missing or empty tags string;
and for every list of tags that are non-empty, trimmed and without a comma,
processing the edit-mode rendering `tags.join(', ')` gives the list back. -/
theorem processTags_spec (tags : Option String) (saved : List String)
    (hsaved : ∀ t ∈ saved, t ≠ "" ∧ trimChars t.data = t.data ∧ ',' ∉ t.data) :
    (∀ x ∈ processTags tags,
      x ≠ ""
      ∧ (∀ c, x.data.head? = some c → isJsWhiteSpace c = false)
      ∧ (∀ c, x.data.getLast? = some c → isJsWhiteSpace c = false))
    ∧ (∀ s, tags = some s →
        List.Sublist ((processTags tags).map String.data) ((splitComma s.data).map trimChars))
    ∧ processTags none = []
    ∧ processTags (some "") = []
    ∧ processTags (some (joinTags saved)) = saved := by
  refine ⟨?_, ?_, rfl, rfl, ?_⟩
  · intro x hx
    unfold processTags at hx
    cases tags with
    | none => simp at hx
    | some s =>
      simp only at hx
      split at hx
      · simp at hx
      · obtain ⟨piece, hp, rfl⟩ := List.mem_map.mp hx
        obtain ⟨hmem, hne⟩ := List.mem_filter.mp hp
        obtain ⟨raw, -, rfl⟩ := List.mem_map.mp hmem
        have hne2 : trimChars raw ≠ [] := by
          intro h
          simp [h] at hne
        refine ⟨?_, (trimChars_ends raw hne2).1, (trimChars_ends raw hne2).2⟩
        intro h
        apply hne2
        have := congrArg String.data h
        simpa using this
  · intro s hs
    subst hs
    unfold processTags
    simp only
    split
    · simp
    · rw [List.map_map]
      have : (String.data ∘ String.mk) = id := by
        funext l
        rfl
      rw [this, List.map_id]
      exact List.filter_sublist _
  · cases saved with
    | nil => rfl
    | cons a rest =>
      have ha := hsaved a (List.mem_cons_self _ _)
      have hcomma : ∀ t ∈ a.data :: rest.map String.data, ',' ∉ t := by
        intro t ht
        rw [← List.map_cons] at ht
        obtain ⟨u, hu, rfl⟩ := List.mem_map.mp ht
        exact (hsaved u hu).2.2
      have hjoin : (joinTags (a :: rest)).data = joinChars (a.data :: rest.map String.data) := rfl
      have hnonempty : joinTags (a :: rest) ≠ "" := by
        intro h
        have h2 := congrArg (fun s => splitComma s.data) h
        simp only [hjoin, splitComma_joinChars _ _ hcomma] at h2
        have h3 : splitComma "".data = [[]] := rfl
        rw [h3] at h2
        have h4 := (List.cons.inj h2).1
        exact ha.1 (by
          cases a
          simp_all)
      unfold processTags
      simp only [hnonempty, if_false, hjoin, splitComma_joinChars _ _ hcomma]
      have htrim : (a.data :: rest.map (fun t => ' ' :: t.data)).map trimChars
          = (a :: rest).map String.data := by
        rw [List.map_cons, List.map_cons, ha.2.1, List.map_map]
        congr 1
        apply List.map_congr_left
        intro t ht
        simp only [Function.comp, trimChars_space]
        exact (hsaved t (List.mem_cons_of_mem _ ht)).2.1
      have hmapmap : (rest.map String.data).map (fun t => ' ' :: t)
          = rest.map (fun t => ' ' :: t.data) := by
        rw [List.map_map]
        rfl
      rw [hmapmap, htrim]
      have hfilter : ((a :: rest).map String.data).filter (fun piece => !piece.isEmpty)
          = (a :: rest).map String.data := by
        rw [List.filter_eq_self]
        intro piece hpiece
        obtain ⟨u, hu, rfl⟩ := List.mem_map.mp hpiece
        have hne := (hsaved u hu).1
        cases u with
        | mk d =>
          cases d with
          | nil => exact absurd rfl hne
          | cons _ _ => rfl
      rw [hfilter, List.map_map]
      have : (String.mk ∘ String.data) = id := by
        funext u
        rfl
      rw [this, List.map_id]

/-- Witness for C30: the saved tags `urgent` and `team meeting`. -/
theorem processTags_spec_witness :
    (∀ x ∈ processTags (some " a , ,b"),
      x ≠ ""
      ∧ (∀ c, x.data.head? = some c → isJsWhiteSpace c = false)
      ∧ (∀ c, x.data.getLast? = some c → isJsWhiteSpace c = false))
    ∧ (∀ s, some " a , ,b" = some s →
        List.Sublist ((processTags (some " a , ,b")).map String.data)
          ((splitComma s.data).map trimChars))
    ∧ processTags none = []
    ∧ processTags (some "") = []
    ∧ processTags (some (joinTags ["urgent", "team meeting"])) = ["urgent", "team meeting"] :=
  processTags_spec (some " a , ,b") ["urgent", "team meeting"] (by decide)

/-! ## Statistics: the overdue count -/

theorem overdueFilter_iff (userId : ObjectId) (now : Date) (t : Task) :
    overdueFilter userId now t = true ↔ isOverdue userId now t := by
  unfold overdueFilter isOverdue
  cases h : t.dueDate <;> simp [and_assoc]

/-- C24: for every store and instant, `getTaskStats` answers with success and
`overdueTasks` is the number of the requester's tasks that have a due date
before the instant and a status other than `completed`. One more stored task
adds 1 to the count when it is such a task and 0 otherwise: a task of another
user, a task without a due date and a completed task add 0. In the scenario of
the spec, after a task due the day before is created the count is 1, and after
its status is updated to `completed` the count is 0. -/
theorem getTaskStats_overdue (matchUncast : ObjectId → ObjectId → Bool) (store : Store)
    (userId : ObjectId) (now : Date) :
    (∃ statusStats priorityStats,
      getTaskStats matchUncast store userId now =
        sendSuccess "Task statistics retrieved successfully"
          (some (.stats statusStats priorityStats
            (store.tasks.filter (fun t => decide (isOverdue userId now t))).length)) 200)
    ∧ (getTaskStats matchUncast store userId now).overdueTasks
        = some (store.tasks.filter (fun t => decide (isOverdue userId now t))).length
    ∧ (∀ t : Task,
        (getTaskStats matchUncast { store with tasks := store.tasks ++ [t] } userId
            now).overdueTasks
          = some ((store.tasks.filter (fun t => decide (isOverdue userId now t))).length
              + (if isOverdue userId now t then 1 else 0)))
    ∧ (∀ t : Task, t.user ≠ userId → ¬ isOverdue userId now t)
    ∧ (∀ t : Task, t.dueDate = none → ¬ isOverdue userId now t)
    ∧ (∀ t : Task, t.status = "completed" → ¬ isOverdue userId now t)
    ∧ (∀ (t : Task) (d : Date), t.user = userId → t.dueDate = some d → d < now →
        t.status = "pending" → isOverdue userId now t)
    ∧ (getTaskStats matchUncast
        (createTask { users := [], tasks := [] } 1
          { title := some "late", description := none, status := none, priority := none,
            dueDate := some 913600000, category := none, tags := none, others := [] }
          40 950000000).2 1 1000000000).overdueTasks = some 1
    ∧ (getTaskStats matchUncast
        (updateTask
          (createTask { users := [], tasks := [] } 1
            { title := some "late", description := none, status := none, priority := none,
              dueDate := some 913600000, category := none, tags := none, others := [] }
            40 950000000).2 1 (some 40)
          { title := none, description := none, status := some "completed", priority := none,
            dueDate := none, category := none, tags := none }).2
        1 1000000000).overdueTasks = some 0 := by
  have hfun : overdueFilter userId now = fun t => decide (isOverdue userId now t) := by
    funext t
    rw [Bool.eq_iff_iff, overdueFilter_iff, decide_eq_true_iff]
  refine ⟨⟨getUserStats store userId,
    groupCount ((store.tasks.filter (fun t => matchUncast t.user userId)).map Task.priority),
    ?_⟩, ?_, ?_, ?_, ?_, ?_, ?_, ?_, ?_⟩
  · unfold getTaskStats
    simp only [hfun]
  · simp only [getTaskStats, Response.overdueTasks, sendSuccess, sendResponse, hfun]
  · intro t
    simp only [getTaskStats, Response.overdueTasks, sendSuccess, sendResponse, hfun,
      List.filter_append, List.length_append, Option.some.injEq, Nat.add_left_cancel_iff]
    by_cases h : isOverdue userId now t <;> simp [List.filter, h]
  · intro t h ho
    exact h ho.1
  · intro t h ho
    obtain ⟨d, hd, -⟩ := ho.2.1
    rw [h] at hd
    cases hd
  · intro t h ho
    exact ho.2.2 h
  · intro t d hu hd hlt hs
    refine ⟨hu, ⟨d, by rw [hd]; rfl, hlt⟩, ?_⟩
    rw [hs]
    decide
  · simp only [getTaskStats, Response.overdueTasks, sendSuccess, sendResponse]
    decide
  · simp only [getTaskStats, Response.overdueTasks, sendSuccess, sendResponse]
    decide

/-! ## Changing the password -/

theorem savePassword_find (deps : AuthDeps) (store : Store) (userId : ObjectId) (u : User)
    (newPassword : String) (hu : findUserById store userId = some u) :
    findUserById (savePassword deps store u newPassword) userId
      = some { u with password := deps.hashPassword newPassword } := by
  have hid : u.id = userId := by
    have := List.find?_some hu
    simpa using this
  subst hid
  unfold savePassword findUserById at *
  simp only
  rw [find_updateFirstUser _ _ (fun x hx => by simpa using hx), hu]
  rfl

/-- C22: for the stored user of the caller, `changePassword` succeeds only if
the current password matches the stored hash, and on a match it succeeds for
every new password that the schema accepts (`save` throws on another one). On
a mismatch it answers with status 400 and the message
`Current password is incorrect` and leaves the store, with the stored
password, as it was; on success the stored password is the hash of the new
password and the user record is otherwise the record it was: no other field
changes. -/
theorem changePassword_spec (deps : AuthDeps) (store : Store) (userId : ObjectId) (u : User)
    (body : PasswordBody)
    (hu : findUserById store userId = some u) :
    (deps.comparePassword body.currentPassword u.password = false →
        changePassword deps store userId body
          = (sendError 400 "Current password is incorrect" none, store)
        ∧ (changePassword deps store userId body).1.success = false
        ∧ findUserById (changePassword deps store userId body).2 userId = some u)
    ∧ ((changePassword deps store userId body).1.success = true →
        deps.comparePassword body.currentPassword u.password = true)
    ∧ (deps.comparePassword body.currentPassword u.password = true →
        deps.validPassword body.newPassword = true →
        (changePassword deps store userId body).1
          = sendSuccess "Password changed successfully" none 200
        ∧ (changePassword deps store userId body).1.success = true
        ∧ (changePassword deps store userId body).2.tasks = store.tasks
        ∧ ∃ u2 : User,
            findUserById (changePassword deps store userId body).2 userId = some u2
            ∧ u2.password = deps.hashPassword body.newPassword
            ∧ u2 = { u with password := u2.password }
            ∧ u2.id = u.id ∧ u2.name = u.name ∧ u2.email = u.email ∧ u2.role = u.role
            ∧ u2.isActive = u.isActive ∧ u2.lastLogin = u.lastLogin
            ∧ u2.createdAt = u.createdAt ∧ u2.updatedAt = u.updatedAt) := by
  refine ⟨fun hc => ?_, fun hs => ?_, fun hc hvalid => ?_⟩
  · have h : changePassword deps store userId body
        = (sendError 400 "Current password is incorrect" none, store) := by
      unfold changePassword
      simp [hu, hc]
    rw [h]
    exact ⟨rfl, rfl, hu⟩
  · cases hc : deps.comparePassword body.currentPassword u.password with
    | true => rfl
    | false =>
      unfold changePassword at hs
      simp [hu, hc, sendError] at hs
  · have h : changePassword deps store userId body
        = (sendSuccess "Password changed successfully" none 200,
           savePassword deps store u body.newPassword) := by
      unfold changePassword
      simp [hu, hc, hvalid]
    rw [h]
    exact ⟨rfl, rfl, rfl, _, savePassword_find deps store userId u body.newPassword hu,
      rfl, rfl, rfl, rfl, rfl, rfl, rfl, rfl, rfl, rfl⟩

/-- Witness for C22: user 1, whose password is `secret`, changes it to `fresh`. -/
theorem changePassword_spec_witness :
    findUserById authStore 1
        = some { sampleUser 1 "Ann" "ann@example.org" with
                  password := "#secret", lastLogin := some 40 }
    ∧ (changePassword sampleDeps authStore 1
        { currentPassword := "secret", newPassword := "fresh" }).1.success = true
    ∧ ∃ u2 : User,
        findUserById (changePassword sampleDeps authStore 1
          { currentPassword := "secret", newPassword := "fresh" }).2 1 = some u2
        ∧ u2.password = "#fresh"
        ∧ u2 = { sampleUser 1 "Ann" "ann@example.org" with
                  password := "#fresh", lastLogin := some 40 } :=
  ⟨by decide,
   ((changePassword_spec sampleDeps authStore 1
      { sampleUser 1 "Ann" "ann@example.org" with password := "#secret", lastLogin := some 40 }
      { currentPassword := "secret", newPassword := "fresh" } (by decide)).2.2
        (by decide) (by decide)).2.1,
   by decide⟩

/-! ## Deleting a user -/

theorem eraseP_eq_filter_of_nodup (id : ObjectId) :
    ∀ l : List User, (l.map User.id).Nodup →
      l.eraseP (fun u => decide (u.id = id)) = l.filter (fun u => !decide (u.id = id))
  | [], _ => rfl
  | x :: xs, h => by
    rw [List.map_cons, List.nodup_cons] at h
    by_cases hx : x.id = id
    · rw [List.eraseP_cons_of_pos (by simpa using hx), List.filter_cons_of_neg (by simpa using hx)]
      symm
      rw [List.filter_eq_self]
      intro y hy
      have : y.id ≠ id := by
        intro hyid
        apply h.1
        rw [hx, ← hyid]
        exact List.mem_map_of_mem _ hy
      simpa using this
    · rw [List.eraseP_cons_of_neg (by simpa using hx), List.filter_cons_of_pos (by simpa using hx),
        eraseP_eq_filter_of_nodup id xs h.2]

/-- C25: for every stored user (in a store where no two users share an id),
`deleteUser` answers with success; afterwards the task store holds exactly the
tasks of the other owners, in their order, so no task of the user remains, and
the user store holds exactly the other users, so the user's record is gone;
for an id of no user it answers with status 404 and the message
`User not found` and leaves the store as it was. -/
theorem deleteUser_cascade (store : Store) (id absent : ObjectId) (u : User)
    (hids : (store.users.map User.id).Nodup)
    (hu : findUserById store id = some u)
    (habsent : ∀ v ∈ store.users, v.id ≠ absent) :
    (deleteUser store (some id)).1
        = sendSuccess "User and associated tasks deleted successfully" none 200
    ∧ (deleteUser store (some id)).2.tasks = store.tasks.filter (fun t => !decide (t.user = id))
    ∧ (deleteUser store (some id)).2.users = store.users.filter (fun v => !decide (v.id = id))
    ∧ (∀ t ∈ (deleteUser store (some id)).2.tasks, t.user ≠ id)
    ∧ (∀ v ∈ (deleteUser store (some id)).2.users, v.id ≠ id)
    ∧ findUserById (deleteUser store (some id)).2 id = none
    ∧ (∀ t ∈ store.tasks, t.user ≠ id → t ∈ (deleteUser store (some id)).2.tasks)
    ∧ (∀ v ∈ store.users, v.id ≠ id → v ∈ (deleteUser store (some id)).2.users)
    ∧ deleteUser store (some absent) = (sendError 404 "User not found" none, store) := by
  have h : deleteUser store (some id)
      = (sendSuccess "User and associated tasks deleted successfully" none 200,
         findUserByIdAndDelete (deleteManyTasks store id) id) := by
    unfold deleteUser
    simp [hu]
  have husers : (deleteUser store (some id)).2.users
      = store.users.filter (fun v => !decide (v.id = id)) := by
    rw [h]
    exact eraseP_eq_filter_of_nodup id store.users hids
  have htasks : (deleteUser store (some id)).2.tasks
      = store.tasks.filter (fun t => !decide (t.user = id)) := by
    rw [h]
    rfl
  refine ⟨by rw [h], htasks, husers, ?_, ?_, ?_, ?_, ?_, ?_⟩
  · intro t ht
    rw [htasks] at ht
    simpa using (List.mem_filter.mp ht).2
  · intro v hv
    rw [husers] at hv
    simpa using (List.mem_filter.mp hv).2
  · unfold findUserById
    rw [List.find?_eq_none, husers]
    intro v hv
    simpa using (List.mem_filter.mp hv).2
  · intro t ht hne
    rw [htasks]
    exact List.mem_filter.mpr ⟨ht, by simpa using hne⟩
  · intro v hv hne
    rw [husers]
    exact List.mem_filter.mpr ⟨hv, by simpa using hne⟩
  · have hnone : findUserById store absent = none := by
      unfold findUserById
      rw [List.find?_eq_none]
      intro v hv
      simpa using habsent v hv
    unfold deleteUser
    simp [hnone]

/-- Witness for C25: user 1 of the sample store, who owns three tasks, and
the id 9 of no user. -/
theorem deleteUser_cascade_witness :
    (deleteUser sampleStore (some 1)).1
        = sendSuccess "User and associated tasks deleted successfully" none 200
    ∧ (deleteUser sampleStore (some 1)).2.tasks
        = sampleStore.tasks.filter (fun t => !decide (t.user = 1))
    ∧ (deleteUser sampleStore (some 1)).2.users
        = sampleStore.users.filter (fun v => !decide (v.id = 1))
    ∧ (∀ t ∈ (deleteUser sampleStore (some 1)).2.tasks, t.user ≠ 1)
    ∧ (∀ v ∈ (deleteUser sampleStore (some 1)).2.users, v.id ≠ 1)
    ∧ findUserById (deleteUser sampleStore (some 1)).2 1 = none
    ∧ (∀ t ∈ sampleStore.tasks, t.user ≠ 1 → t ∈ (deleteUser sampleStore (some 1)).2.tasks)
    ∧ (∀ v ∈ sampleStore.users, v.id ≠ 1 → v ∈ (deleteUser sampleStore (some 1)).2.users)
    ∧ deleteUser sampleStore (some 9) = (sendError 404 "User not found" none, sampleStore) :=
  deleteUser_cascade sampleStore 1 9 (sampleUser 1 "Ann" "ann@example.org")
    (by decide) (by decide) (by decide)

/-! ## The user routes -/

/-- C29: `getUserById` makes no ownership or role check. For every
authenticated requester, whatever its id and role (so also a requester who is
no admin and asks for another user), and every id of a stored user `u`, the
route answers with success and with the record of `u`, that is its id, name,
email, role, `isActive`, `lastLogin`, `createdAt` and `updatedAt`, together
with the task statistics of `u`: the numbers of the tasks owned by `u` per
status and in total. The routes of `getUsers`, `updateUserStatus` and
`deleteUser` answer a requester whose role is not `admin` with status 403 and
leave the store as it was. -/
theorem getUserById_unrestricted (store : Store) (requester u : User) (id : ObjectId)
    (query : Query) (target : Option ObjectId) (body : UserStatusBody)
    (hu : findUserById store id = some u) :
    (∃ (user : UserView) (taskStats : StatusStats),
      getUserByIdRoute store requester (some id)
        = sendSuccess "User retrieved successfully" (some (.userWithStats user taskStats)) 200
      ∧ (getUserByIdRoute store requester (some id)).statusCode = 200
      ∧ (getUserByIdRoute store requester (some id)).success = true
      ∧ user.id = u.id ∧ u.id = id ∧ user.name = u.name ∧ user.email = u.email
      ∧ user.role = u.role ∧ user.isActive = u.isActive ∧ user.lastLogin = u.lastLogin
      ∧ user.createdAt = u.createdAt ∧ user.updatedAt = u.updatedAt
      ∧ taskStats.total = (store.tasks.filter (fun t => decide (t.user = id))).length
      ∧ taskStats.pending = (store.tasks.filter (fun t =>
          decide (t.user = id) && decide (t.status = "pending"))).length
      ∧ taskStats.inProgress = (store.tasks.filter (fun t =>
          decide (t.user = id) && decide (t.status = "in-progress"))).length
      ∧ taskStats.completed = (store.tasks.filter (fun t =>
          decide (t.user = id) && decide (t.status = "completed"))).length)
    ∧ (requester.role ≠ "admin" →
        (getUsersRoute store requester query).statusCode = 403
        ∧ (updateUserStatusRoute store requester target body).1.statusCode = 403
        ∧ (updateUserStatusRoute store requester target body).2 = store
        ∧ (deleteUserRoute store requester target).1.statusCode = 403
        ∧ (deleteUserRoute store requester target).2 = store) := by
  have hid : u.id = id := by
    have := List.find?_some hu
    simpa using this
  constructor
  · have h : getUserByIdRoute store requester (some id)
        = sendSuccess "User retrieved successfully"
            (some (.userWithStats u.view (getUserStats store u.id))) 200 := by
      unfold getUserByIdRoute getUserById
      simp [hu]
    refine ⟨u.view, getUserStats store u.id, h, by rw [h]; rfl, by rw [h]; rfl, rfl, hid, rfl,
      rfl, rfl, rfl, rfl, rfl, rfl, ?_, ?_, ?_, ?_⟩ <;>
      simp [getUserStats, hid, List.filter_filter, Bool.and_comm]
  · intro hrole
    have hadmin : adminAuth requester = some (sendError 403 "Access denied" none) := by
      unfold adminAuth
      rw [if_neg hrole]
    refine ⟨?_, ?_, ?_, ?_, ?_⟩ <;>
      simp [getUsersRoute, updateUserStatusRoute, deleteUserRoute, hadmin, sendError]

/-- Witness for C29: user 2, who is no admin, asks for user 1 and gets the
name, email and role of user 1 and the counts of the three tasks of user 1. -/
theorem getUserById_unrestricted_witness :
    (sampleUser 2 "Bob" "bob@example.org").role ≠ "admin"
    ∧ ∃ (user : UserView) (taskStats : StatusStats),
      getUserByIdRoute sampleStore (sampleUser 2 "Bob" "bob@example.org") (some 1)
        = sendSuccess "User retrieved successfully" (some (.userWithStats user taskStats)) 200
      ∧ (getUserByIdRoute sampleStore (sampleUser 2 "Bob" "bob@example.org") (some 1)).statusCode
          = 200
      ∧ (getUserByIdRoute sampleStore (sampleUser 2 "Bob" "bob@example.org") (some 1)).success
          = true
      ∧ user.id = (sampleUser 1 "Ann" "ann@example.org").id
      ∧ (sampleUser 1 "Ann" "ann@example.org").id = 1
      ∧ user.name = (sampleUser 1 "Ann" "ann@example.org").name
      ∧ user.email = (sampleUser 1 "Ann" "ann@example.org").email
      ∧ user.role = (sampleUser 1 "Ann" "ann@example.org").role
      ∧ user.isActive = (sampleUser 1 "Ann" "ann@example.org").isActive
      ∧ user.lastLogin = (sampleUser 1 "Ann" "ann@example.org").lastLogin
      ∧ user.createdAt = (sampleUser 1 "Ann" "ann@example.org").createdAt
      ∧ user.updatedAt = (sampleUser 1 "Ann" "ann@example.org").updatedAt
      ∧ taskStats.total = (sampleStore.tasks.filter (fun t => decide (t.user = 1))).length
      ∧ taskStats.pending = (sampleStore.tasks.filter (fun t =>
          decide (t.user = 1) && decide (t.status = "pending"))).length
      ∧ taskStats.inProgress = (sampleStore.tasks.filter (fun t =>
          decide (t.user = 1) && decide (t.status = "in-progress"))).length
      ∧ taskStats.completed = (sampleStore.tasks.filter (fun t =>
          decide (t.user = 1) && decide (t.status = "completed"))).length :=
  ⟨by decide,
   (getUserById_unrestricted sampleStore (sampleUser 2 "Bob" "bob@example.org")
      (sampleUser 1 "Ann" "ann@example.org") 1 [] (some 1) { isActive := some false }
      (by decide)).1⟩

/-! ## Failure and the store -/

theorem registerWithFaults_none (deps : AuthDeps) (store : Store) (body : RegisterBody)
    (newId : ObjectId) (now : Date) :
    registerWithFaults (fun _ => false) deps store body newId now
      = register deps store body newId now := by
  simp [registerWithFaults, register]

theorem loginWithFaults_none (deps : AuthDeps) (store : Store) (body : LoginBody)
    (now : Date) :
    loginWithFaults (fun _ => false) deps store body now = login deps store body now := by
  simp [loginWithFaults, login]

theorem updateProfileWithFaults_none (deps : AuthDeps) (store : Store) (userId : ObjectId)
    (body : ProfileBody) :
    updateProfileWithFaults (fun _ => false) deps store userId body
      = updateProfile deps store userId body := by
  unfold updateProfileWithFaults updateProfile updateProfileWrite
  cases h : body.email.filter (fun e => e ≠ "") with
  | none => simp
  | some e =>
    simp only [Option.some_bind, Bool.false_eq_true, if_false]

theorem changePasswordWithFaults_none (deps : AuthDeps) (store : Store) (userId : ObjectId)
    (body : PasswordBody) :
    changePasswordWithFaults (fun _ => false) deps store userId body
      = changePassword deps store userId body := by
  simp [changePasswordWithFaults, changePassword]

theorem createTaskWithFaults_none (store : Store) (userId : ObjectId) (body : TaskBody)
    (newId : ObjectId) (now : Date) :
    createTaskWithFaults (fun _ => false) store userId body newId now
      = createTask store userId body newId now := by
  simp [createTaskWithFaults, createTask]

theorem updateTaskWithFaults_none (store : Store) (userId : ObjectId) (id : Option ObjectId)
    (body : TaskUpdateBody) :
    updateTaskWithFaults (fun _ => false) store userId id body
      = updateTask store userId id body := by
  simp [updateTaskWithFaults, updateTask]

theorem deleteTaskWithFaults_none (store : Store) (userId : ObjectId) (id : Option ObjectId) :
    deleteTaskWithFaults (fun _ => false) store userId id = deleteTask store userId id := by
  simp [deleteTaskWithFaults, deleteTask]

theorem toggleTaskCompletionWithFaults_none (store : Store) (userId : ObjectId)
    (id : Option ObjectId) (now : Date) :
    toggleTaskCompletionWithFaults (fun _ => false) store userId id now
      = toggleTaskCompletion store userId id now := by
  simp [toggleTaskCompletionWithFaults, toggleTaskCompletion]

theorem updateUserStatusWithFaults_none (store : Store) (id : Option ObjectId)
    (body : UserStatusBody) :
    updateUserStatusWithFaults (fun _ => false) store id body
      = updateUserStatus store id body := by
  simp [updateUserStatusWithFaults]

theorem deleteUserWithFaults_none (store : Store) (id : Option ObjectId) :
    deleteUserWithFaults (fun _ => false) store id = deleteUser store id := by
  simp [deleteUserWithFaults, deleteUser]

theorem registerWithFaults_failure (fault : Nat → Bool) (deps : AuthDeps) (store : Store)
    (body : RegisterBody) (newId : ObjectId) (now : Date)
    (h : (registerWithFaults fault deps store body newId now).1.success = false) :
    (registerWithFaults fault deps store body newId now).2 = store := by
  unfold registerWithFaults at h ⊢
  repeat' split
  all_goals simp_all [sendSuccess, sendResponse, sendError]

theorem loginWithFaults_failure (fault : Nat → Bool) (deps : AuthDeps) (store : Store)
    (body : LoginBody) (now : Date)
    (h : (loginWithFaults fault deps store body now).1.success = false) :
    (loginWithFaults fault deps store body now).2 = store := by
  unfold loginWithFaults at h ⊢
  repeat' split
  all_goals simp_all [sendSuccess, sendResponse, sendError]

theorem updateProfileWrite_failure (fault : Nat → Bool) (deps : AuthDeps) (store : Store)
    (userId : ObjectId) (body : ProfileBody)
    (h : (updateProfileWrite fault deps store userId body).1.success = false) :
    (updateProfileWrite fault deps store userId body).2 = store := by
  unfold updateProfileWrite at h ⊢
  split_ifs at h ⊢
  all_goals first
    | rfl
    | (simp [sendSuccess, sendResponse] at h)

theorem updateProfileWithFaults_failure (fault : Nat → Bool) (deps : AuthDeps)
    (store : Store) (userId : ObjectId) (body : ProfileBody)
    (h : (updateProfileWithFaults fault deps store userId body).1.success = false) :
    (updateProfileWithFaults fault deps store userId body).2 = store := by
  unfold updateProfileWithFaults at h ⊢
  split
  · split
    · rfl
    · split
      · rfl
      · rename_i h1 h2 _ h3
        rw [h1] at h
        simp only [h2, h3] at h
        exact updateProfileWrite_failure fault deps store userId body h
  · rename_i h1
    rw [h1] at h
    exact updateProfileWrite_failure fault deps store userId body h

theorem changePasswordWithFaults_failure (fault : Nat → Bool) (deps : AuthDeps)
    (store : Store) (userId : ObjectId) (body : PasswordBody)
    (h : (changePasswordWithFaults fault deps store userId body).1.success = false) :
    (changePasswordWithFaults fault deps store userId body).2 = store := by
  unfold changePasswordWithFaults at h ⊢
  repeat' split
  all_goals simp_all [sendSuccess, sendResponse, sendError]

theorem createTaskWithFaults_failure (fault : Nat → Bool) (store : Store) (userId : ObjectId)
    (body : TaskBody) (newId : ObjectId) (now : Date) (hf : fault 1 = false)
    (h : (createTaskWithFaults fault store userId body newId now).1.success = false) :
    (createTaskWithFaults fault store userId body newId now).2 = store := by
  unfold createTaskWithFaults at h ⊢
  repeat' split
  all_goals simp_all [sendSuccess, sendResponse, sendError]

theorem updateTaskWithFaults_failure (fault : Nat → Bool) (store : Store) (userId : ObjectId)
    (id : Option ObjectId) (body : TaskUpdateBody) (hf : fault 2 = false)
    (h : (updateTaskWithFaults fault store userId id body).1.success = false) :
    (updateTaskWithFaults fault store userId id body).2 = store := by
  unfold updateTaskWithFaults at h ⊢
  repeat' split
  all_goals simp_all [sendSuccess, sendResponse, sendError]

theorem deleteTaskWithFaults_failure (fault : Nat → Bool) (store : Store) (userId : ObjectId)
    (id : Option ObjectId)
    (h : (deleteTaskWithFaults fault store userId id).1.success = false) :
    (deleteTaskWithFaults fault store userId id).2 = store := by
  unfold deleteTaskWithFaults at h ⊢
  repeat' split
  all_goals simp_all [sendSuccess, sendResponse, sendError]

theorem toggleTaskCompletionWithFaults_failure (fault : Nat → Bool) (store : Store)
    (userId : ObjectId) (id : Option ObjectId) (now : Date) (hf : fault 2 = false)
    (h : (toggleTaskCompletionWithFaults fault store userId id now).1.success = false) :
    (toggleTaskCompletionWithFaults fault store userId id now).2 = store := by
  unfold toggleTaskCompletionWithFaults at h ⊢
  repeat' split
  all_goals simp_all [sendSuccess, sendResponse, sendError]

theorem updateUserStatusWithFaults_failure (fault : Nat → Bool) (store : Store)
    (id : Option ObjectId) (body : UserStatusBody)
    (h : (updateUserStatusWithFaults fault store id body).1.success = false) :
    (updateUserStatusWithFaults fault store id body).2 = store := by
  unfold updateUserStatusWithFaults updateUserStatus at h ⊢
  repeat' split
  all_goals simp_all [sendSuccess, sendResponse, sendError]

theorem deleteUserWithFaults_failure (fault : Nat → Bool) (store : Store)
    (id : Option ObjectId) (hf : fault 2 = false)
    (h : (deleteUserWithFaults fault store id).1.success = false) :
    (deleteUserWithFaults fault store id).2 = store := by
  unfold deleteUserWithFaults at h ⊢
  repeat' split
  all_goals simp_all [sendSuccess, sendResponse, sendError]

/-- C26, as the code has it: whichever store calls fail, `register`, `login`,
`updateProfile`, `changePassword`, `deleteTask` and `updateUserStatus` report a
failure only with the store as it was before the call; `createTask`,
`updateTask`, `toggleTaskCompletion` and `deleteUser` do so provided the store
call that follows their first write (the read-back of the created task, the
query of `populate`, the deletion of the user after the deletion of the tasks)
does not fail. Every handler returns a response for every `fault`. -/
theorem failure_leaves_store_unchanged (fault : Nat → Bool) (deps : AuthDeps) (store : Store)
    (userId newId : ObjectId) (id : Option ObjectId) (now : Date)
    (registerBody : RegisterBody) (loginBody : LoginBody) (profileBody : ProfileBody)
    (passwordBody : PasswordBody) (taskBody : TaskBody) (updateBody : TaskUpdateBody)
    (statusBody : UserStatusBody) :
    ((registerWithFaults fault deps store registerBody newId now).1.success = false →
      (registerWithFaults fault deps store registerBody newId now).2 = store)
    ∧ ((loginWithFaults fault deps store loginBody now).1.success = false →
      (loginWithFaults fault deps store loginBody now).2 = store)
    ∧ ((updateProfileWithFaults fault deps store userId profileBody).1.success = false →
      (updateProfileWithFaults fault deps store userId profileBody).2 = store)
    ∧ ((changePasswordWithFaults fault deps store userId passwordBody).1.success = false →
      (changePasswordWithFaults fault deps store userId passwordBody).2 = store)
    ∧ ((deleteTaskWithFaults fault store userId id).1.success = false →
      (deleteTaskWithFaults fault store userId id).2 = store)
    ∧ ((updateUserStatusWithFaults fault store id statusBody).1.success = false →
      (updateUserStatusWithFaults fault store id statusBody).2 = store)
    ∧ (fault 1 = false →
      (createTaskWithFaults fault store userId taskBody newId now).1.success = false →
      (createTaskWithFaults fault store userId taskBody newId now).2 = store)
    ∧ (fault 2 = false →
      (updateTaskWithFaults fault store userId id updateBody).1.success = false →
      (updateTaskWithFaults fault store userId id updateBody).2 = store)
    ∧ (fault 2 = false →
      (toggleTaskCompletionWithFaults fault store userId id now).1.success = false →
      (toggleTaskCompletionWithFaults fault store userId id now).2 = store)
    ∧ (fault 2 = false →
      (deleteUserWithFaults fault store id).1.success = false →
      (deleteUserWithFaults fault store id).2 = store) :=
  ⟨registerWithFaults_failure fault deps store registerBody newId now,
   loginWithFaults_failure fault deps store loginBody now,
   updateProfileWithFaults_failure fault deps store userId profileBody,
   changePasswordWithFaults_failure fault deps store userId passwordBody,
   deleteTaskWithFaults_failure fault store userId id,
   updateUserStatusWithFaults_failure fault store id statusBody,
   createTaskWithFaults_failure fault store userId taskBody newId now,
   updateTaskWithFaults_failure fault store userId id updateBody,
   toggleTaskCompletionWithFaults_failure fault store userId id now,
   deleteUserWithFaults_failure fault store id⟩

/-- C26 fails as stated: when `User.findByIdAndDelete` fails in `deleteUser`,
the response is the 500 failure, and the tasks of the user are gone from the
store while the user is still there. Likewise a failure of the read-back in
`createTask` leaves the new task stored, and a failure of the query of
`populate` in `updateTask` and `toggleTaskCompletion` leaves the update
applied, each under a response with `success = false`. -/
theorem deleteUser_fails_after_deleting_tasks :
    (deleteUserWithFaults (fun k => k == 2) sampleStore (some 1)).1.success = false
    ∧ (deleteUserWithFaults (fun k => k == 2) sampleStore (some 1)).1.statusCode = 500
    ∧ (deleteUserWithFaults (fun k => k == 2) sampleStore (some 1)).2 ≠ sampleStore
    ∧ (deleteUserWithFaults (fun k => k == 2) sampleStore (some 1)).2.users
        = sampleStore.users
    ∧ ((deleteUserWithFaults (fun k => k == 2) sampleStore (some 1)).2.tasks.map
        (fun t => t.id)) = [12]
    ∧ sampleStore.tasks.map (fun t => t.id) = [10, 11, 12, 13]
    ∧ (createTaskWithFaults (fun k => k == 1) sampleStore 1
        ⟨⟨some "t", none, none, none, none, none, none⟩, []⟩ 99 100).1.success = false
    ∧ ((createTaskWithFaults (fun k => k == 1) sampleStore 1
        ⟨⟨some "t", none, none, none, none, none, none⟩, []⟩ 99 100).2.tasks.map
        (fun t => t.id)) = [10, 11, 12, 13, 99]
    ∧ (updateTaskWithFaults (fun k => k == 2) sampleStore 1 (some 10)
        ⟨some "t", none, none, none, none, none, none⟩).1.success = false
    ∧ ((updateTaskWithFaults (fun k => k == 2) sampleStore 1 (some 10)
        ⟨some "t", none, none, none, none, none, none⟩).2.tasks.map
        (fun t => t.title)) = ["t", "read", "cook", "walk"]
    ∧ (toggleTaskCompletionWithFaults (fun k => k == 2) sampleStore 1 (some 10)
        100).1.success = false
    ∧ ((toggleTaskCompletionWithFaults (fun k => k == 2) sampleStore 1 (some 10)
        100).2.tasks.map (fun t => t.status))
        = ["completed", "in-progress", "pending", "completed"] := by
  decide

/-- An instance of C26 as amended: `Task.deleteMany` fails in `deleteUser` for
user 1 of the sample store; the response is a failure and the store is the
sample store. -/
theorem failure_leaves_store_unchanged_witness :
    (deleteUserWithFaults (fun k => k == 1) sampleStore (some 1)).1.success = false
    ∧ (deleteUserWithFaults (fun k => k == 1) sampleStore (some 1)).2 = sampleStore :=
  ⟨by decide,
   (failure_leaves_store_unchanged (fun k => k == 1) sampleDeps sampleStore 1 99 (some 1) 100
      ⟨"Cy", "cy@example.org", "secret"⟩ ⟨"ann@example.org", "secret"⟩ ⟨none, none⟩
      ⟨"secret", "other"⟩
      ⟨⟨some "t", none, none, none, none, none, none⟩, []⟩
      ⟨none, none, none, none, none, none, none⟩ ⟨none⟩).2.2.2.2.2.2.2.2.2
     (by decide) (by decide)⟩

end TaskApi
